import Mathlib

/-!
# Scene composition and shading-state pipeline

A shallow embedding of `SceneManager.cpp`: the texture and material
registries, their tag lookups, and the dispatcher methods that push transform,
colour and texture state to the shader.

The type parameter `F` stands for the C++ type `float`.  Definitions are
polymorphic in `F`, so they run on any computable field (for instance `ℚ`) and
can be read over `ℝ` when a statement is about exact arithmetic.
-/

set_option autoImplicit false

/-! ## Machine integers -/

/-- Conversion of a `GLuint` (32-bit unsigned) value to `int` (32-bit signed), as
performed by the assignment `textureID = m_textureIDs[index].ID` in
`FindTextureID`: the value is kept when it is below `2^31`, and wraps to
`value - 2^32` otherwise. -/
def GLuintToInt (u : Nat) : Int :=
  if u % 4294967296 < 2147483648 then ((u % 4294967296 : Nat) : Int)
  else ((u % 4294967296 : Nat) : Int) - 4294967296

/-- Conversion of a C++ `bool` argument to the `int` parameter of
`setIntValue`: `false` is 0 and `true` is 1. -/
def boolToInt (b : Bool) : Int :=
  if b then 1 else 0

/-! ## The texture registry -/

/-- One entry of `m_textureIDs`: the OpenGL texture name (a `GLuint`,
`DestroyGLTextures` passes its address to `glGenTextures`) and the tag. -/
structure TEXTURE_INFO where
  ID : Nat
  tag : String
  deriving DecidableEq, Repr

/-- Loop of `FindTextureSlot`.  The list holds the entries
`m_textureIDs[index], ..., m_textureIDs[m_loadedTextures - 1]` that the loop has
still to visit; `textureSlot` is the local of that name.  The loop stops at
the first entry whose tag compares equal, assigning `index` to `textureSlot`,
or when `index` reaches `m_loadedTextures`. -/
def FindTextureSlot.loop (tag : String) : List TEXTURE_INFO → Int → Int → Int
  | [], _, textureSlot => textureSlot
  | e :: rest, index, textureSlot =>
    if e.tag = tag then index
    else FindTextureSlot.loop tag rest (index + 1) textureSlot

/-- Loop of `FindTextureID`: as `FindTextureSlot.loop`, but the value assigned
on a match is `m_textureIDs[index].ID`, converted from `GLuint` to `int`. -/
def FindTextureID.loop (tag : String) : List TEXTURE_INFO → Int → Int → Int
  | [], _, textureID => textureID
  | e :: rest, index, textureID =>
    if e.tag = tag then GLuintToInt e.ID
    else FindTextureID.loop tag rest (index + 1) textureID

/-! ## GLM vectors and matrices -/

namespace glm

/-- GLM type `glm::vec2`. -/
structure vec2 (F : Type) where
  x : F
  y : F

/-- GLM type `glm::vec3`. -/
structure vec3 (F : Type) where
  x : F
  y : F
  z : F

/-- GLM type `glm::vec4`; the components `r, g, b, a` of the source are
`x, y, z, w`. -/
structure vec4 (F : Type) where
  x : F
  y : F
  z : F
  w : F

/-- GLM type `glm::mat4`, indexed here by row and then column (mathematical
convention; GLM stores the same matrix by columns). -/
abbrev mat4 (F : Type) := Matrix (Fin 4) (Fin 4) F

/-- The functions of the C math library that GLM calls: `cos`, `sin`, the
inverse square root used by `glm::normalize`, and the constant pi behind
`glm::radians`. -/
structure MathLib (F : Type) where
  cos : F → F
  sin : F → F
  inversesqrt : F → F
  pi : F

variable {F : Type} [Field F]

/-- GLM `glm::radians`: degrees times pi / 180. -/
def radians (lib : MathLib F) (degrees : F) : F :=
  degrees * (lib.pi / 180)

/-- GLM `glm::normalize`: `v * inversesqrt(dot(v, v))`. -/
def normalize (lib : MathLib F) (v : vec3 F) : vec3 F :=
  let k := lib.inversesqrt (v.x * v.x + v.y * v.y + v.z * v.z)
  ⟨v.x * k, v.y * k, v.z * k⟩

/-- GLM `glm::scale(v)`: the scaling matrix with diagonal `(v.x, v.y, v.z, 1)`. -/
def scale (v : vec3 F) : mat4 F :=
  !![v.x, 0, 0, 0;
     0, v.y, 0, 0;
     0, 0, v.z, 0;
     0, 0, 0, 1]

/-- GLM `glm::translate(v)`: the identity with `v` in the fourth column. -/
def translate (v : vec3 F) : mat4 F :=
  !![1, 0, 0, v.x;
     0, 1, 0, v.y;
     0, 0, 1, v.z;
     0, 0, 0, 1]

/-- GLM `glm::rotate(angle, v)` of `gtx/transform.hpp`: rotation by `angle`
radians about the normalised axis `v`, following the GLM definition with
`c = cos(angle)`, `s = sin(angle)`, `axis = normalize(v)` and
`temp = (1 - c) * axis`. -/
def rotate (lib : MathLib F) (angle : F) (v : vec3 F) : mat4 F :=
  let c := lib.cos angle
  let s := lib.sin angle
  let axis := normalize lib v
  let temp : vec3 F := ⟨(1 - c) * axis.x, (1 - c) * axis.y, (1 - c) * axis.z⟩
  !![c + temp.x * axis.x, temp.y * axis.x - s * axis.z, temp.z * axis.x + s * axis.y, 0;
     temp.x * axis.y + s * axis.z, c + temp.y * axis.y, temp.z * axis.y - s * axis.x, 0;
     temp.x * axis.z - s * axis.y, temp.y * axis.z + s * axis.x, c + temp.z * axis.z, 0;
     0, 0, 0, 1]

/-- A position `(x, y, z)` as the homogeneous column `(x, y, z, 1)` that a
`mat4` is applied to. -/
def point (p : vec3 F) : Fin 4 → F :=
  ![p.x, p.y, p.z, 1]

end glm

/-! ## The shader boundary -/

/-- A value pushed to a shader uniform, tagged with the `ShaderManager` setter
that pushed it. -/
inductive UniformValue (F : Type) where
  | ofMat4 (m : glm.mat4 F)
  | ofVec2 (v : glm.vec2 F)
  | ofVec3 (v : glm.vec3 F)
  | ofVec4 (v : glm.vec4 F)
  | ofFloat (x : F)
  | ofInt (i : Int)
  | ofBool (b : Bool)
  | ofSampler2D (slot : Int)

/-- Modelled from the spec: the `ShaderManager` class (the shader boundary, an
external collaborator of `SceneManager`) exposes setters
`set...Value(name, value)` that upload one uniform each.  It is represented by
the sequence of pushes it has received, oldest first. -/
structure ShaderManager (F : Type) where
  pushes : List (String × UniformValue F)

namespace ShaderManager

variable {F : Type}

/-- Setter `setMat4Value(name, value)`. -/
def setMat4Value (sh : ShaderManager F) (name : String) (m : glm.mat4 F) : ShaderManager F :=
  ⟨sh.pushes ++ [(name, UniformValue.ofMat4 m)]⟩

/-- Setter `setIntValue(name, value)`. -/
def setIntValue (sh : ShaderManager F) (name : String) (i : Int) : ShaderManager F :=
  ⟨sh.pushes ++ [(name, UniformValue.ofInt i)]⟩

/-- Setter `setVec4Value(name, value)`. -/
def setVec4Value (sh : ShaderManager F) (name : String) (v : glm.vec4 F) : ShaderManager F :=
  ⟨sh.pushes ++ [(name, UniformValue.ofVec4 v)]⟩

/-- Setter `setVec2Value(name, value)`. -/
def setVec2Value (sh : ShaderManager F) (name : String) (v : glm.vec2 F) : ShaderManager F :=
  ⟨sh.pushes ++ [(name, UniformValue.ofVec2 v)]⟩

/-- Setter `setSampler2DValue(name, slot)`. -/
def setSampler2DValue (sh : ShaderManager F) (name : String) (slot : Int) : ShaderManager F :=
  ⟨sh.pushes ++ [(name, UniformValue.ofSampler2D slot)]⟩

/-- The value a uniform holds: that of the latest push made under its name,
if there was one. -/
def current (sh : ShaderManager F) (name : String) : Option (UniformValue F) :=
  (sh.pushes.reverse.find? (fun p => p.1 == name)).map (fun p => p.2)

end ShaderManager

/-! ## The scene manager -/

/-- Uniform name `g_ModelName`. -/
def g_ModelName : String := "model"

/-- Uniform name `g_ColorValueName`. -/
def g_ColorValueName : String := "objectColor"

/-- Uniform name `g_TextureValueName`. -/
def g_TextureValueName : String := "objectTexture"

/-- Uniform name `g_UseTextureName`. -/
def g_UseTextureName : String := "bUseTexture"

/-- Uniform name `g_UseLightingName`. -/
def g_UseLightingName : String := "bUseLighting"

/-- An entry of `m_objectMaterials`, with the fields the source assigns and
reads. -/
structure OBJECT_MATERIAL (F : Type) where
  ambientColor : glm.vec3 F
  ambientStrength : F
  diffuseColor : glm.vec3 F
  specularColor : glm.vec3 F
  shininess : F
  tag : String

/-- What `stbi_load` reports about a decoded image. -/
structure Image where
  width : Int
  height : Int
  colorChannels : Int
  deriving DecidableEq, Repr

/-- The members of `SceneManager` that the registry and dispatcher methods
read and write.

* `m_pShaderManager` is `none` for the null pointer.
* `m_textureIDs` lists the entries `m_textureIDs[0 .. m_loadedTextures - 1]` in
  registration order, so that `m_loadedTextures` is its length.  The C++ member
  is an array of `textureCapacity` elements, and no statement of the source
  compares an index with that size: an entry of the list at an index from
  `textureCapacity` on is one that `CreateGLTexture` wrote past the last
  element of the array.
* `m_objectMaterials` is the `std::vector` of materials.

The OpenGL context (texture objects, bindings) is outside the model. -/
structure SceneManager (F : Type) where
  m_pShaderManager : Option (ShaderManager F)
  m_textureIDs : List TEXTURE_INFO
  m_objectMaterials : List (OBJECT_MATERIAL F)

namespace SceneManager

variable {F : Type}

/-- Member `m_loadedTextures`: the number of registered textures. -/
def m_loadedTextures (s : SceneManager F) : Int :=
  (s.m_textureIDs.length : Int)

/-- Modelled from the spec: the number of elements of the array `m_textureIDs`.
The array is declared in the header of the class, which is not among the
sources; the spec gives a limit of 16 texture units, and the comment of
`BindGLTextures` reads "There are up to 16 slots". -/
def textureCapacity : Nat := 16

/-- The registration statements of `CreateGLTexture`:
`m_textureIDs[m_loadedTextures].ID = textureID`,
`m_textureIDs[m_loadedTextures].tag = tag` and `m_loadedTextures++`.  Nothing
compares `m_loadedTextures` with the size of the array first.

While `m_loadedTextures` is below `textureCapacity`, the two assignments fill
the next free element of the array and no other member is written.  At a full
array they are made past its last element: the entry is stored at index
`m_loadedTextures` counted from the start of the array, where the lookup loops
and `BindGLTextures` read it back, and it is counted; the storage written is
that of whatever lies behind the array, so the other members do not keep their
content.  `clobbered` gives the content of the other members after such a
write. -/
def CreateGLTexture.register (clobbered : SceneManager F) (s : SceneManager F)
    (textureID : Nat) (tag : String) : SceneManager F :=
  if s.m_textureIDs.length < textureCapacity then
    { s with m_textureIDs := s.m_textureIDs ++ [⟨textureID, tag⟩] }
  else
    { clobbered with m_textureIDs := s.m_textureIDs ++ [⟨textureID, tag⟩] }

/-- Method `CreateGLTexture(filename, tag)`.  The image decoder `stbi_load` and
the texture name that `glGenTextures` hands out are inputs; `none` from the
decoder is the null image pointer.  `clobbered` is the content that a write
past the end of `m_textureIDs` leaves in the other members; it is read only
when the array is full.  Returns the `bool` result and the state after the
call. -/
def CreateGLTexture (stbi_load : String → Option Image) (glGenTextures : Nat)
    (s : SceneManager F) (clobbered : SceneManager F) (filename : String) (tag : String) :
    Bool × SceneManager F :=
  match stbi_load filename with
  | some image =>
    let textureID := glGenTextures
    if image.colorChannels = 3 then
      (true, CreateGLTexture.register clobbered s textureID tag)
    else if image.colorChannels = 4 then
      (true, CreateGLTexture.register clobbered s textureID tag)
    else
      (false, s)
  | none => (false, s)

/-- Method `FindTextureID(tag)`. -/
def FindTextureID (s : SceneManager F) (tag : String) : Int :=
  FindTextureID.loop tag s.m_textureIDs 0 (-1)

/-- Method `FindTextureSlot(tag)`. -/
def FindTextureSlot (s : SceneManager F) (tag : String) : Int :=
  FindTextureSlot.loop tag s.m_textureIDs 0 (-1)

/-- Loop of `FindMaterial`.  The list holds the materials
`m_objectMaterials[index], ...` still to be visited and `material` is the
reference parameter.  On the first material whose tag compares equal, the five
shading fields are copied into `material` (its `tag` is not assigned) and the
loop stops. -/
def FindMaterial.loop (tag : String) :
    List (OBJECT_MATERIAL F) → Int → OBJECT_MATERIAL F → OBJECT_MATERIAL F
  | [], _, material => material
  | m :: rest, index, material =>
    if m.tag = tag then
      { material with
        ambientColor := m.ambientColor
        ambientStrength := m.ambientStrength
        diffuseColor := m.diffuseColor
        specularColor := m.specularColor
        shininess := m.shininess }
    else FindMaterial.loop tag rest (index + 1) material

/-- Method `FindMaterial(tag, material)`.  Returns the `bool` result, the
content of the reference parameter `material` after the call, and the state
after the call. -/
def FindMaterial (s : SceneManager F) (tag : String) (material : OBJECT_MATERIAL F) :
    Bool × OBJECT_MATERIAL F × SceneManager F :=
  if s.m_objectMaterials.length = 0 then
    (false, material, s)
  else
    (true, FindMaterial.loop tag s.m_objectMaterials 0 material, s)

/-- The matrix `modelView` that `SetTransformations` computes before pushing
it. -/
def SetTransformations.modelView [Field F] (lib : glm.MathLib F) (scaleXYZ : glm.vec3 F)
    (XrotationDegrees YrotationDegrees ZrotationDegrees : F) (positionXYZ : glm.vec3 F) :
    glm.mat4 F :=
  let scale := glm.scale scaleXYZ
  let rotationX := glm.rotate lib (glm.radians lib XrotationDegrees) ⟨1, 0, 0⟩
  let rotationY := glm.rotate lib (glm.radians lib YrotationDegrees) ⟨0, 1, 0⟩
  let rotationZ := glm.rotate lib (glm.radians lib ZrotationDegrees) ⟨0, 0, 1⟩
  let translation := glm.translate positionXYZ
  translation * rotationX * rotationY * rotationZ * scale

/-- Method `SetTransformations(scaleXYZ, XrotationDegrees, YrotationDegrees,
ZrotationDegrees, positionXYZ)`. -/
def SetTransformations [Field F] (lib : glm.MathLib F) (s : SceneManager F)
    (scaleXYZ : glm.vec3 F) (XrotationDegrees YrotationDegrees ZrotationDegrees : F)
    (positionXYZ : glm.vec3 F) : SceneManager F :=
  let modelView := SetTransformations.modelView lib scaleXYZ
    XrotationDegrees YrotationDegrees ZrotationDegrees positionXYZ
  match s.m_pShaderManager with
  | some sh => { s with m_pShaderManager := some (sh.setMat4Value g_ModelName modelView) }
  | none => s

/-- Method `SetShaderColor(redColorValue, greenColorValue, blueColorValue,
alphaValue)`. -/
def SetShaderColor (s : SceneManager F)
    (redColorValue greenColorValue blueColorValue alphaValue : F) : SceneManager F :=
  let currentColor : glm.vec4 F := ⟨redColorValue, greenColorValue, blueColorValue, alphaValue⟩
  match s.m_pShaderManager with
  | some sh =>
    let sh1 := sh.setIntValue g_UseTextureName (boolToInt false)
    let sh2 := sh1.setVec4Value g_ColorValueName currentColor
    { s with m_pShaderManager := some sh2 }
  | none => s

/-- Method `SetShaderTexture(textureTag)`. -/
def SetShaderTexture (s : SceneManager F) (textureTag : String) : SceneManager F :=
  match s.m_pShaderManager with
  | some sh =>
    let sh1 := sh.setIntValue g_UseTextureName (boolToInt true)
    let textureID := s.FindTextureSlot textureTag
    let sh2 := sh1.setSampler2DValue g_TextureValueName textureID
    { s with m_pShaderManager := some sh2 }
  | none => s

/-- Method `SetTextureUVScale(u, v)`. -/
def SetTextureUVScale (s : SceneManager F) (u v : F) : SceneManager F :=
  match s.m_pShaderManager with
  | some sh => { s with m_pShaderManager := some (sh.setVec2Value "UVscale" ⟨u, v⟩) }
  | none => s

end SceneManager

/-! ## Sequences of dispatcher calls -/

/-- A call of one of the dispatcher methods that push transform, colour,
texture or UV-scale state, with its arguments. -/
inductive DispatcherCall (F : Type) where
  | SetTransformations (scaleXYZ : glm.vec3 F)
      (XrotationDegrees YrotationDegrees ZrotationDegrees : F) (positionXYZ : glm.vec3 F)
  | SetShaderColor (redColorValue greenColorValue blueColorValue alphaValue : F)
  | SetShaderTexture (textureTag : String)
  | SetTextureUVScale (u v : F)

namespace DispatcherCall

variable {F : Type}

/-- The state after one dispatcher call. -/
def run [Field F] (lib : glm.MathLib F) (s : SceneManager F) : DispatcherCall F → SceneManager F
  | SetTransformations scaleXYZ rx ry rz positionXYZ =>
    s.SetTransformations lib scaleXYZ rx ry rz positionXYZ
  | SetShaderColor r g b a => s.SetShaderColor r g b a
  | SetShaderTexture textureTag => s.SetShaderTexture textureTag
  | SetTextureUVScale u v => s.SetTextureUVScale u v

/-- The state after a sequence of dispatcher calls, made in list order. -/
def runAll [Field F] (lib : glm.MathLib F) (s : SceneManager F) :
    List (DispatcherCall F) → SceneManager F
  | [] => s
  | c :: cs => runAll lib (run lib s c) cs

/-- The value of `bUseTexture` that a call pushes when a shader is attached:
`SetShaderColor` pushes 0, `SetShaderTexture` pushes 1, the other calls do not
push it. -/
def useTexture : DispatcherCall F → Option Int
  | SetShaderColor _ _ _ _ => some 0
  | SetShaderTexture _ => some 1
  | _ => none

end DispatcherCall

/-! ## Further shader setters -/

namespace ShaderManager

variable {F : Type}

/-- Setter `setVec3Value(name, value)`; the overload taking three floats
pushes the vector of its arguments. -/
def setVec3Value (sh : ShaderManager F) (name : String) (v : glm.vec3 F) : ShaderManager F :=
  ⟨sh.pushes ++ [(name, UniformValue.ofVec3 v)]⟩

/-- Setter `setFloatValue(name, value)`. -/
def setFloatValue (sh : ShaderManager F) (name : String) (x : F) : ShaderManager F :=
  ⟨sh.pushes ++ [(name, UniformValue.ofFloat x)]⟩

/-- Setter `setBoolValue(name, value)`. -/
def setBoolValue (sh : ShaderManager F) (name : String) (b : Bool) : ShaderManager F :=
  ⟨sh.pushes ++ [(name, UniformValue.ofBool b)]⟩

end ShaderManager

/-! ## Materials, lights and textures of the scene -/

namespace SceneManager

variable {F : Type}

/-- Method `SetShaderMaterial(materialTag)`.  The local `material` is declared
without initialiser; `indeterminate` is the content it starts with.  The five
setters are called through `m_pShaderManager` without a null test: the result
is `none` when that call is made through the null pointer. -/
def SetShaderMaterial (s : SceneManager F) (materialTag : String)
    (indeterminate : OBJECT_MATERIAL F) : Option (SceneManager F) :=
  if s.m_objectMaterials.length > 0 then
    let material := indeterminate
    let result := s.FindMaterial materialTag material
    let bReturn := result.1
    let material := result.2.1
    let s1 := result.2.2
    if bReturn = true then
      match s1.m_pShaderManager with
      | none => none
      | some sh =>
        let sh1 := sh.setVec3Value "material.ambientColor" material.ambientColor
        let sh2 := sh1.setFloatValue "material.ambientStrength" material.ambientStrength
        let sh3 := sh2.setVec3Value "material.diffuseColor" material.diffuseColor
        let sh4 := sh3.setVec3Value "material.specularColor" material.specularColor
        let sh5 := sh4.setFloatValue "material.shininess" material.shininess
        some { s1 with m_pShaderManager := some sh5 }
    else some s1
  else some s

/-- Method `DefineObjectMaterials()`.  Each material is a local declared
without initialiser, whose fields are then assigned one by one before the
`push_back`; `indeterminate` is the content such a local starts with.  Only
`metalMaterial` keeps part of it: its `ambientColor` and `ambientStrength` are
never assigned. -/
def DefineObjectMaterials [Field F] (s : SceneManager F) (indeterminate : OBJECT_MATERIAL F) :
    SceneManager F :=
  let bookMaterial : OBJECT_MATERIAL F :=
    { indeterminate with
      ambientColor := ⟨0.2, 0.1, 0.05⟩
      ambientStrength := 0.4
      diffuseColor := ⟨0.6, 0.3, 0.1⟩
      specularColor := ⟨0.3, 0.3, 0.3⟩
      shininess := 10.0
      tag := "book" }
  let s := { s with m_objectMaterials := s.m_objectMaterials ++ [bookMaterial] }
  let deskMaterial : OBJECT_MATERIAL F :=
    { indeterminate with
      ambientColor := ⟨0.25, 0.25, 0.25⟩
      ambientStrength := 0.7
      diffuseColor := ⟨1.0, 1.0, 1.0⟩
      specularColor := ⟨0.9, 0.9, 0.9⟩
      shininess := 64.0
      tag := "desk" }
  let s := { s with m_objectMaterials := s.m_objectMaterials ++ [deskMaterial] }
  let cupMaterial : OBJECT_MATERIAL F :=
    { indeterminate with
      ambientColor := ⟨0.1, 0.1, 0.1⟩
      ambientStrength := 0.3
      diffuseColor := ⟨0.2, 0.2, 0.2⟩
      specularColor := ⟨1.0, 1.0, 1.0⟩
      shininess := 95.0
      tag := "cup" }
  let s := { s with m_objectMaterials := s.m_objectMaterials ++ [cupMaterial] }
  let notebookMaterial : OBJECT_MATERIAL F :=
    { indeterminate with
      ambientColor := ⟨0.2, 0.2, 0.2⟩
      ambientStrength := 0.4
      diffuseColor := ⟨0.4, 0.4, 0.7⟩
      specularColor := ⟨0.3, 0.3, 0.4⟩
      shininess := 18.0
      tag := "notebook" }
  let s := { s with m_objectMaterials := s.m_objectMaterials ++ [notebookMaterial] }
  let metalMaterial : OBJECT_MATERIAL F :=
    { indeterminate with
      diffuseColor := ⟨0.2, 0.2, 0.2⟩
      specularColor := ⟨0.7, 0.7, 0.7⟩
      shininess := 42.0
      tag := "metal" }
  let s := { s with m_objectMaterials := s.m_objectMaterials ++ [metalMaterial] }
  let mechPencilMaterial : OBJECT_MATERIAL F :=
    { indeterminate with
      ambientColor := ⟨0.05, 0.05, 0.15⟩
      ambientStrength := 0.4
      diffuseColor := ⟨0.1, 0.1, 0.8⟩
      specularColor := ⟨0.4, 0.4, 0.4⟩
      shininess := 32.0
      tag := "mechpencil" }
  let s := { s with m_objectMaterials := s.m_objectMaterials ++ [mechPencilMaterial] }
  let eraserMaterial : OBJECT_MATERIAL F :=
    { indeterminate with
      ambientColor := ⟨0.3, 0.15, 0.15⟩
      ambientStrength := 0.5
      diffuseColor := ⟨1.0, 0.6, 0.6⟩
      specularColor := ⟨0.1, 0.1, 0.1⟩
      shininess := 5.0
      tag := "eraser" }
  { s with m_objectMaterials := s.m_objectMaterials ++ [eraserMaterial] }

/-- The pushes of `SetupSceneLights()`, in source order. -/
def SetupSceneLights.pushes [Field F] : List (String × UniformValue F) :=
  [ (g_UseLightingName, UniformValue.ofBool true),
    ("directionalLight.direction", UniformValue.ofVec3 ⟨-0.2, -1.0, -0.3⟩),
    ("directionalLight.ambient", UniformValue.ofVec3 ⟨0.25, 0.22, 0.30⟩),
    ("directionalLight.diffuse", UniformValue.ofVec3 ⟨0.55, 0.50, 0.70⟩),
    ("directionalLight.specular", UniformValue.ofVec3 ⟨0.25, 0.25, 0.35⟩),
    ("directionalLight.bActive", UniformValue.ofBool true),
    ("pointLights[0].position", UniformValue.ofVec3 ⟨0.0, 7.0, 3.0⟩),
    ("pointLights[0].ambient", UniformValue.ofVec3 ⟨0.20, 0.20, 0.20⟩),
    ("pointLights[0].diffuse", UniformValue.ofVec3 ⟨0.95, 0.95, 0.90⟩),
    ("pointLights[0].specular", UniformValue.ofVec3 ⟨1.0, 1.0, 1.0⟩),
    ("pointLights[0].constant", UniformValue.ofFloat 1.0),
    ("pointLights[0].linear", UniformValue.ofFloat 0.045),
    ("pointLights[0].quadratic", UniformValue.ofFloat 0.015),
    ("pointLights[0].bActive", UniformValue.ofBool true),
    ("pointLights[1].position", UniformValue.ofVec3 ⟨-6.0, 3.5, 2.5⟩),
    ("pointLights[1].ambient", UniformValue.ofVec3 ⟨0.10, 0.07, 0.05⟩),
    ("pointLights[1].diffuse", UniformValue.ofVec3 ⟨0.55, 0.40, 0.25⟩),
    ("pointLights[1].specular", UniformValue.ofVec3 ⟨0.25, 0.20, 0.15⟩),
    ("pointLights[1].constant", UniformValue.ofFloat 1.0),
    ("pointLights[1].linear", UniformValue.ofFloat 0.09),
    ("pointLights[1].quadratic", UniformValue.ofFloat 0.032),
    ("pointLights[1].bActive", UniformValue.ofBool true),
    ("pointLights[2].bActive", UniformValue.ofBool false),
    ("pointLights[3].bActive", UniformValue.ofBool false) ]

/-- Method `SetupSceneLights()`.  Every setter is called through
`m_pShaderManager` without a null test: the result is `none` when the pointer
is null. -/
def SetupSceneLights [Field F] (s : SceneManager F) : Option (SceneManager F) :=
  match s.m_pShaderManager with
  | none => none
  | some sh =>
    some { s with m_pShaderManager := some ⟨sh.pushes ++ SetupSceneLights.pushes⟩ }

/-- Loop of `BindGLTextures`: for the entries from `index` on, the texture unit
`GL_TEXTURE0 + index` made active and the texture name bound on it. -/
def BindGLTextures.loop : List TEXTURE_INFO → Nat → List (Nat × Nat)
  | [], _ => []
  | e :: rest, i => (i, e.ID) :: BindGLTextures.loop rest (i + 1)

/-- Method `BindGLTextures()`: the bindings it makes in the OpenGL context, as
pairs of texture unit index (offset from `GL_TEXTURE0`) and texture name. -/
def BindGLTextures (s : SceneManager F) : List (Nat × Nat) :=
  BindGLTextures.loop s.m_textureIDs 0

/-- Method `LoadSceneTextures()`.  `glGenTextures k` is the texture name handed
out during the call number `k` (from 0) of `CreateGLTexture`, and `clobbered k`
the content a write past the end of `m_textureIDs` leaves in the other members
during that call.  The `bool` results are assigned to `bReturn` or dropped, and
never tested.  Returns the state and the bindings made by the closing
`BindGLTextures()`. -/
def LoadSceneTextures (stbi_load : String → Option Image) (glGenTextures : Nat → Nat)
    (clobbered : Nat → SceneManager F) (s : SceneManager F) :
    SceneManager F × List (Nat × Nat) :=
  let s := (s.CreateGLTexture stbi_load (glGenTextures 0) (clobbered 0)
    "Photos/textures/black_top_vinyl.jpg" "desk").2
  let s := (s.CreateGLTexture stbi_load (glGenTextures 1) (clobbered 1)
    "Photos/textures/cup.jpg" "cup").2
  let s := (s.CreateGLTexture stbi_load (glGenTextures 2) (clobbered 2)
    "Photos/textures/rim.jpg" "cup_rim").2
  let s := (s.CreateGLTexture stbi_load (glGenTextures 3) (clobbered 3)
    "Photos/textures/french.jpg" "french").2
  let s := (s.CreateGLTexture stbi_load (glGenTextures 4) (clobbered 4)
    "Photos/textures/paper.jpg" "paper").2
  let s := (s.CreateGLTexture stbi_load (glGenTextures 5) (clobbered 5)
    "Photos/textures/stainless.jpg" "metal").2
  let s := (s.CreateGLTexture stbi_load (glGenTextures 6) (clobbered 6)
    "Photos/textures/mech_body.jpg" "body").2
  let s := (s.CreateGLTexture stbi_load (glGenTextures 7) (clobbered 7)
    "Photos/textures/point.jpg" "point").2
  let s := (s.CreateGLTexture stbi_load (glGenTextures 8) (clobbered 8)
    "Photos/textures/white_eraser.jpg" "eraser").2
  let s := (s.CreateGLTexture stbi_load (glGenTextures 9) (clobbered 9)
    "Photos/textures/clip.jpg" "clip").2
  let s := (s.CreateGLTexture stbi_load (glGenTextures 10) (clobbered 10)
    "Photos/textures/eraser.jpg" "pink_eraser").2
  (s, s.BindGLTextures)

end SceneManager

/-! ## The scene traversal -/

/-- A draw request to the mesh collaborator `m_basicMeshes`.  `DrawCylinderMesh`
carries the arguments written at the call (none when the defaults are
used). -/
inductive MeshCall where
  | DrawPlaneMesh
  | DrawCylinderMesh (args : List Bool)
  | DrawTorusMesh
  | DrawBoxMesh
  | DrawPrismMesh
  | DrawTaperedCylinderMesh
  | DrawConeMesh
  deriving DecidableEq, Repr

/-- A call issued while rendering the scene: a dispatcher call, a
`SetShaderMaterial` call, or a mesh draw. -/
inductive SceneCall (F : Type) where
  | dispatch (c : DispatcherCall F)
  | SetShaderMaterial (materialTag : String)
  | draw (m : MeshCall)

/-- The role of a call within the group of calls made for one scene object. -/
inductive CallKind where
  | transform
  | colorOrTexture
  | material
  | draw
  | other
  deriving DecidableEq, Repr

namespace SceneCall

variable {F : Type}

/-- The role of a call: `SetTransformations` is the transform push,
`SetShaderColor` and `SetShaderTexture` are the colour-or-texture push,
`SetShaderMaterial` the material push, and a mesh call the draw. -/
def kind : SceneCall F → CallKind
  | dispatch (DispatcherCall.SetTransformations _ _ _ _ _) => CallKind.transform
  | dispatch (DispatcherCall.SetShaderColor _ _ _ _) => CallKind.colorOrTexture
  | dispatch (DispatcherCall.SetShaderTexture _) => CallKind.colorOrTexture
  | dispatch (DispatcherCall.SetTextureUVScale _ _) => CallKind.other
  | SetShaderMaterial _ => CallKind.material
  | draw _ => CallKind.draw

/-- The state after one call, or `none` when the call fails.  A mesh draw uses
the shading state and does not change the scene manager. -/
def run [Field F] (lib : glm.MathLib F) (indeterminate : OBJECT_MATERIAL F)
    (s : SceneManager F) : SceneCall F → Option (SceneManager F)
  | dispatch c => some (DispatcherCall.run lib s c)
  | SetShaderMaterial materialTag => s.SetShaderMaterial materialTag indeterminate
  | draw _ => some s

/-- The state after a sequence of calls made in list order; `none` as soon as
one call fails. -/
def runAll [Field F] (lib : glm.MathLib F) (indeterminate : OBJECT_MATERIAL F)
    (s : SceneManager F) : List (SceneCall F) → Option (SceneManager F)
  | [] => some s
  | c :: cs =>
    match run lib indeterminate s c with
    | none => none
    | some s1 => runAll lib indeterminate s1 cs

/-- A sequence of calls cut into consecutive groups of four (a shorter last
group holds what is left over). -/
def groups : List (SceneCall F) → List (List (SceneCall F))
  | a :: b :: c :: d :: rest => [a, b, c, d] :: groups rest
  | [] => []
  | rest => [rest]

/-- The roles, in order, of the calls of one scene object: one transform, one
colour-or-texture push, one material push, one mesh draw. -/
def isObjectGroup (g : List (SceneCall F)) : Bool :=
  decide (g.map kind
    = [CallKind.transform, CallKind.colorOrTexture, CallKind.material, CallKind.draw])

end SceneCall

namespace SceneManager

variable {F : Type} [Field F]

/-- Method `DrawCup()`: the calls it issues, in order (body, handle, rim). -/
def DrawCup : List (SceneCall F) :=
  [ SceneCall.dispatch (DispatcherCall.SetTransformations ⟨1.0, 2.0, 1.0⟩ 0.0 0.0 0.0
      ⟨-2.5, 0.0, -1.0⟩),
    SceneCall.dispatch (DispatcherCall.SetShaderTexture "cup"),
    SceneCall.SetShaderMaterial "cup",
    SceneCall.draw (MeshCall.DrawCylinderMesh [false, true, true]),
    SceneCall.dispatch (DispatcherCall.SetTransformations ⟨0.35, 0.6, 0.5⟩ 0.0 0.0 0.0
      ⟨-1.4, 1.0, -1.0⟩),
    SceneCall.dispatch (DispatcherCall.SetShaderTexture "cup"),
    SceneCall.SetShaderMaterial "cup",
    SceneCall.draw MeshCall.DrawTorusMesh,
    SceneCall.dispatch (DispatcherCall.SetTransformations ⟨0.8, 0.8, 0.8⟩ (-90.0) 0.0 0.0
      ⟨-2.5, 1.85, -1.0⟩),
    SceneCall.dispatch (DispatcherCall.SetShaderTexture "cup_rim"),
    SceneCall.SetShaderMaterial "cup",
    SceneCall.draw MeshCall.DrawTorusMesh ]

/-- Method `DrawFrenchBook()`: the calls it issues, in order. -/
def DrawFrenchBook : List (SceneCall F) :=
  [ SceneCall.dispatch (DispatcherCall.SetTransformations ⟨5.0, 1.0, 5.0⟩ 0.0 0.0 0.0
      ⟨-6.0, 0.5, 5.0⟩),
    SceneCall.dispatch (DispatcherCall.SetShaderTexture "french"),
    SceneCall.SetShaderMaterial "book",
    SceneCall.draw MeshCall.DrawBoxMesh ]

/-- Loop of `DrawNoteBook()` over the rings `i = 0, ..., ringCount - 1`: the
calls of its iterations, in order. -/
def DrawNoteBook.rings (ringCount : Nat) : List (SceneCall F) :=
  let startX : F := 2.6
  let y : F := 0.75
  let z : F := 1.5
  let spacing : F := 0.75
  (List.range ringCount).flatMap fun i =>
    [ SceneCall.dispatch (DispatcherCall.SetTransformations ⟨0.3, 0.3, 0.3⟩ 0.0 0.0 90.0
        ⟨startX, y, z + (i : F) * spacing⟩),
      SceneCall.dispatch (DispatcherCall.SetShaderTexture "metal"),
      SceneCall.SetShaderMaterial "metal",
      SceneCall.draw MeshCall.DrawTorusMesh ]

/-- Method `DrawNoteBook()`: the calls it issues, in order (left cover, right
cover, then the eight rings). -/
def DrawNoteBook : List (SceneCall F) :=
  [ SceneCall.dispatch (DispatcherCall.SetTransformations ⟨6.0, 1.0, 6.0⟩ 0.0 0.0 0.0
      ⟨-0.4, 0.0, 4.0⟩),
    SceneCall.dispatch (DispatcherCall.SetShaderTexture "paper"),
    SceneCall.SetShaderMaterial "notebook",
    SceneCall.draw MeshCall.DrawBoxMesh,
    SceneCall.dispatch (DispatcherCall.SetTransformations ⟨6.0, 1.5, 6.0⟩ 0.0 0.0 0.0
      ⟨5.5, 0.0, 4.0⟩),
    SceneCall.dispatch (DispatcherCall.SetShaderTexture "notebook"),
    SceneCall.SetShaderMaterial "notebook",
    SceneCall.draw MeshCall.DrawBoxMesh ]
  ++ DrawNoteBook.rings 8

/-- Method `DrawMechPencil()`: the calls it issues, in order (body, tip, cone,
eraser tip, clip). -/
def DrawMechPencil : List (SceneCall F) :=
  [ SceneCall.dispatch (DispatcherCall.SetTransformations ⟨0.1, 5.0, 0.1⟩ 0.0 0.0 90.0
      ⟨7.0, 0.1, -2.0⟩),
    SceneCall.dispatch (DispatcherCall.SetShaderTexture "body"),
    SceneCall.SetShaderMaterial "mechpencil",
    SceneCall.draw (MeshCall.DrawCylinderMesh []),
    SceneCall.dispatch (DispatcherCall.SetTransformations ⟨0.1, 0.1, 0.1⟩ 0.0 0.0 (-270.0)
      ⟨2.0, 0.1, -2.0⟩),
    SceneCall.dispatch (DispatcherCall.SetShaderTexture "point"),
    SceneCall.SetShaderMaterial "mechpencil",
    SceneCall.draw MeshCall.DrawTaperedCylinderMesh,
    SceneCall.dispatch (DispatcherCall.SetTransformations ⟨0.05, 0.05, 0.05⟩ 0.0 0.0 (-270.0)
      ⟨1.90, 0.1, -2.0⟩),
    SceneCall.dispatch (DispatcherCall.SetShaderTexture "body"),
    SceneCall.SetShaderMaterial "mechpencil",
    SceneCall.draw MeshCall.DrawConeMesh,
    SceneCall.dispatch (DispatcherCall.SetTransformations ⟨0.1, 0.2, 0.1⟩ 0.0 0.0 (-270.0)
      ⟨7.19, 0.1, -2.0⟩),
    SceneCall.dispatch (DispatcherCall.SetShaderTexture "eraser"),
    SceneCall.SetShaderMaterial "eraser",
    SceneCall.draw (MeshCall.DrawCylinderMesh []),
    SceneCall.dispatch (DispatcherCall.SetTransformations ⟨0.6, 0.15, 0.1⟩ 0.0 0.0 0.0
      ⟨6.0, 0.2, -1.9⟩),
    SceneCall.dispatch (DispatcherCall.SetShaderTexture "clip"),
    SceneCall.SetShaderMaterial "mechpencil",
    SceneCall.draw MeshCall.DrawBoxMesh ]

/-- Method `DrawEraser()`: the calls it issues, in order (body, left chamfer,
right chamfer). -/
def DrawEraser : List (SceneCall F) :=
  [ SceneCall.dispatch (DispatcherCall.SetTransformations ⟨0.7875, 0.4025, 0.4025⟩ 0.0 0.0 0.0
      ⟨11.0, 0.1, 1.0⟩),
    SceneCall.dispatch (DispatcherCall.SetShaderTexture "pink_eraser"),
    SceneCall.SetShaderMaterial "eraser",
    SceneCall.draw MeshCall.DrawBoxMesh,
    SceneCall.dispatch (DispatcherCall.SetTransformations ⟨0.2625, 0.4025, 0.4025⟩ 0.0 0.0 0.0
      ⟨10.61, 0.1, 1.0⟩),
    SceneCall.dispatch (DispatcherCall.SetShaderTexture "pink_eraser"),
    SceneCall.SetShaderMaterial "eraser",
    SceneCall.draw MeshCall.DrawPrismMesh,
    SceneCall.dispatch (DispatcherCall.SetTransformations ⟨0.2625, 0.4025, 0.4025⟩ 0.0 180.0 0.0
      ⟨11.39, 0.1, 1.0⟩),
    SceneCall.dispatch (DispatcherCall.SetShaderTexture "pink_eraser"),
    SceneCall.SetShaderMaterial "eraser",
    SceneCall.draw MeshCall.DrawPrismMesh ]

/-- Method `RenderScene()`: the calls it issues, in order: those of the desk
plane, then `DrawCup()`, `DrawFrenchBook()`, `DrawNoteBook()`,
`DrawMechPencil()` and `DrawEraser()`. -/
def RenderScene : List (SceneCall F) :=
  [ SceneCall.dispatch (DispatcherCall.SetTransformations ⟨16.0, 0.75, 9.0⟩ 0.0 0.0 0.0
      ⟨0.0, 0.0, 0.0⟩),
    SceneCall.dispatch (DispatcherCall.SetShaderTexture "desk"),
    SceneCall.SetShaderMaterial "desk",
    SceneCall.draw MeshCall.DrawPlaneMesh ]
  ++ DrawCup ++ DrawFrenchBook ++ DrawNoteBook ++ DrawMechPencil ++ DrawEraser

end SceneManager

/-! ## GLM view and projection matrices -/

namespace glm

variable {F : Type} [Field F]

/-- GLM `operator+` on `vec3`. -/
def vec3.add (a b : vec3 F) : vec3 F :=
  ⟨a.x + b.x, a.y + b.y, a.z + b.z⟩

/-- GLM `operator-` on `vec3`. -/
def vec3.sub (a b : vec3 F) : vec3 F :=
  ⟨a.x - b.x, a.y - b.y, a.z - b.z⟩

/-- GLM `glm::dot` on `vec3`. -/
def dot (a b : vec3 F) : F :=
  a.x * b.x + a.y * b.y + a.z * b.z

/-- GLM `glm::cross`. -/
def cross (a b : vec3 F) : vec3 F :=
  ⟨a.y * b.z - b.y * a.z, a.z * b.x - b.z * a.x, a.x * b.y - b.x * a.y⟩

/-- GLM `glm::lookAt(eye, center, up)` (right-handed, the GLM default), with
`f = normalize(center - eye)`, `s = normalize(cross(f, up))` and
`u = cross(s, f)`. -/
def lookAt (lib : MathLib F) (eye center up : vec3 F) : mat4 F :=
  let f := normalize lib (vec3.sub center eye)
  let s := normalize lib (cross f up)
  let u := cross s f
  !![s.x, s.y, s.z, -(dot s eye);
     u.x, u.y, u.z, -(dot u eye);
     -f.x, -f.y, -f.z, dot f eye;
     0, 0, 0, 1]

/-- GLM `glm::perspective(fovy, aspect, zNear, zFar)` (right-handed, depth range
-1 to 1, the GLM default); `tan` is the tangent of the C math library. -/
def perspective (tan : F → F) (fovy aspect zNear zFar : F) : mat4 F :=
  let tanHalfFovy := tan (fovy / 2)
  !![1 / (aspect * tanHalfFovy), 0, 0, 0;
     0, 1 / tanHalfFovy, 0, 0;
     0, 0, -(zFar + zNear) / (zFar - zNear), -(2 * zFar * zNear) / (zFar - zNear);
     0, 0, -1, 0]

/-- GLM `glm::ortho(left, right, bottom, top, zNear, zFar)` (right-handed, depth
range -1 to 1, the GLM default). -/
def ortho (left right bottom top zNear zFar : F) : mat4 F :=
  !![2 / (right - left), 0, 0, -(right + left) / (right - left);
     0, 2 / (top - bottom), 0, -(top + bottom) / (top - bottom);
     0, 0, -2 / (zFar - zNear), -(zFar + zNear) / (zFar - zNear);
     0, 0, 0, 1]

end glm

/-! ## The view manager -/

/-- Constant `WINDOW_WIDTH`. -/
def WINDOW_WIDTH : Int := 1000

/-- Constant `WINDOW_HEIGHT`. -/
def WINDOW_HEIGHT : Int := 800

/-- Uniform name `g_ViewName`. -/
def g_ViewName : String := "view"

/-- Uniform name `g_ProjectionName`. -/
def g_ProjectionName : String := "projection"

/-- The keys that `ProcessKeyboardEvents` queries with `glfwGetKey`. -/
inductive Key where
  | GLFW_KEY_ESCAPE
  | GLFW_KEY_W
  | GLFW_KEY_S
  | GLFW_KEY_A
  | GLFW_KEY_D
  | GLFW_KEY_Q
  | GLFW_KEY_E
  | GLFW_KEY_P
  | GLFW_KEY_O
  deriving DecidableEq, Repr

/-- The movement directions passed to `Camera::ProcessKeyboard`. -/
inductive Camera_Movement where
  | FORWARD
  | BACKWARD
  | LEFT
  | RIGHT
  | UP
  | DOWN
  deriving DecidableEq, Repr

/-- The camera object `*g_pCamera`: the four public members that the view
manager reads and writes, and `other` for the rest of the object. -/
structure Camera (F X : Type) where
  Position : glm.vec3 F
  Front : glm.vec3 F
  Up : glm.vec3 F
  Zoom : F
  other : X

/-- Modelled from the spec: the `Camera` class is a collaborator whose methods
turn movement keys, mouse deltas and scroll deltas into pose and zoom changes
and give the look-from-pose view matrix.  Its methods, and the object built by
its default constructor, are taken as given. -/
structure CameraClass (F X : Type) where
  construct : Camera F X
  ProcessKeyboard : Camera F X → Camera_Movement → F → Camera F X
  ProcessMouseMovement : Camera F X → F → F → Camera F X
  ProcessMouseScroll : Camera F X → F → Camera F X
  GetViewMatrix : Camera F X → glm.mat4 F

/-- The state of the view manager: the member `m_pShaderManager` (`none` for
the null pointer), the close flag of the window `m_pWindow`, and the
namespace-scope variables of `ViewManager.cpp`.  `g_pCamera` is the camera
object that the constructor allocates. -/
structure ViewManager (F X : Type) where
  m_pShaderManager : Option (ShaderManager F)
  windowShouldClose : Bool
  g_pCamera : Camera F X
  gLastX : F
  gLastY : F
  gFirstMouse : Bool
  gDeltaTime : F
  gLastFrame : F
  bOrthographicProjection : Bool

/-- What one `PrepareSceneView` call computes before it pushes: the two
matrices, whether the branch that assigns the front-view pose to the camera
was executed, and the state at that point. -/
structure PrepareSceneView.Frame (F X : Type) where
  view : glm.mat4 F
  projection : glm.mat4 F
  poseOverwritten : Bool
  state : ViewManager F X

namespace ViewManager

variable {F X : Type} [Field F]

/-- Method `Mouse_Position_Callback(window, xMousePos, yMousePos)`; the
conversions of the coordinates to `float` are not represented. -/
def Mouse_Position_Callback (cam : CameraClass F X) (v : ViewManager F X)
    (xMousePos yMousePos : F) : ViewManager F X :=
  let v1 : ViewManager F X :=
    if v.gFirstMouse then
      { v with gLastX := xMousePos, gLastY := yMousePos, gFirstMouse := false }
    else v
  let xOffset := xMousePos - v1.gLastX
  let yOffset := v1.gLastY - yMousePos
  { v1 with
    gLastX := xMousePos
    gLastY := yMousePos
    g_pCamera := cam.ProcessMouseMovement v1.g_pCamera xOffset yOffset }

/-- Method `Mouse_Scroll_Callback(window, xOffset, yOffset)`. -/
def Mouse_Scroll_Callback (cam : CameraClass F X) (v : ViewManager F X)
    (_xOffset yOffset : F) : ViewManager F X :=
  { v with g_pCamera := cam.ProcessMouseScroll v.g_pCamera yOffset }

/-- The statement `if (escape pressed) glfwSetWindowShouldClose(m_pWindow, true)`
of `ProcessKeyboardEvents`. -/
def ProcessKeyboardEvents.close (pressed : Bool) (v : ViewManager F X) : ViewManager F X :=
  if pressed then { v with windowShouldClose := true } else v

/-- A statement `if (key pressed) g_pCamera->ProcessKeyboard(direction, gDeltaTime)`
of `ProcessKeyboardEvents`. -/
def ProcessKeyboardEvents.move (cam : CameraClass F X) (pressed : Bool)
    (direction : Camera_Movement) (v : ViewManager F X) : ViewManager F X :=
  if pressed then
    { v with g_pCamera := cam.ProcessKeyboard v.g_pCamera direction v.gDeltaTime }
  else v

/-- A statement `if (key pressed) bOrthographicProjection = value` of
`ProcessKeyboardEvents`. -/
def ProcessKeyboardEvents.select (pressed : Bool) (value : Bool) (v : ViewManager F X) :
    ViewManager F X :=
  if pressed then { v with bOrthographicProjection := value } else v

/-- Method `ProcessKeyboardEvents()`; `glfwGetKey k` tells whether
`glfwGetKey(m_pWindow, k) == GLFW_PRESS`.  The nine `if` statements run in
source order: escape, W, S, A, D, Q, E, then P (perspective) and O
(orthographic). -/
def ProcessKeyboardEvents (cam : CameraClass F X) (glfwGetKey : Key → Bool)
    (v : ViewManager F X) : ViewManager F X :=
  let v := ProcessKeyboardEvents.close (glfwGetKey Key.GLFW_KEY_ESCAPE) v
  let v := ProcessKeyboardEvents.move cam (glfwGetKey Key.GLFW_KEY_W) Camera_Movement.FORWARD v
  let v := ProcessKeyboardEvents.move cam (glfwGetKey Key.GLFW_KEY_S) Camera_Movement.BACKWARD v
  let v := ProcessKeyboardEvents.move cam (glfwGetKey Key.GLFW_KEY_A) Camera_Movement.LEFT v
  let v := ProcessKeyboardEvents.move cam (glfwGetKey Key.GLFW_KEY_D) Camera_Movement.RIGHT v
  let v := ProcessKeyboardEvents.move cam (glfwGetKey Key.GLFW_KEY_Q) Camera_Movement.UP v
  let v := ProcessKeyboardEvents.move cam (glfwGetKey Key.GLFW_KEY_E) Camera_Movement.DOWN v
  let v := ProcessKeyboardEvents.select (glfwGetKey Key.GLFW_KEY_P) false v
  let v := ProcessKeyboardEvents.select (glfwGetKey Key.GLFW_KEY_O) true v
  v

/-- The part of `PrepareSceneView()` before the pushes: frame timing, keyboard
processing, and the view and projection matrices of the current mode.
`glfwGetTime` is the time read at this call. -/
def PrepareSceneView.compute (cam : CameraClass F X) (lib : glm.MathLib F) (tan : F → F)
    (glfwGetTime : F) (glfwGetKey : Key → Bool) (v : ViewManager F X) :
    PrepareSceneView.Frame F X :=
  let currentFrame := glfwGetTime
  let v := { v with gDeltaTime := currentFrame - v.gLastFrame }
  let v := { v with gLastFrame := currentFrame }
  let v := ProcessKeyboardEvents cam glfwGetKey v
  if !v.bOrthographicProjection then
    let view := cam.GetViewMatrix v.g_pCamera
    let projection := glm.perspective tan (glm.radians lib v.g_pCamera.Zoom)
      ((WINDOW_WIDTH : F) / (WINDOW_HEIGHT : F)) 0.1 100.0
    { view := view, projection := projection, poseOverwritten := false, state := v }
  else
    let scale : F := 10.0
    let aspectRatio : F := (WINDOW_WIDTH : F) / (WINDOW_HEIGHT : F)
    let projection := glm.ortho (-scale * aspectRatio) (scale * aspectRatio)
      (-scale) scale 0.1 100.0
    let v := { v with g_pCamera := { v.g_pCamera with Position := ⟨0.0, 0.0, 10.0⟩ } }
    let v := { v with g_pCamera := { v.g_pCamera with Front := ⟨0.0, 0.0, -1.0⟩ } }
    let v := { v with g_pCamera := { v.g_pCamera with Up := ⟨0.0, 1.0, 0.0⟩ } }
    let view := glm.lookAt lib v.g_pCamera.Position
      (glm.vec3.add v.g_pCamera.Position v.g_pCamera.Front) v.g_pCamera.Up
    { view := view, projection := projection, poseOverwritten := true, state := v }

/-- Method `PrepareSceneView()`. -/
def PrepareSceneView (cam : CameraClass F X) (lib : glm.MathLib F) (tan : F → F)
    (glfwGetTime : F) (glfwGetKey : Key → Bool) (v : ViewManager F X) : ViewManager F X :=
  let frame := PrepareSceneView.compute cam lib tan glfwGetTime glfwGetKey v
  match frame.state.m_pShaderManager with
  | some sh =>
    let sh1 := sh.setMat4Value g_ViewName frame.view
    let sh2 := sh1.setMat4Value g_ProjectionName frame.projection
    let sh3 := sh2.setVec3Value "viewPosition" frame.state.g_pCamera.Position
    { frame.state with m_pShaderManager := some sh3 }
  | none => frame.state

/-- The state after a sequence of frames, each given by the time and the key
states read in it. -/
def runFrames (cam : CameraClass F X) (lib : glm.MathLib F) (tan : F → F)
    (v : ViewManager F X) : List (F × (Key → Bool)) → ViewManager F X
  | [] => v
  | fr :: frames => runFrames cam lib tan (PrepareSceneView cam lib tan fr.1 fr.2 v) frames

/-- The number of frames of a sequence in which the camera pose was
overwritten with the front-view pose. -/
def poseOverwrites (cam : CameraClass F X) (lib : glm.MathLib F) (tan : F → F)
    (v : ViewManager F X) : List (F × (Key → Bool)) → Nat
  | [] => 0
  | fr :: frames =>
    (if (PrepareSceneView.compute cam lib tan fr.1 fr.2 v).poseOverwritten then 1 else 0)
      + poseOverwrites cam lib tan (PrepareSceneView cam lib tan fr.1 fr.2 v) frames

/-- The number of frames of a sequence that are entered in Perspective mode and
left in Orthographic mode. -/
def orthoTransitions (cam : CameraClass F X) (lib : glm.MathLib F) (tan : F → F)
    (v : ViewManager F X) : List (F × (Key → Bool)) → Nat
  | [] => 0
  | fr :: frames =>
    (if !v.bOrthographicProjection
        && (PrepareSceneView cam lib tan fr.1 fr.2 v).bOrthographicProjection then 1 else 0)
      + orthoTransitions cam lib tan (PrepareSceneView cam lib tan fr.1 fr.2 v) frames

/-- The number of frames of a sequence whose matrices are computed in
Orthographic mode. -/
def orthoFrames (cam : CameraClass F X) (lib : glm.MathLib F) (tan : F → F)
    (v : ViewManager F X) : List (F × (Key → Bool)) → Nat
  | [] => 0
  | fr :: frames =>
    (if (PrepareSceneView cam lib tan fr.1 fr.2 v).bOrthographicProjection then 1 else 0)
      + orthoFrames cam lib tan (PrepareSceneView cam lib tan fr.1 fr.2 v) frames

end ViewManager

/-- Constructor `ViewManager(pShaderManager)`, run at program start: the
namespace-scope variables have the values of their initialisers. -/
def ViewManager.constructor {F X : Type} [Field F] (cam : CameraClass F X)
    (pShaderManager : Option (ShaderManager F)) : ViewManager F X :=
  { m_pShaderManager := pShaderManager
    windowShouldClose := false
    g_pCamera :=
      { cam.construct with
        Position := ⟨0.0, 5.0, 12.0⟩
        Front := ⟨0.0, -0.5, -2.0⟩
        Up := ⟨0.0, 1.0, 0.0⟩
        Zoom := 80 }
    gLastX := (WINDOW_WIDTH : F) / 2.0
    gLastY := (WINDOW_HEIGHT : F) / 2.0
    gFirstMouse := true
    gDeltaTime := 0.0
    gLastFrame := 0.0
    bOrthographicProjection := false }

/-! ## Tags used by the scene traversal -/

namespace SceneCall

variable {F : Type}

/-- The tag passed to `SetShaderTexture`, for a call that is one. -/
def textureTag : SceneCall F → Option String
  | dispatch (DispatcherCall.SetShaderTexture textureTag) => some textureTag
  | _ => none

/-- The tag passed to `SetShaderMaterial`, for a call that is one. -/
def materialTag : SceneCall F → Option String
  | SetShaderMaterial materialTag => some materialTag
  | _ => none

end SceneCall

/-! ## Lemmas on the lookup loops -/

section Lemmas

variable {F : Type}

theorem GLuintToInt_of_lt (u : Nat) (h : u < 2147483648) : GLuintToInt u = (u : Int) := by
  unfold GLuintToInt
  have h1 : u % 4294967296 = u := Nat.mod_eq_of_lt (by omega)
  rw [h1, if_pos h]

/-- Splitting a list at its first element satisfying a predicate. -/
theorem exists_first_split {α : Type} (p : α → Prop) (l : List α)
    (h : ∃ e ∈ l, p e) :
    ∃ (pre : List α) (e : α) (post : List α),
      l = pre ++ e :: post ∧ p e ∧ ∀ x ∈ pre, ¬ p x := by
  classical
  induction l with
  | nil => simp at h
  | cons a t ih =>
    by_cases ha : p a
    · exact ⟨[], a, t, rfl, ha, by simp⟩
    · have ht : ∃ e ∈ t, p e := by
        obtain ⟨e, he, hpe⟩ := h
        rcases List.mem_cons.mp he with rfl | he
        · exact absurd hpe ha
        · exact ⟨e, he, hpe⟩
      obtain ⟨pre, e, post, hl, hpe, hpre⟩ := ih ht
      refine ⟨a :: pre, e, post, by simp [hl], hpe, ?_⟩
      intro x hx
      rcases List.mem_cons.mp hx with rfl | hx
      · exact ha
      · exact hpre x hx

theorem FindTextureSlot_loop_miss (tag : String) (l : List TEXTURE_INFO) (index d : Int)
    (h : ∀ e ∈ l, e.tag ≠ tag) : FindTextureSlot.loop tag l index d = d := by
  induction l generalizing index with
  | nil => rfl
  | cons a t ih =>
    have ha : a.tag ≠ tag := h a (List.mem_cons_self a t)
    simp only [FindTextureSlot.loop, if_neg ha]
    exact ih (index + 1) (fun e he => h e (List.mem_cons_of_mem a he))

theorem FindTextureSlot_loop_hit (tag : String) (pre : List TEXTURE_INFO) (e : TEXTURE_INFO)
    (post : List TEXTURE_INFO) (index d : Int)
    (hpre : ∀ x ∈ pre, x.tag ≠ tag) (he : e.tag = tag) :
    FindTextureSlot.loop tag (pre ++ e :: post) index d = index + (pre.length : Int) := by
  induction pre generalizing index with
  | nil => simp [FindTextureSlot.loop, he]
  | cons a t ih =>
    have ha : a.tag ≠ tag := hpre a (List.mem_cons_self a t)
    show FindTextureSlot.loop tag (a :: (t ++ e :: post)) index d = _
    rw [FindTextureSlot.loop, if_neg ha,
      ih (index + 1) (fun x hx => hpre x (List.mem_cons_of_mem a hx))]
    simp only [List.length_cons, Nat.cast_add, Nat.cast_one]
    omega

theorem FindTextureID_loop_miss (tag : String) (l : List TEXTURE_INFO) (index d : Int)
    (h : ∀ e ∈ l, e.tag ≠ tag) : FindTextureID.loop tag l index d = d := by
  induction l generalizing index with
  | nil => rfl
  | cons a t ih =>
    have ha : a.tag ≠ tag := h a (List.mem_cons_self a t)
    simp only [FindTextureID.loop, if_neg ha]
    exact ih (index + 1) (fun e he => h e (List.mem_cons_of_mem a he))

theorem FindTextureID_loop_hit (tag : String) (pre : List TEXTURE_INFO) (e : TEXTURE_INFO)
    (post : List TEXTURE_INFO) (index d : Int)
    (hpre : ∀ x ∈ pre, x.tag ≠ tag) (he : e.tag = tag) :
    FindTextureID.loop tag (pre ++ e :: post) index d = GLuintToInt e.ID := by
  induction pre generalizing index with
  | nil => simp [FindTextureID.loop, he]
  | cons a t ih =>
    have ha : a.tag ≠ tag := hpre a (List.mem_cons_self a t)
    show FindTextureID.loop tag (a :: (t ++ e :: post)) index d = _
    rw [FindTextureID.loop, if_neg ha]
    exact ih (index + 1) (fun x hx => hpre x (List.mem_cons_of_mem a hx))

/-- The two texture lookups at the first entry carrying the tag. -/
theorem findTexture_at_first (s : SceneManager F) (tag : String)
    (h : ∃ e ∈ s.m_textureIDs, e.tag = tag) :
    ∃ (i : Nat) (e : TEXTURE_INFO), s.m_textureIDs[i]? = some e ∧ e.tag = tag ∧
      (∀ (j : Nat) (x : TEXTURE_INFO), j < i → s.m_textureIDs[j]? = some x → x.tag ≠ tag) ∧
      s.FindTextureSlot tag = (i : Int) ∧
      s.FindTextureID tag = GLuintToInt e.ID := by
  obtain ⟨pre, e, post, hl, he, hpre⟩ :=
    exists_first_split (fun x : TEXTURE_INFO => x.tag = tag) s.m_textureIDs h
  refine ⟨pre.length, e, ?_, he, ?_, ?_, ?_⟩
  · rw [hl, List.getElem?_append_right (le_refl _)]; simp
  · intro j x hj hx
    rw [hl, List.getElem?_append_left hj] at hx
    exact hpre x (List.getElem?_mem hx)
  · unfold SceneManager.FindTextureSlot
    rw [hl, FindTextureSlot_loop_hit tag pre e post 0 (-1) hpre he]
    simp
  · unfold SceneManager.FindTextureID
    rw [hl, FindTextureID_loop_hit tag pre e post 0 (-1) hpre he]

end Lemmas

/-! ## Texture lookup -/

section TextureLookup

variable {F : Type}

/-- C1. When some registered entry carries `tag`, `FindTextureSlot(tag)` is the
smallest 0-based index whose entry has that tag, and `FindTextureID(tag)` is
the handle stored at that index (as the `int` it converts to, which is the
handle itself below `2^31`).  Hence, when the registered tags are pairwise
distinct, every registered entry is found at its own index with its own
handle. -/
theorem FindTexture_first_match (s : SceneManager F) (tag : String)
    (h : ∃ e ∈ s.m_textureIDs, e.tag = tag) :
    (∃ (i : Nat) (e : TEXTURE_INFO), s.m_textureIDs[i]? = some e ∧ e.tag = tag ∧
      (∀ (j : Nat) (x : TEXTURE_INFO), j < i → s.m_textureIDs[j]? = some x → x.tag ≠ tag) ∧
      s.FindTextureSlot tag = (i : Int) ∧
      s.FindTextureID tag = GLuintToInt e.ID ∧
      (e.ID < 2147483648 → s.FindTextureID tag = (e.ID : Int))) ∧
    ((s.m_textureIDs.map TEXTURE_INFO.tag).Nodup →
      ∀ (i : Nat) (e : TEXTURE_INFO), s.m_textureIDs[i]? = some e →
        s.FindTextureSlot e.tag = (i : Int) ∧
        s.FindTextureID e.tag = GLuintToInt e.ID ∧
        (e.ID < 2147483648 → s.FindTextureID e.tag = (e.ID : Int))) := by
  constructor
  · obtain ⟨i, e, hi, he, hmin, hslot, hid⟩ := findTexture_at_first s tag h
    exact ⟨i, e, hi, he, hmin, hslot, hid, fun hlt => by rw [hid, GLuintToInt_of_lt _ hlt]⟩
  · intro hnd i e hi
    obtain ⟨k, x, hk, hx, hmin, hslot, hid⟩ :=
      findTexture_at_first s e.tag ⟨e, List.getElem?_mem hi, rfl⟩
    have hik : k = i := by
      obtain ⟨hklt, hkx⟩ := List.getElem?_eq_some.mp hk
      obtain ⟨hilt, hie⟩ := List.getElem?_eq_some.mp hi
      have hk2 : k < (s.m_textureIDs.map TEXTURE_INFO.tag).length := by simpa using hklt
      have hi2 : i < (s.m_textureIDs.map TEXTURE_INFO.tag).length := by simpa using hilt
      refine (@List.Nodup.getElem_inj_iff _ _ hnd k hk2 i hi2).mp ?_
      simp only [List.getElem_map]
      rw [hkx, hie, hx]
    subst hik
    have hxe : x = e := by
      rw [hk] at hi
      exact Option.some.inj hi
    subst hxe
    exact ⟨hslot, hid, fun hlt => by rw [hid, GLuintToInt_of_lt _ hlt]⟩

/-- Instance of C1: in the registry `desk, cup` (handles 7 and 9) the tag
`cup` is found in slot 1 with handle 9. -/
theorem FindTexture_first_match_witness :
    (∃ e ∈ (⟨none, [⟨7, "desk"⟩, ⟨9, "cup"⟩], []⟩ : SceneManager ℚ).m_textureIDs,
      e.tag = "cup") ∧
    ((⟨none, [⟨7, "desk"⟩, ⟨9, "cup"⟩], []⟩ : SceneManager ℚ).m_textureIDs.map
      TEXTURE_INFO.tag).Nodup ∧
    (⟨none, [⟨7, "desk"⟩, ⟨9, "cup"⟩], []⟩ : SceneManager ℚ).FindTextureSlot "cup" = 1 ∧
    (⟨none, [⟨7, "desk"⟩, ⟨9, "cup"⟩], []⟩ : SceneManager ℚ).FindTextureID "cup" = 9 :=
  have h0 : ∃ e ∈ (⟨none, [⟨7, "desk"⟩, ⟨9, "cup"⟩], []⟩ : SceneManager ℚ).m_textureIDs,
      e.tag = "cup" := ⟨⟨9, "cup"⟩, by simp, rfl⟩
  have hnd : ((⟨none, [⟨7, "desk"⟩, ⟨9, "cup"⟩], []⟩ : SceneManager ℚ).m_textureIDs.map
      TEXTURE_INFO.tag).Nodup := by decide
  have hc := (FindTexture_first_match
    (⟨none, [⟨7, "desk"⟩, ⟨9, "cup"⟩], []⟩ : SceneManager ℚ) "cup" h0).2 hnd 1 ⟨9, "cup"⟩ rfl
  ⟨h0, hnd, hc.1, hc.2.2 (by decide)⟩

/-- C2. When no registered entry carries `tag` (in particular when the registry
is empty), `FindTextureSlot(tag)` and `FindTextureID(tag)` both return -1. -/
theorem FindTexture_unregistered (s : SceneManager F) (tag : String)
    (h : ∀ e ∈ s.m_textureIDs, e.tag ≠ tag) :
    s.FindTextureSlot tag = -1 ∧ s.FindTextureID tag = -1 :=
  ⟨FindTextureSlot_loop_miss tag s.m_textureIDs 0 (-1) h,
   FindTextureID_loop_miss tag s.m_textureIDs 0 (-1) h⟩

/-- Instance of C2: the tag `notebook` in the registry `desk, cup`, and any tag
in the empty registry. -/
theorem FindTexture_unregistered_witness :
    (∀ e ∈ (⟨none, [⟨7, "desk"⟩, ⟨9, "cup"⟩], []⟩ : SceneManager ℚ).m_textureIDs,
      e.tag ≠ "notebook") ∧
    ((⟨none, [⟨7, "desk"⟩, ⟨9, "cup"⟩], []⟩ : SceneManager ℚ).FindTextureSlot "notebook" = -1 ∧
     (⟨none, [⟨7, "desk"⟩, ⟨9, "cup"⟩], []⟩ : SceneManager ℚ).FindTextureID "notebook" = -1) ∧
    ((⟨none, [], []⟩ : SceneManager ℚ).FindTextureSlot "desk" = -1 ∧
     (⟨none, [], []⟩ : SceneManager ℚ).FindTextureID "desk" = -1) :=
  have h0 : ∀ e ∈ (⟨none, [⟨7, "desk"⟩, ⟨9, "cup"⟩], []⟩ : SceneManager ℚ).m_textureIDs,
      e.tag ≠ "notebook" := by decide
  ⟨h0, FindTexture_unregistered _ "notebook" h0,
   FindTexture_unregistered _ "desk" (by simp)⟩

end TextureLookup

/-! ## Texture registration -/

section TextureRegistration

variable {F : Type}

/-- The registration statements at a full array: the entry is stored behind
the array and counted, and the other members hold what the write left. -/
theorem CreateGLTexture_register_full (clobbered s : SceneManager F) (textureID : Nat)
    (tag : String) (hfull : ¬ s.m_textureIDs.length < SceneManager.textureCapacity) :
    SceneManager.CreateGLTexture.register clobbered s textureID tag
      = { clobbered with m_textureIDs := s.m_textureIDs ++ [⟨textureID, tag⟩] } := by
  unfold SceneManager.CreateGLTexture.register
  rw [if_neg hfull]

/-- The texture entries after the registration statements, full array or not. -/
theorem CreateGLTexture_register_entries (clobbered s : SceneManager F) (textureID : Nat)
    (tag : String) :
    (SceneManager.CreateGLTexture.register clobbered s textureID tag).m_textureIDs
      = s.m_textureIDs ++ [⟨textureID, tag⟩] := by
  unfold SceneManager.CreateGLTexture.register
  split <;> rfl

/-- C3. When `CreateGLTexture` fails, because the image cannot be decoded or
because its channel count is neither 3 nor 4, it returns `false` and leaves the
registry as it was: the same number of loaded textures and the same entry at
every index. -/
theorem CreateGLTexture_failure (stbi_load : String → Option Image) (glGenTextures : Nat)
    (clobbered s : SceneManager F) (filename tag : String)
    (h : stbi_load filename = none ∨
      ∃ image, stbi_load filename = some image ∧
        image.colorChannels ≠ 3 ∧ image.colorChannels ≠ 4) :
    (s.CreateGLTexture stbi_load glGenTextures clobbered filename tag).1 = false ∧
    (s.CreateGLTexture stbi_load glGenTextures clobbered filename tag).2 = s ∧
    (s.CreateGLTexture stbi_load glGenTextures clobbered filename tag).2.m_loadedTextures
      = s.m_loadedTextures ∧
    ∀ i : Nat,
      (s.CreateGLTexture stbi_load glGenTextures clobbered filename tag).2.m_textureIDs[i]?
        = s.m_textureIDs[i]? := by
  have key : s.CreateGLTexture stbi_load glGenTextures clobbered filename tag = (false, s) := by
    unfold SceneManager.CreateGLTexture
    rcases h with h | ⟨image, h, h3, h4⟩
    · rw [h]
    · rw [h]
      simp only [if_neg h3, if_neg h4]
  rw [key]
  exact ⟨rfl, rfl, rfl, fun _ => rfl⟩

/-- Instance of C3: an image decoded with 5 channels, offered to a registry
holding `desk` and `cup`. -/
theorem CreateGLTexture_failure_witness :
    ((fun _ => some ⟨64, 64, 5⟩ : String → Option Image) "five.png" = none ∨
      ∃ image, (fun _ => some ⟨64, 64, 5⟩ : String → Option Image) "five.png" = some image ∧
        image.colorChannels ≠ 3 ∧ image.colorChannels ≠ 4) ∧
    ((⟨none, [⟨7, "desk"⟩, ⟨9, "cup"⟩], []⟩ : SceneManager ℚ).CreateGLTexture
      (fun _ => some ⟨64, 64, 5⟩) 11 ⟨none, [], []⟩ "five.png" "five").1 = false ∧
    ((⟨none, [⟨7, "desk"⟩, ⟨9, "cup"⟩], []⟩ : SceneManager ℚ).CreateGLTexture
      (fun _ => some ⟨64, 64, 5⟩) 11 ⟨none, [], []⟩ "five.png" "five").2.m_loadedTextures = 2 :=
  have h0 : ((fun _ => some ⟨64, 64, 5⟩ : String → Option Image) "five.png" = none ∨
      ∃ image, (fun _ => some ⟨64, 64, 5⟩ : String → Option Image) "five.png" = some image ∧
        image.colorChannels ≠ 3 ∧ image.colorChannels ≠ 4) :=
    Or.inr ⟨⟨64, 64, 5⟩, rfl, by decide, by decide⟩
  have hc := CreateGLTexture_failure (fun _ => some ⟨64, 64, 5⟩) 11 ⟨none, [], []⟩
    (⟨none, [⟨7, "desk"⟩, ⟨9, "cup"⟩], []⟩ : SceneManager ℚ) "five.png" "five" h0
  ⟨h0, hc.1, hc.2.2.1⟩

end TextureRegistration

/-! ## Material lookup -/

section MaterialLookup

variable {F : Type}

theorem FindMaterial_loop_miss (tag : String) (l : List (OBJECT_MATERIAL F)) (index : Int)
    (material : OBJECT_MATERIAL F) (h : ∀ m ∈ l, m.tag ≠ tag) :
    SceneManager.FindMaterial.loop tag l index material = material := by
  induction l generalizing index with
  | nil => rfl
  | cons a t ih =>
    have ha : a.tag ≠ tag := h a (List.mem_cons_self a t)
    rw [SceneManager.FindMaterial.loop, if_neg ha]
    exact ih (index + 1) (fun m hm => h m (List.mem_cons_of_mem a hm))

theorem FindMaterial_loop_hit (tag : String) (pre : List (OBJECT_MATERIAL F))
    (m : OBJECT_MATERIAL F) (post : List (OBJECT_MATERIAL F)) (index : Int)
    (material : OBJECT_MATERIAL F) (hpre : ∀ x ∈ pre, x.tag ≠ tag) (hm : m.tag = tag) :
    SceneManager.FindMaterial.loop tag (pre ++ m :: post) index material =
      { material with
        ambientColor := m.ambientColor
        ambientStrength := m.ambientStrength
        diffuseColor := m.diffuseColor
        specularColor := m.specularColor
        shininess := m.shininess } := by
  induction pre generalizing index with
  | nil =>
    show SceneManager.FindMaterial.loop tag (m :: post) index material = _
    rw [SceneManager.FindMaterial.loop, if_pos hm]
  | cons a t ih =>
    have ha : a.tag ≠ tag := hpre a (List.mem_cons_self a t)
    show SceneManager.FindMaterial.loop tag (a :: (t ++ m :: post)) index material = _
    rw [SceneManager.FindMaterial.loop, if_neg ha]
    exact ih (index + 1) (fun x hx => hpre x (List.mem_cons_of_mem a hx))

/-- C5. `FindMaterial` returns `false` when the material list is empty.  When
the list is not empty and no material carries `tag`, it returns `true` and the
output material is, in every field, what it was before the call. -/
theorem FindMaterial_no_match (s : SceneManager F) (tag : String)
    (material : OBJECT_MATERIAL F) :
    (s.m_objectMaterials = [] → (s.FindMaterial tag material).1 = false) ∧
    (s.m_objectMaterials ≠ [] → (∀ m ∈ s.m_objectMaterials, m.tag ≠ tag) →
      (s.FindMaterial tag material).1 = true ∧
      (s.FindMaterial tag material).2.1 = material) := by
  constructor
  · intro h
    unfold SceneManager.FindMaterial
    rw [h]
    rfl
  · intro hne hno
    have hlen : ¬ s.m_objectMaterials.length = 0 := fun h0 => hne (List.length_eq_zero.mp h0)
    unfold SceneManager.FindMaterial
    rw [if_neg hlen]
    exact ⟨rfl, FindMaterial_loop_miss tag s.m_objectMaterials 0 material hno⟩

/-- Instance of C5: looking up `glass` in an empty list, and in a list holding
only a material tagged `metal`. -/
theorem FindMaterial_no_match_witness :
    ((⟨none, [], []⟩ : SceneManager ℚ).FindMaterial "glass"
      ⟨⟨1, 2, 3⟩, 4, ⟨5, 6, 7⟩, ⟨8, 9, 10⟩, 11, "local"⟩).1 = false ∧
    ((⟨none, [], [⟨⟨0, 0, 0⟩, 0, ⟨1, 1, 1⟩, ⟨2, 2, 2⟩, 42, "metal"⟩]⟩ :
      SceneManager ℚ).FindMaterial "glass"
      ⟨⟨1, 2, 3⟩, 4, ⟨5, 6, 7⟩, ⟨8, 9, 10⟩, 11, "local"⟩).1 = true ∧
    ((⟨none, [], [⟨⟨0, 0, 0⟩, 0, ⟨1, 1, 1⟩, ⟨2, 2, 2⟩, 42, "metal"⟩]⟩ :
      SceneManager ℚ).FindMaterial "glass"
      ⟨⟨1, 2, 3⟩, 4, ⟨5, 6, 7⟩, ⟨8, 9, 10⟩, 11, "local"⟩).2.1
      = ⟨⟨1, 2, 3⟩, 4, ⟨5, 6, 7⟩, ⟨8, 9, 10⟩, 11, "local"⟩ :=
  have h1 := (FindMaterial_no_match (⟨none, [], []⟩ : SceneManager ℚ) "glass"
    ⟨⟨1, 2, 3⟩, 4, ⟨5, 6, 7⟩, ⟨8, 9, 10⟩, 11, "local"⟩).1 rfl
  have h2 := (FindMaterial_no_match
    (⟨none, [], [⟨⟨0, 0, 0⟩, 0, ⟨1, 1, 1⟩, ⟨2, 2, 2⟩, 42, "metal"⟩]⟩ : SceneManager ℚ) "glass"
    ⟨⟨1, 2, 3⟩, 4, ⟨5, 6, 7⟩, ⟨8, 9, 10⟩, 11, "local"⟩).2
    (by simp) (by simp)
  ⟨h1, h2.1, h2.2⟩

/-- C6. When some registered material carries `tag`, `FindMaterial` returns
`true` and the output material has the ambient colour, ambient strength,
diffuse colour, specular colour and shininess of the earliest registered
material with that tag (its own tag is kept); the state, and with it the
material list, is the same after the call. -/
theorem FindMaterial_first_match (s : SceneManager F) (tag : String)
    (material : OBJECT_MATERIAL F) (h : ∃ m ∈ s.m_objectMaterials, m.tag = tag) :
    ∃ (i : Nat) (m : OBJECT_MATERIAL F), s.m_objectMaterials[i]? = some m ∧ m.tag = tag ∧
      (∀ (j : Nat) (x : OBJECT_MATERIAL F), j < i → s.m_objectMaterials[j]? = some x →
        x.tag ≠ tag) ∧
      (s.FindMaterial tag material).1 = true ∧
      (s.FindMaterial tag material).2.1.ambientColor = m.ambientColor ∧
      (s.FindMaterial tag material).2.1.ambientStrength = m.ambientStrength ∧
      (s.FindMaterial tag material).2.1.diffuseColor = m.diffuseColor ∧
      (s.FindMaterial tag material).2.1.specularColor = m.specularColor ∧
      (s.FindMaterial tag material).2.1.shininess = m.shininess ∧
      (s.FindMaterial tag material).2.1.tag = material.tag ∧
      (s.FindMaterial tag material).2.2 = s ∧
      (s.FindMaterial tag material).2.2.m_objectMaterials = s.m_objectMaterials := by
  obtain ⟨pre, m, post, hl, hm, hpre⟩ :=
    exists_first_split (fun x : OBJECT_MATERIAL F => x.tag = tag) s.m_objectMaterials h
  have hlen : ¬ s.m_objectMaterials.length = 0 := by
    rw [hl]; simp
  have key : s.FindMaterial tag material =
      (true, { material with
        ambientColor := m.ambientColor
        ambientStrength := m.ambientStrength
        diffuseColor := m.diffuseColor
        specularColor := m.specularColor
        shininess := m.shininess }, s) := by
    unfold SceneManager.FindMaterial
    rw [if_neg hlen]
    have hloop := FindMaterial_loop_hit tag pre m post 0 material hpre hm
    rw [← hl] at hloop
    rw [hloop]
  refine ⟨pre.length, m, ?_, hm, ?_, ?_⟩
  · rw [hl, List.getElem?_append_right (le_refl _)]; simp
  · intro j x hj hx
    rw [hl, List.getElem?_append_left hj] at hx
    exact hpre x (List.getElem?_mem hx)
  · rw [key]
    exact ⟨rfl, rfl, rfl, rfl, rfl, rfl, rfl, rfl, rfl⟩

/-- Instance of C6: two materials tagged `metal` are registered; the lookup
takes the values of the first (shininess 42), not of the second (shininess
99). -/
theorem FindMaterial_first_match_witness :
    (∃ m ∈ (⟨none, [], [⟨⟨0, 0, 0⟩, 0, ⟨1, 1, 1⟩, ⟨2, 2, 2⟩, 42, "metal"⟩,
        ⟨⟨3, 3, 3⟩, 1, ⟨4, 4, 4⟩, ⟨5, 5, 5⟩, 99, "metal"⟩]⟩ :
        SceneManager ℚ).m_objectMaterials, m.tag = "metal") ∧
    ((⟨none, [], [⟨⟨0, 0, 0⟩, 0, ⟨1, 1, 1⟩, ⟨2, 2, 2⟩, 42, "metal"⟩,
        ⟨⟨3, 3, 3⟩, 1, ⟨4, 4, 4⟩, ⟨5, 5, 5⟩, 99, "metal"⟩]⟩ :
        SceneManager ℚ).FindMaterial "metal"
      ⟨⟨1, 2, 3⟩, 4, ⟨5, 6, 7⟩, ⟨8, 9, 10⟩, 11, "local"⟩).2.1.shininess = 42 := by
  have h0 : ∃ m ∈ (⟨none, [], [⟨⟨0, 0, 0⟩, 0, ⟨1, 1, 1⟩, ⟨2, 2, 2⟩, 42, "metal"⟩,
        ⟨⟨3, 3, 3⟩, 1, ⟨4, 4, 4⟩, ⟨5, 5, 5⟩, 99, "metal"⟩]⟩ :
        SceneManager ℚ).m_objectMaterials, m.tag = "metal" :=
    ⟨⟨⟨0, 0, 0⟩, 0, ⟨1, 1, 1⟩, ⟨2, 2, 2⟩, 42, "metal"⟩, by simp, rfl⟩
  obtain ⟨i, m, hi, -, hmin, -, -, -, -, -, hsh, -⟩ := FindMaterial_first_match
    (⟨none, [], [⟨⟨0, 0, 0⟩, 0, ⟨1, 1, 1⟩, ⟨2, 2, 2⟩, 42, "metal"⟩,
        ⟨⟨3, 3, 3⟩, 1, ⟨4, 4, 4⟩, ⟨5, 5, 5⟩, 99, "metal"⟩]⟩ : SceneManager ℚ) "metal"
    ⟨⟨1, 2, 3⟩, 4, ⟨5, 6, 7⟩, ⟨8, 9, 10⟩, 11, "local"⟩ h0
  refine ⟨h0, ?_⟩
  rw [hsh]
  have hi0 : i = 0 := by
    by_contra hne
    exact hmin 0 _ (Nat.pos_of_ne_zero hne) rfl rfl
  subst hi0
  have hm : m = ⟨⟨0, 0, 0⟩, 0, ⟨1, 1, 1⟩, ⟨2, 2, 2⟩, 42, "metal"⟩ :=
    (Option.some.inj hi).symm
  rw [hm]

end MaterialLookup

/-! ## Transformations -/

section Transformations

variable {F : Type} [Field F]

/-- C7. The matrix that `SetTransformations` computes and pushes as `model` is
`translation * rotationX * rotationY * rotationZ * scale`, in that order: applied
to a column it scales first, then rotates about Z, then Y, then X, and
translates last.  Over the real numbers, with scale (2,1,1), rotation degrees
(0,90,0) and translation (5,0,0), it maps the point (1,0,0) to (5,0,-2). -/
theorem SetTransformations_order (lib : glm.MathLib F) (s : SceneManager F)
    (sh : ShaderManager F) (scaleXYZ : glm.vec3 F)
    (XrotationDegrees YrotationDegrees ZrotationDegrees : F) (positionXYZ : glm.vec3 F) :
    SceneManager.SetTransformations.modelView lib scaleXYZ
        XrotationDegrees YrotationDegrees ZrotationDegrees positionXYZ
      = glm.translate positionXYZ
        * glm.rotate lib (glm.radians lib XrotationDegrees) ⟨1, 0, 0⟩
        * glm.rotate lib (glm.radians lib YrotationDegrees) ⟨0, 1, 0⟩
        * glm.rotate lib (glm.radians lib ZrotationDegrees) ⟨0, 0, 1⟩
        * glm.scale scaleXYZ ∧
    (∀ p : Fin 4 → F,
      Matrix.mulVec (SceneManager.SetTransformations.modelView lib scaleXYZ
          XrotationDegrees YrotationDegrees ZrotationDegrees positionXYZ) p
        = Matrix.mulVec (glm.translate positionXYZ)
          (Matrix.mulVec (glm.rotate lib (glm.radians lib XrotationDegrees) ⟨1, 0, 0⟩)
            (Matrix.mulVec (glm.rotate lib (glm.radians lib YrotationDegrees) ⟨0, 1, 0⟩)
              (Matrix.mulVec (glm.rotate lib (glm.radians lib ZrotationDegrees) ⟨0, 0, 1⟩)
                (Matrix.mulVec (glm.scale scaleXYZ) p))))) ∧
    (SceneManager.SetTransformations lib { s with m_pShaderManager := some sh } scaleXYZ
        XrotationDegrees YrotationDegrees ZrotationDegrees positionXYZ).m_pShaderManager
      = some (sh.setMat4Value "model"
          (glm.translate positionXYZ
            * glm.rotate lib (glm.radians lib XrotationDegrees) ⟨1, 0, 0⟩
            * glm.rotate lib (glm.radians lib YrotationDegrees) ⟨0, 1, 0⟩
            * glm.rotate lib (glm.radians lib ZrotationDegrees) ⟨0, 0, 1⟩
            * glm.scale scaleXYZ)) ∧
    Matrix.mulVec (SceneManager.SetTransformations.modelView
        ⟨Real.cos, Real.sin, fun x => 1 / Real.sqrt x, Real.pi⟩
        ⟨2, 1, 1⟩ 0 90 0 ⟨5, 0, 0⟩) (glm.point ⟨1, 0, 0⟩) = glm.point ⟨5, 0, -2⟩ := by
  refine ⟨rfl, ?_, rfl, ?_⟩
  · intro p
    simp only [SceneManager.SetTransformations.modelView, Matrix.mulVec_mulVec, Matrix.mul_assoc]
  · have h90 : (90 : ℝ) * (Real.pi / 180) = Real.pi / 2 := by ring
    have hX : glm.rotate ⟨Real.cos, Real.sin, fun x => 1 / Real.sqrt x, Real.pi⟩
        (glm.radians ⟨Real.cos, Real.sin, fun x => 1 / Real.sqrt x, Real.pi⟩ 0) ⟨1, 0, 0⟩
        = (1 : glm.mat4 ℝ) := by
      ext i j
      fin_cases i <;> fin_cases j <;>
        simp [glm.rotate, glm.radians, glm.normalize, Matrix.one_apply, Matrix.vecHead,
          Matrix.vecTail]
    have hZ : glm.rotate ⟨Real.cos, Real.sin, fun x => 1 / Real.sqrt x, Real.pi⟩
        (glm.radians ⟨Real.cos, Real.sin, fun x => 1 / Real.sqrt x, Real.pi⟩ 0) ⟨0, 0, 1⟩
        = (1 : glm.mat4 ℝ) := by
      ext i j
      fin_cases i <;> fin_cases j <;>
        simp [glm.rotate, glm.radians, glm.normalize, Matrix.one_apply, Matrix.vecHead,
          Matrix.vecTail]
    have hY : glm.rotate ⟨Real.cos, Real.sin, fun x => 1 / Real.sqrt x, Real.pi⟩
        (glm.radians ⟨Real.cos, Real.sin, fun x => 1 / Real.sqrt x, Real.pi⟩ 90) ⟨0, 1, 0⟩
        = !![0, 0, 1, 0; 0, 1, 0, 0; -1, 0, 0, 0; 0, 0, 0, 1] := by
      ext i j
      fin_cases i <;> fin_cases j <;>
        simp [glm.rotate, glm.radians, glm.normalize, h90]
    unfold SceneManager.SetTransformations.modelView
    simp only [hX, hY, hZ, mul_one]
    ext i
    fin_cases i <;>
      simp [glm.scale, glm.translate, glm.point, Matrix.mulVec, Matrix.mul_apply,
        Fin.sum_univ_four, Matrix.dotProduct, Matrix.vecHead, Matrix.vecTail]

/-- C8. With a shader attached, `SetTransformations` pushes exactly one
uniform, the `mat4` named `model`; with no shader attached it pushes nothing
and the state is as before.  In both cases the texture and material registries
are unchanged. -/
theorem SetTransformations_push (lib : glm.MathLib F) (s : SceneManager F)
    (scaleXYZ : glm.vec3 F) (XrotationDegrees YrotationDegrees ZrotationDegrees : F)
    (positionXYZ : glm.vec3 F) :
    (∀ sh : ShaderManager F, s.m_pShaderManager = some sh →
      (s.SetTransformations lib scaleXYZ XrotationDegrees YrotationDegrees ZrotationDegrees
          positionXYZ).m_pShaderManager
        = some ⟨sh.pushes ++ [("model", UniformValue.ofMat4
            (SceneManager.SetTransformations.modelView lib scaleXYZ
              XrotationDegrees YrotationDegrees ZrotationDegrees positionXYZ))]⟩) ∧
    (s.m_pShaderManager = none →
      s.SetTransformations lib scaleXYZ XrotationDegrees YrotationDegrees ZrotationDegrees
          positionXYZ = s) ∧
    (s.SetTransformations lib scaleXYZ XrotationDegrees YrotationDegrees ZrotationDegrees
        positionXYZ).m_textureIDs = s.m_textureIDs ∧
    (s.SetTransformations lib scaleXYZ XrotationDegrees YrotationDegrees ZrotationDegrees
        positionXYZ).m_objectMaterials = s.m_objectMaterials := by
  unfold SceneManager.SetTransformations
  cases hsh : s.m_pShaderManager with
  | none => simp
  | some sh0 =>
    refine ⟨?_, fun h => by simp at h, rfl, rfl⟩
    intro sh h
    have : sh0 = sh := Option.some.inj h
    subst this
    rfl

/-- Instance of C8: a scene manager with a shader that has received no push
yet, and one with no shader. -/
theorem SetTransformations_push_witness :
    ((⟨some ⟨[]⟩, [⟨7, "desk"⟩], []⟩ : SceneManager ℚ).SetTransformations
        ⟨fun _ => 1, fun _ => 0, fun _ => 1, 3⟩ ⟨2, 1, 1⟩ 0 0 0 ⟨5, 0, 0⟩).m_pShaderManager
      = some ⟨[] ++ [("model", UniformValue.ofMat4
          (SceneManager.SetTransformations.modelView
            ⟨fun _ => 1, fun _ => 0, fun _ => 1, 3⟩ ⟨2, 1, 1⟩ 0 0 0 ⟨5, 0, 0⟩))]⟩ ∧
    (⟨none, [⟨7, "desk"⟩], []⟩ : SceneManager ℚ).SetTransformations
        ⟨fun _ => 1, fun _ => 0, fun _ => 1, 3⟩ ⟨2, 1, 1⟩ 0 0 0 ⟨5, 0, 0⟩
      = ⟨none, [⟨7, "desk"⟩], []⟩ :=
  ⟨(SetTransformations_push ⟨fun _ => 1, fun _ => 0, fun _ => 1, 3⟩
      (⟨some ⟨[]⟩, [⟨7, "desk"⟩], []⟩ : SceneManager ℚ) ⟨2, 1, 1⟩ 0 0 0 ⟨5, 0, 0⟩).1 ⟨[]⟩ rfl,
   (SetTransformations_push ⟨fun _ => 1, fun _ => 0, fun _ => 1, 3⟩
      (⟨none, [⟨7, "desk"⟩], []⟩ : SceneManager ℚ) ⟨2, 1, 1⟩ 0 0 0 ⟨5, 0, 0⟩).2.1 rfl⟩

end Transformations

/-! ## Colour and texture pushes -/

section ColourTexture

variable {F : Type}

theorem current_push_same (pushes : List (String × UniformValue F)) (name : String)
    (v : UniformValue F) :
    (⟨pushes ++ [(name, v)]⟩ : ShaderManager F).current name = some v := by
  simp [ShaderManager.current, List.reverse_append]

theorem current_push_other (pushes : List (String × UniformValue F)) (name other : String)
    (v : UniformValue F) (h : other ≠ name) :
    (⟨pushes ++ [(other, v)]⟩ : ShaderManager F).current name
      = (⟨pushes⟩ : ShaderManager F).current name := by
  simp [ShaderManager.current, List.reverse_append, List.find?_cons, h]

theorem SetShaderTexture_eq (s : SceneManager F) (sh : ShaderManager F) (textureTag : String)
    (h : s.m_pShaderManager = some sh) :
    s.SetShaderTexture textureTag =
      { s with m_pShaderManager := some ⟨(sh.pushes ++ [("bUseTexture", UniformValue.ofInt 1)])
          ++ [("objectTexture", UniformValue.ofSampler2D (s.FindTextureSlot textureTag))]⟩ } := by
  unfold SceneManager.SetShaderTexture
  rw [h]
  rfl

theorem SetShaderColor_eq (s : SceneManager F) (sh : ShaderManager F) (r g b a : F)
    (h : s.m_pShaderManager = some sh) :
    s.SetShaderColor r g b a =
      { s with m_pShaderManager := some ⟨(sh.pushes ++ [("bUseTexture", UniformValue.ofInt 0)])
          ++ [("objectColor", UniformValue.ofVec4 ⟨r, g, b, a⟩)]⟩ } := by
  unfold SceneManager.SetShaderColor
  rw [h]
  rfl

/-- C9. With a shader attached, `SetShaderTexture(tag)` pushes `bUseTexture`
as true (1) and then `objectTexture` as `FindTextureSlot(tag)`, so that these
are the values the two uniforms hold afterwards; for a tag carried by no
registered entry the value pushed for `objectTexture` is -1.  The call returns
normally and leaves both registries unchanged. -/
theorem SetShaderTexture_push (s : SceneManager F) (sh : ShaderManager F) (textureTag : String)
    (h : s.m_pShaderManager = some sh) :
    (s.SetShaderTexture textureTag).m_pShaderManager
      = some ⟨sh.pushes ++ [("bUseTexture", UniformValue.ofInt 1),
          ("objectTexture", UniformValue.ofSampler2D (s.FindTextureSlot textureTag))]⟩ ∧
    (∃ sh2 : ShaderManager F, (s.SetShaderTexture textureTag).m_pShaderManager = some sh2 ∧
      sh2.current "bUseTexture" = some (UniformValue.ofInt 1) ∧
      sh2.current "objectTexture"
        = some (UniformValue.ofSampler2D (s.FindTextureSlot textureTag)) ∧
      ((∀ e ∈ s.m_textureIDs, e.tag ≠ textureTag) →
        sh2.current "objectTexture" = some (UniformValue.ofSampler2D (-1)))) ∧
    (s.SetShaderTexture textureTag).m_textureIDs = s.m_textureIDs ∧
    (s.SetShaderTexture textureTag).m_objectMaterials = s.m_objectMaterials := by
  rw [SetShaderTexture_eq s sh textureTag h]
  refine ⟨by simp, ⟨_, rfl, ?_, ?_, ?_⟩, rfl, rfl⟩
  · rw [current_push_other _ _ _ _ (by decide)]
    exact current_push_same _ _ _
  · exact current_push_same _ _ _
  · intro hno
    rw [current_push_same]
    unfold SceneManager.FindTextureSlot
    rw [FindTextureSlot_loop_miss textureTag s.m_textureIDs 0 (-1) hno]

/-- Instance of C9: with `desk` and `cup` registered, the tag `cup` pushes
slot 1 and the unregistered tag `notebook` pushes -1. -/
theorem SetShaderTexture_push_witness :
    ((⟨some ⟨[]⟩, [⟨7, "desk"⟩, ⟨9, "cup"⟩], []⟩ : SceneManager ℚ).SetShaderTexture
        "cup").m_pShaderManager
      = some ⟨[] ++ [("bUseTexture", UniformValue.ofInt 1),
          ("objectTexture", UniformValue.ofSampler2D
            ((⟨some ⟨[]⟩, [⟨7, "desk"⟩, ⟨9, "cup"⟩], []⟩ : SceneManager ℚ).FindTextureSlot
              "cup"))]⟩ ∧
    (⟨some ⟨[]⟩, [⟨7, "desk"⟩, ⟨9, "cup"⟩], []⟩ : SceneManager ℚ).FindTextureSlot "cup" = 1 ∧
    ((⟨some ⟨[]⟩, [⟨7, "desk"⟩, ⟨9, "cup"⟩], []⟩ : SceneManager ℚ).SetShaderTexture
        "notebook").m_pShaderManager
      = some ⟨[] ++ [("bUseTexture", UniformValue.ofInt 1),
          ("objectTexture", UniformValue.ofSampler2D
            ((⟨some ⟨[]⟩, [⟨7, "desk"⟩, ⟨9, "cup"⟩], []⟩ : SceneManager ℚ).FindTextureSlot
              "notebook"))]⟩ ∧
    (⟨some ⟨[]⟩, [⟨7, "desk"⟩, ⟨9, "cup"⟩], []⟩ : SceneManager ℚ).FindTextureSlot "notebook"
      = -1 :=
  ⟨(SetShaderTexture_push (⟨some ⟨[]⟩, [⟨7, "desk"⟩, ⟨9, "cup"⟩], []⟩ : SceneManager ℚ)
      ⟨[]⟩ "cup" rfl).1,
   by decide,
   (SetShaderTexture_push (⟨some ⟨[]⟩, [⟨7, "desk"⟩, ⟨9, "cup"⟩], []⟩ : SceneManager ℚ)
      ⟨[]⟩ "notebook" rfl).1,
   by decide⟩

theorem run_flag [Field F] (lib : glm.MathLib F) (s : SceneManager F) (sh : ShaderManager F)
    (c : DispatcherCall F) (h : s.m_pShaderManager = some sh) :
    ∃ sh2 : ShaderManager F, (DispatcherCall.run lib s c).m_pShaderManager = some sh2 ∧
      sh2.current "bUseTexture"
        = (DispatcherCall.useTexture c).elim (sh.current "bUseTexture")
            (fun v => some (UniformValue.ofInt v)) := by
  cases c with
  | SetTransformations scaleXYZ rx ry rz positionXYZ =>
    refine ⟨sh.setMat4Value g_ModelName
      (SceneManager.SetTransformations.modelView lib scaleXYZ rx ry rz positionXYZ), ?_, ?_⟩
    · simp only [DispatcherCall.run, SceneManager.SetTransformations]
      rw [h]
    · exact current_push_other _ _ _ _ (by decide)
  | SetShaderColor r g b a =>
    refine ⟨⟨(sh.pushes ++ [("bUseTexture", UniformValue.ofInt 0)])
      ++ [("objectColor", UniformValue.ofVec4 ⟨r, g, b, a⟩)]⟩, ?_, ?_⟩
    · simp only [DispatcherCall.run]
      rw [SetShaderColor_eq s sh r g b a h]
    · rw [current_push_other _ _ _ _ (by decide)]
      exact current_push_same _ _ _
  | SetShaderTexture textureTag =>
    refine ⟨⟨(sh.pushes ++ [("bUseTexture", UniformValue.ofInt 1)])
      ++ [("objectTexture", UniformValue.ofSampler2D (s.FindTextureSlot textureTag))]⟩, ?_, ?_⟩
    · simp only [DispatcherCall.run]
      rw [SetShaderTexture_eq s sh textureTag h]
    · rw [current_push_other _ _ _ _ (by decide)]
      exact current_push_same _ _ _
  | SetTextureUVScale u v =>
    refine ⟨sh.setVec2Value "UVscale" ⟨u, v⟩, ?_, ?_⟩
    · simp only [DispatcherCall.run, SceneManager.SetTextureUVScale]
      rw [h]
    · exact current_push_other _ _ _ _ (by decide)

theorem runAll_flag [Field F] (lib : glm.MathLib F) (cs : List (DispatcherCall F)) :
    ∀ (s : SceneManager F) (sh : ShaderManager F), s.m_pShaderManager = some sh →
      ∃ sh2 : ShaderManager F, (DispatcherCall.runAll lib s cs).m_pShaderManager = some sh2 ∧
        sh2.current "bUseTexture"
          = (cs.filterMap DispatcherCall.useTexture).getLast?.elim (sh.current "bUseTexture")
              (fun v => some (UniformValue.ofInt v)) := by
  induction cs with
  | nil =>
    intro s sh h
    exact ⟨sh, h, rfl⟩
  | cons c cs ih =>
    intro s sh h
    obtain ⟨sh1, h1, hc1⟩ := run_flag lib s sh c h
    obtain ⟨sh2, h2, hc2⟩ := ih (DispatcherCall.run lib s c) sh1 h1
    refine ⟨sh2, h2, ?_⟩
    rw [hc2, hc1]
    cases hu : DispatcherCall.useTexture c with
    | none => rw [List.filterMap_cons_none hu]; rfl
    | some v =>
      rw [List.filterMap_cons_some hu, List.getLast?_cons]
      cases (List.filterMap DispatcherCall.useTexture cs).getLast? <;> rfl

/-- C10. With a shader attached, `SetShaderColor(r, g, b, a)` pushes
`bUseTexture` as false (0) and `objectColor` as `(r, g, b, a)` in the same
call, so the texture flag is off after it, while after `SetShaderTexture` the
flag is on.  Along any sequence of dispatcher calls, the flag holds the value
of the most recent colour or texture push (0 for colour, 1 for texture), and
its earlier value when the sequence has neither. -/
theorem SetShaderColor_flag [Field F] (lib : glm.MathLib F) (s : SceneManager F)
    (sh : ShaderManager F) (h : s.m_pShaderManager = some sh) (r g b a : F) :
    (s.SetShaderColor r g b a).m_pShaderManager
      = some ⟨sh.pushes ++ [("bUseTexture", UniformValue.ofInt 0),
          ("objectColor", UniformValue.ofVec4 ⟨r, g, b, a⟩)]⟩ ∧
    (∃ sh2 : ShaderManager F, (s.SetShaderColor r g b a).m_pShaderManager = some sh2 ∧
      sh2.current "bUseTexture" = some (UniformValue.ofInt 0) ∧
      sh2.current "objectColor" = some (UniformValue.ofVec4 ⟨r, g, b, a⟩)) ∧
    (∀ textureTag : String, ∃ sh2 : ShaderManager F,
      (s.SetShaderTexture textureTag).m_pShaderManager = some sh2 ∧
      sh2.current "bUseTexture" = some (UniformValue.ofInt 1)) ∧
    (∀ cs : List (DispatcherCall F), ∃ sh2 : ShaderManager F,
      (DispatcherCall.runAll lib s cs).m_pShaderManager = some sh2 ∧
      (∀ v : Int, (cs.filterMap DispatcherCall.useTexture).getLast? = some v →
        sh2.current "bUseTexture" = some (UniformValue.ofInt v)) ∧
      ((cs.filterMap DispatcherCall.useTexture).getLast? = none →
        sh2.current "bUseTexture" = sh.current "bUseTexture")) := by
  refine ⟨?_, ?_, ?_, ?_⟩
  · rw [SetShaderColor_eq s sh r g b a h]
    simp
  · rw [SetShaderColor_eq s sh r g b a h]
    refine ⟨_, rfl, ?_, current_push_same _ _ _⟩
    rw [current_push_other _ _ _ _ (by decide)]
    exact current_push_same _ _ _
  · intro textureTag
    rw [SetShaderTexture_eq s sh textureTag h]
    refine ⟨_, rfl, ?_⟩
    rw [current_push_other _ _ _ _ (by decide)]
    exact current_push_same _ _ _
  · intro cs
    obtain ⟨sh2, h2, hc⟩ := runAll_flag lib cs s sh h
    refine ⟨sh2, h2, ?_, ?_⟩
    · intro v hv
      rw [hc, hv]; rfl
    · intro hn
      rw [hc, hn]; rfl

/-- Instance of C10: a texture push, a transform and then a colour push leave
the flag at 0; a colour push followed by a texture push leaves it at 1. -/
theorem SetShaderColor_flag_witness :
    (∃ sh2 : ShaderManager ℚ,
      (DispatcherCall.runAll ⟨fun _ => 1, fun _ => 0, fun _ => 1, 3⟩
        (⟨some ⟨[]⟩, [⟨7, "desk"⟩], []⟩ : SceneManager ℚ)
        [DispatcherCall.SetShaderTexture "desk",
         DispatcherCall.SetTransformations ⟨2, 1, 1⟩ 0 0 0 ⟨5, 0, 0⟩,
         DispatcherCall.SetShaderColor 1 0 0 1]).m_pShaderManager = some sh2 ∧
      sh2.current "bUseTexture" = some (UniformValue.ofInt 0)) ∧
    (∃ sh2 : ShaderManager ℚ,
      (DispatcherCall.runAll ⟨fun _ => 1, fun _ => 0, fun _ => 1, 3⟩
        (⟨some ⟨[]⟩, [⟨7, "desk"⟩], []⟩ : SceneManager ℚ)
        [DispatcherCall.SetShaderColor 1 0 0 1,
         DispatcherCall.SetShaderTexture "desk"]).m_pShaderManager = some sh2 ∧
      sh2.current "bUseTexture" = some (UniformValue.ofInt 1)) := by
  constructor
  · obtain ⟨sh2, h2, hv, -⟩ := (SetShaderColor_flag ⟨fun _ => 1, fun _ => 0, fun _ => 1, 3⟩
      (⟨some ⟨[]⟩, [⟨7, "desk"⟩], []⟩ : SceneManager ℚ) ⟨[]⟩ rfl 0 0 0 0).2.2.2
      [DispatcherCall.SetShaderTexture "desk",
       DispatcherCall.SetTransformations ⟨2, 1, 1⟩ 0 0 0 ⟨5, 0, 0⟩,
       DispatcherCall.SetShaderColor 1 0 0 1]
    exact ⟨sh2, h2, hv 0 rfl⟩
  · obtain ⟨sh2, h2, hv, -⟩ := (SetShaderColor_flag ⟨fun _ => 1, fun _ => 0, fun _ => 1, 3⟩
      (⟨some ⟨[]⟩, [⟨7, "desk"⟩], []⟩ : SceneManager ℚ) ⟨[]⟩ rfl 0 0 0 0).2.2.2
      [DispatcherCall.SetShaderColor 1 0 0 1,
       DispatcherCall.SetShaderTexture "desk"]
    exact ⟨sh2, h2, hv 1 rfl⟩

end ColourTexture

/-! ## Material push -/

section MaterialPush

variable {F : Type}

theorem FindMaterial_nonempty (s : SceneManager F) (tag : String) (material : OBJECT_MATERIAL F)
    (hne : s.m_objectMaterials ≠ []) :
    s.FindMaterial tag material
      = (true, SceneManager.FindMaterial.loop tag s.m_objectMaterials 0 material, s) := by
  have hlen : ¬ s.m_objectMaterials.length = 0 := fun h0 => hne (List.length_eq_zero.mp h0)
  unfold SceneManager.FindMaterial
  rw [if_neg hlen]

theorem SetShaderMaterial_empty (s : SceneManager F) (tag : String)
    (indeterminate : OBJECT_MATERIAL F) (h : s.m_objectMaterials = []) :
    s.SetShaderMaterial tag indeterminate = some s := by
  unfold SceneManager.SetShaderMaterial
  rw [h]
  rfl

theorem SetShaderMaterial_null (s : SceneManager F) (tag : String)
    (indeterminate : OBJECT_MATERIAL F) (hne : s.m_objectMaterials ≠ [])
    (h : s.m_pShaderManager = none) :
    s.SetShaderMaterial tag indeterminate = none := by
  have hlen : s.m_objectMaterials.length > 0 := List.length_pos.mpr hne
  unfold SceneManager.SetShaderMaterial
  rw [if_pos hlen]
  simp only [FindMaterial_nonempty s tag indeterminate hne, if_true, h]

theorem SetShaderMaterial_attached (s : SceneManager F) (sh : ShaderManager F) (tag : String)
    (indeterminate : OBJECT_MATERIAL F) (hne : s.m_objectMaterials ≠ [])
    (h : s.m_pShaderManager = some sh) :
    s.SetShaderMaterial tag indeterminate
      = some { s with m_pShaderManager := some ⟨sh.pushes ++
          [("material.ambientColor", UniformValue.ofVec3
              (SceneManager.FindMaterial.loop tag s.m_objectMaterials 0
                indeterminate).ambientColor),
           ("material.ambientStrength", UniformValue.ofFloat
              (SceneManager.FindMaterial.loop tag s.m_objectMaterials 0
                indeterminate).ambientStrength),
           ("material.diffuseColor", UniformValue.ofVec3
              (SceneManager.FindMaterial.loop tag s.m_objectMaterials 0
                indeterminate).diffuseColor),
           ("material.specularColor", UniformValue.ofVec3
              (SceneManager.FindMaterial.loop tag s.m_objectMaterials 0
                indeterminate).specularColor),
           ("material.shininess", UniformValue.ofFloat
              (SceneManager.FindMaterial.loop tag s.m_objectMaterials 0
                indeterminate).shininess)]⟩ } := by
  have hlen : s.m_objectMaterials.length > 0 := List.length_pos.mpr hne
  unfold SceneManager.SetShaderMaterial
  rw [if_pos hlen]
  simp only [FindMaterial_nonempty s tag indeterminate hne, if_true, h,
    ShaderManager.setVec3Value, ShaderManager.setFloatValue, List.append_assoc,
    List.singleton_append, List.cons_append, List.nil_append]

/-- C11. `SetShaderMaterial(tag)` pushes nothing when no material is
registered.  For every material list and tag the call either makes no push (the
state is unchanged, or the call stops at the null shader pointer) or appends
exactly the five pushes `material.ambientColor`, `material.ambientStrength`,
`material.diffuseColor`, `material.specularColor`, `material.shininess`, in
that order.  With a shader attached and a matching tag, the five values are
those of the first registered material with that tag. -/
theorem SetShaderMaterial_pushes (s : SceneManager F) (tag : String)
    (indeterminate : OBJECT_MATERIAL F) :
    (s.m_objectMaterials = [] → s.SetShaderMaterial tag indeterminate = some s) ∧
    (s.SetShaderMaterial tag indeterminate = none ∨
      s.SetShaderMaterial tag indeterminate = some s ∨
      ∃ (sh : ShaderManager F) (ambientColor diffuseColor specularColor : glm.vec3 F)
        (ambientStrength shininess : F),
        s.m_pShaderManager = some sh ∧
        s.SetShaderMaterial tag indeterminate
          = some { s with m_pShaderManager := some ⟨sh.pushes ++
              [("material.ambientColor", UniformValue.ofVec3 ambientColor),
               ("material.ambientStrength", UniformValue.ofFloat ambientStrength),
               ("material.diffuseColor", UniformValue.ofVec3 diffuseColor),
               ("material.specularColor", UniformValue.ofVec3 specularColor),
               ("material.shininess", UniformValue.ofFloat shininess)]⟩ }) ∧
    (∀ sh : ShaderManager F, s.m_pShaderManager = some sh →
      (∃ m ∈ s.m_objectMaterials, m.tag = tag) →
      ∃ (i : Nat) (m : OBJECT_MATERIAL F), s.m_objectMaterials[i]? = some m ∧ m.tag = tag ∧
        (∀ (j : Nat) (x : OBJECT_MATERIAL F), j < i → s.m_objectMaterials[j]? = some x →
          x.tag ≠ tag) ∧
        s.SetShaderMaterial tag indeterminate
          = some { s with m_pShaderManager := some ⟨sh.pushes ++
              [("material.ambientColor", UniformValue.ofVec3 m.ambientColor),
               ("material.ambientStrength", UniformValue.ofFloat m.ambientStrength),
               ("material.diffuseColor", UniformValue.ofVec3 m.diffuseColor),
               ("material.specularColor", UniformValue.ofVec3 m.specularColor),
               ("material.shininess", UniformValue.ofFloat m.shininess)]⟩ }) := by
  refine ⟨SetShaderMaterial_empty s tag indeterminate, ?_, ?_⟩
  · by_cases hne : s.m_objectMaterials = []
    · exact Or.inr (Or.inl (SetShaderMaterial_empty s tag indeterminate hne))
    · cases hsh : s.m_pShaderManager with
      | none => exact Or.inl (SetShaderMaterial_null s tag indeterminate hne hsh)
      | some sh =>
        exact Or.inr (Or.inr ⟨sh, _, _, _, _, _, rfl,
          SetShaderMaterial_attached s sh tag indeterminate hne hsh⟩)
  · intro sh hsh hex
    obtain ⟨pre, m, post, hl, hm, hpre⟩ :=
      exists_first_split (fun x : OBJECT_MATERIAL F => x.tag = tag) s.m_objectMaterials hex
    have hne : s.m_objectMaterials ≠ [] := by
      rw [hl]; simp
    have hloop := FindMaterial_loop_hit tag pre m post 0 indeterminate hpre hm
    rw [← hl] at hloop
    refine ⟨pre.length, m, ?_, hm, ?_, ?_⟩
    · rw [hl, List.getElem?_append_right (le_refl _)]; simp
    · intro j x hj hx
      rw [hl, List.getElem?_append_left hj] at hx
      exact hpre x (List.getElem?_mem hx)
    · rw [SetShaderMaterial_attached s sh tag indeterminate hne hsh, hloop]

/-- Instance of C11: nothing is pushed with no material registered; with a
material tagged `metal` registered and a shader attached, the tag `metal`
pushes the five values of that material. -/
theorem SetShaderMaterial_pushes_witness :
    (⟨some ⟨[]⟩, [], []⟩ : SceneManager ℚ).SetShaderMaterial "metal"
        ⟨⟨1, 2, 3⟩, 4, ⟨5, 6, 7⟩, ⟨8, 9, 10⟩, 11, "local"⟩
      = some ⟨some ⟨[]⟩, [], []⟩ ∧
    ∃ (i : Nat) (m : OBJECT_MATERIAL ℚ),
      (⟨some ⟨[]⟩, [], [⟨⟨0, 0, 0⟩, 0, ⟨1, 1, 1⟩, ⟨2, 2, 2⟩, 42, "metal"⟩]⟩ :
        SceneManager ℚ).m_objectMaterials[i]? = some m ∧ m.tag = "metal" ∧
      (⟨some ⟨[]⟩, [], [⟨⟨0, 0, 0⟩, 0, ⟨1, 1, 1⟩, ⟨2, 2, 2⟩, 42, "metal"⟩]⟩ :
        SceneManager ℚ).SetShaderMaterial "metal"
          ⟨⟨1, 2, 3⟩, 4, ⟨5, 6, 7⟩, ⟨8, 9, 10⟩, 11, "local"⟩
        = some ⟨some ⟨[] ++
            [("material.ambientColor", UniformValue.ofVec3 m.ambientColor),
             ("material.ambientStrength", UniformValue.ofFloat m.ambientStrength),
             ("material.diffuseColor", UniformValue.ofVec3 m.diffuseColor),
             ("material.specularColor", UniformValue.ofVec3 m.specularColor),
             ("material.shininess", UniformValue.ofFloat m.shininess)]⟩, [],
            [⟨⟨0, 0, 0⟩, 0, ⟨1, 1, 1⟩, ⟨2, 2, 2⟩, 42, "metal"⟩]⟩ := by
  refine ⟨(SetShaderMaterial_pushes (⟨some ⟨[]⟩, [], []⟩ : SceneManager ℚ) "metal"
    ⟨⟨1, 2, 3⟩, 4, ⟨5, 6, 7⟩, ⟨8, 9, 10⟩, 11, "local"⟩).1 rfl, ?_⟩
  obtain ⟨i, m, hi, hm, -, hpush⟩ := (SetShaderMaterial_pushes
    (⟨some ⟨[]⟩, [], [⟨⟨0, 0, 0⟩, 0, ⟨1, 1, 1⟩, ⟨2, 2, 2⟩, 42, "metal"⟩]⟩ : SceneManager ℚ)
    "metal" ⟨⟨1, 2, 3⟩, 4, ⟨5, 6, 7⟩, ⟨8, 9, 10⟩, 11, "local"⟩).2.2 ⟨[]⟩ rfl
    ⟨⟨⟨0, 0, 0⟩, 0, ⟨1, 1, 1⟩, ⟨2, 2, 2⟩, 42, "metal"⟩, by simp, rfl⟩
  exact ⟨i, m, hi, hm, hpush⟩

end MaterialPush

/-! ## Scene traversal -/

section SceneTraversal

variable {F : Type} [Field F]

theorem SceneCall_run_attached (lib : glm.MathLib F) (indeterminate : OBJECT_MATERIAL F)
    (s : SceneManager F) (sh : ShaderManager F) (c : SceneCall F)
    (h : s.m_pShaderManager = some sh) :
    ∃ (s1 : SceneManager F) (sh1 : ShaderManager F),
      SceneCall.run lib indeterminate s c = some s1 ∧ s1.m_pShaderManager = some sh1 := by
  cases c with
  | dispatch d =>
    obtain ⟨sh2, h2, -⟩ := run_flag lib s sh d h
    exact ⟨_, sh2, rfl, h2⟩
  | SetShaderMaterial materialTag =>
    by_cases hne : s.m_objectMaterials = []
    · exact ⟨s, sh, SetShaderMaterial_empty s materialTag indeterminate hne, h⟩
    · exact ⟨_, _, SetShaderMaterial_attached s sh materialTag indeterminate hne h, rfl⟩
  | draw m => exact ⟨s, sh, rfl, h⟩

theorem SceneCall_runAll_attached (lib : glm.MathLib F) (indeterminate : OBJECT_MATERIAL F)
    (cs : List (SceneCall F)) :
    ∀ (s : SceneManager F) (sh : ShaderManager F), s.m_pShaderManager = some sh →
      ∃ s2 : SceneManager F, SceneCall.runAll lib indeterminate s cs = some s2 := by
  induction cs with
  | nil => intro s sh _; exact ⟨s, rfl⟩
  | cons c cs ih =>
    intro s sh h
    obtain ⟨s1, sh1, hrun, h1⟩ := SceneCall_run_attached lib indeterminate s sh c h
    obtain ⟨s2, h2⟩ := ih s1 sh1 h1
    refine ⟨s2, ?_⟩
    rw [SceneCall.runAll, hrun]
    exact h2

/-- C12. The calls issued by `RenderScene` are the concatenation of 23 groups
of four, each group being one `SetTransformations`, one colour-or-texture push,
one `SetShaderMaterial` and one mesh draw, in that order: 1 group for the desk,
3 for the cup, 1 for the book, 10 for the notebook (2 covers and 8 rings), 5
for the pencil and 3 for the eraser.  With a shader attached every call of the
sequence is carried out. -/
theorem RenderScene_groups (lib : glm.MathLib F) (indeterminate : OBJECT_MATERIAL F)
    (s : SceneManager F) :
    (SceneCall.groups (SceneManager.RenderScene : List (SceneCall F))).length = 23 ∧
    (SceneCall.groups (SceneManager.RenderScene : List (SceneCall F))).flatten
      = SceneManager.RenderScene ∧
    (∀ g ∈ SceneCall.groups (SceneManager.RenderScene : List (SceneCall F)),
      g.map SceneCall.kind
        = [CallKind.transform, CallKind.colorOrTexture, CallKind.material, CallKind.draw]) ∧
    (∃ desk : List (SceneCall F),
      (SceneManager.RenderScene : List (SceneCall F))
        = desk ++ SceneManager.DrawCup ++ SceneManager.DrawFrenchBook
          ++ SceneManager.DrawNoteBook ++ SceneManager.DrawMechPencil
          ++ SceneManager.DrawEraser ∧
      (SceneCall.groups desk).length = 1 ∧ (SceneCall.groups desk).flatten = desk) ∧
    ((SceneCall.groups (SceneManager.DrawCup : List (SceneCall F))).length = 3 ∧
      (SceneCall.groups (SceneManager.DrawCup : List (SceneCall F))).flatten
        = SceneManager.DrawCup) ∧
    ((SceneCall.groups (SceneManager.DrawFrenchBook : List (SceneCall F))).length = 1 ∧
      (SceneCall.groups (SceneManager.DrawFrenchBook : List (SceneCall F))).flatten
        = SceneManager.DrawFrenchBook) ∧
    ((SceneCall.groups (SceneManager.DrawNoteBook : List (SceneCall F))).length = 10 ∧
      (SceneCall.groups (SceneManager.DrawNoteBook : List (SceneCall F))).flatten
        = SceneManager.DrawNoteBook ∧
      (SceneCall.groups (SceneManager.DrawNoteBook.rings 8 : List (SceneCall F))).length = 8) ∧
    ((SceneCall.groups (SceneManager.DrawMechPencil : List (SceneCall F))).length = 5 ∧
      (SceneCall.groups (SceneManager.DrawMechPencil : List (SceneCall F))).flatten
        = SceneManager.DrawMechPencil) ∧
    ((SceneCall.groups (SceneManager.DrawEraser : List (SceneCall F))).length = 3 ∧
      (SceneCall.groups (SceneManager.DrawEraser : List (SceneCall F))).flatten
        = SceneManager.DrawEraser) ∧
    (∀ sh : ShaderManager F, s.m_pShaderManager = some sh →
      ∃ s2 : SceneManager F,
        SceneCall.runAll lib indeterminate s SceneManager.RenderScene = some s2) := by
  refine ⟨rfl, rfl, ?_, ⟨_, rfl, rfl, rfl⟩, ⟨rfl, rfl⟩, ⟨rfl, rfl⟩, ⟨rfl, rfl, rfl⟩,
    ⟨rfl, rfl⟩, ⟨rfl, rfl⟩, ?_⟩
  · have hall : (SceneCall.groups (SceneManager.RenderScene : List (SceneCall F))).all
        SceneCall.isObjectGroup = true := rfl
    intro g hg
    have hg2 := List.all_eq_true.mp hall g hg
    exact of_decide_eq_true hg2
  · intro sh h
    exact SceneCall_runAll_attached lib indeterminate SceneManager.RenderScene s sh h

end SceneTraversal

/-! ## Projection mode and camera pose -/

section ViewLemmas

variable {F X : Type}

theorem close_mode (pressed : Bool) (v : ViewManager F X) :
    (ViewManager.ProcessKeyboardEvents.close pressed v).bOrthographicProjection
      = v.bOrthographicProjection := by
  unfold ViewManager.ProcessKeyboardEvents.close
  split <;> rfl

theorem move_mode (cam : CameraClass F X) (pressed : Bool) (direction : Camera_Movement)
    (v : ViewManager F X) :
    (ViewManager.ProcessKeyboardEvents.move cam pressed direction v).bOrthographicProjection
      = v.bOrthographicProjection := by
  unfold ViewManager.ProcessKeyboardEvents.move
  split <;> rfl

theorem select_same (pressed : Bool) (value : Bool) (v : ViewManager F X)
    (h : v.bOrthographicProjection = value) :
    ViewManager.ProcessKeyboardEvents.select pressed value v = v := by
  unfold ViewManager.ProcessKeyboardEvents.select
  split
  · cases v
    simp only at h
    subst h
    rfl
  · rfl

theorem select_idle (value : Bool) (v : ViewManager F X) :
    ViewManager.ProcessKeyboardEvents.select false value v = v := rfl

theorem select_mode (pressed : Bool) (value : Bool) (v : ViewManager F X) :
    (ViewManager.ProcessKeyboardEvents.select pressed value v).bOrthographicProjection
      = if pressed then value else v.bOrthographicProjection := by
  unfold ViewManager.ProcessKeyboardEvents.select
  split <;> rfl

/-- The mode after `ProcessKeyboardEvents`: O wins over P, and with neither
pressed the mode is kept. -/
theorem PKE_mode (cam : CameraClass F X) (glfwGetKey : Key → Bool) (v : ViewManager F X) :
    (ViewManager.ProcessKeyboardEvents cam glfwGetKey v).bOrthographicProjection
      = if glfwGetKey Key.GLFW_KEY_O then true
        else if glfwGetKey Key.GLFW_KEY_P then false
        else v.bOrthographicProjection := by
  unfold ViewManager.ProcessKeyboardEvents
  simp only [select_mode, move_mode, close_mode]

theorem PKE_active_P (cam : CameraClass F X) (glfwGetKey : Key → Bool) (v : ViewManager F X)
    (hP : glfwGetKey Key.GLFW_KEY_P = false) (hO : glfwGetKey Key.GLFW_KEY_O = false)
    (hv : v.bOrthographicProjection = false) :
    ViewManager.ProcessKeyboardEvents cam (Function.update glfwGetKey Key.GLFW_KEY_P true) v
      = ViewManager.ProcessKeyboardEvents cam glfwGetKey v := by
  unfold ViewManager.ProcessKeyboardEvents
  simp only [Function.update_same, Function.update_noteq (by decide : Key.GLFW_KEY_ESCAPE ≠ Key.GLFW_KEY_P),
    Function.update_noteq (by decide : Key.GLFW_KEY_W ≠ Key.GLFW_KEY_P),
    Function.update_noteq (by decide : Key.GLFW_KEY_S ≠ Key.GLFW_KEY_P),
    Function.update_noteq (by decide : Key.GLFW_KEY_A ≠ Key.GLFW_KEY_P),
    Function.update_noteq (by decide : Key.GLFW_KEY_D ≠ Key.GLFW_KEY_P),
    Function.update_noteq (by decide : Key.GLFW_KEY_Q ≠ Key.GLFW_KEY_P),
    Function.update_noteq (by decide : Key.GLFW_KEY_E ≠ Key.GLFW_KEY_P),
    Function.update_noteq (by decide : Key.GLFW_KEY_O ≠ Key.GLFW_KEY_P), hP, hO, select_idle]
  apply select_same
  simp only [move_mode, close_mode, hv]

theorem PKE_active_O (cam : CameraClass F X) (glfwGetKey : Key → Bool) (v : ViewManager F X)
    (hP : glfwGetKey Key.GLFW_KEY_P = false) (hO : glfwGetKey Key.GLFW_KEY_O = false)
    (hv : v.bOrthographicProjection = true) :
    ViewManager.ProcessKeyboardEvents cam (Function.update glfwGetKey Key.GLFW_KEY_O true) v
      = ViewManager.ProcessKeyboardEvents cam glfwGetKey v := by
  unfold ViewManager.ProcessKeyboardEvents
  simp only [Function.update_same, Function.update_noteq (by decide : Key.GLFW_KEY_ESCAPE ≠ Key.GLFW_KEY_O),
    Function.update_noteq (by decide : Key.GLFW_KEY_W ≠ Key.GLFW_KEY_O),
    Function.update_noteq (by decide : Key.GLFW_KEY_S ≠ Key.GLFW_KEY_O),
    Function.update_noteq (by decide : Key.GLFW_KEY_A ≠ Key.GLFW_KEY_O),
    Function.update_noteq (by decide : Key.GLFW_KEY_D ≠ Key.GLFW_KEY_O),
    Function.update_noteq (by decide : Key.GLFW_KEY_Q ≠ Key.GLFW_KEY_O),
    Function.update_noteq (by decide : Key.GLFW_KEY_E ≠ Key.GLFW_KEY_O),
    Function.update_noteq (by decide : Key.GLFW_KEY_P ≠ Key.GLFW_KEY_O), hP, hO, select_idle]
  apply select_same
  simp only [move_mode, close_mode, hv]

theorem close_camera (pressed : Bool) (v : ViewManager F X) :
    (ViewManager.ProcessKeyboardEvents.close pressed v).g_pCamera = v.g_pCamera := by
  unfold ViewManager.ProcessKeyboardEvents.close
  split <;> rfl

theorem select_camera (pressed : Bool) (value : Bool) (v : ViewManager F X) :
    (ViewManager.ProcessKeyboardEvents.select pressed value v).g_pCamera = v.g_pCamera := by
  unfold ViewManager.ProcessKeyboardEvents.select
  split <;> rfl

theorem move_idle (cam : CameraClass F X) (direction : Camera_Movement) (v : ViewManager F X) :
    ViewManager.ProcessKeyboardEvents.move cam false direction v = v := rfl

/-- With no movement key pressed, `ProcessKeyboardEvents` leaves the camera
as it is. -/
theorem PKE_camera_idle (cam : CameraClass F X) (glfwGetKey : Key → Bool) (v : ViewManager F X)
    (hW : glfwGetKey Key.GLFW_KEY_W = false) (hS : glfwGetKey Key.GLFW_KEY_S = false)
    (hA : glfwGetKey Key.GLFW_KEY_A = false) (hD : glfwGetKey Key.GLFW_KEY_D = false)
    (hQ : glfwGetKey Key.GLFW_KEY_Q = false) (hE : glfwGetKey Key.GLFW_KEY_E = false) :
    (ViewManager.ProcessKeyboardEvents cam glfwGetKey v).g_pCamera = v.g_pCamera := by
  unfold ViewManager.ProcessKeyboardEvents
  simp only [hW, hS, hA, hD, hQ, hE, move_idle, select_camera, close_camera]

/-- With no movement key pressed, `ProcessKeyboardEvents` applied twice with
the same keys gives the state of applying it once. -/
theorem PKE_twice (cam : CameraClass F X) (glfwGetKey : Key → Bool) (v : ViewManager F X)
    (hW : glfwGetKey Key.GLFW_KEY_W = false) (hS : glfwGetKey Key.GLFW_KEY_S = false)
    (hA : glfwGetKey Key.GLFW_KEY_A = false) (hD : glfwGetKey Key.GLFW_KEY_D = false)
    (hQ : glfwGetKey Key.GLFW_KEY_Q = false) (hE : glfwGetKey Key.GLFW_KEY_E = false) :
    ViewManager.ProcessKeyboardEvents cam glfwGetKey
        (ViewManager.ProcessKeyboardEvents cam glfwGetKey v)
      = ViewManager.ProcessKeyboardEvents cam glfwGetKey v := by
  unfold ViewManager.ProcessKeyboardEvents
  simp only [hW, hS, hA, hD, hQ, hE, move_idle]
  cases glfwGetKey Key.GLFW_KEY_ESCAPE <;> cases glfwGetKey Key.GLFW_KEY_P <;>
    cases glfwGetKey Key.GLFW_KEY_O <;> rfl

end ViewLemmas

section FrameLemmas

variable {F X : Type} [Field F]

/-- The state in which `PrepareSceneView` processes the keyboard: the timing
variables are updated first. -/
theorem compute_state (cam : CameraClass F X) (lib : glm.MathLib F) (tan : F → F)
    (t : F) (glfwGetKey : Key → Bool) (v : ViewManager F X) :
    (ViewManager.PrepareSceneView.compute cam lib tan t glfwGetKey v).state
      = if (ViewManager.ProcessKeyboardEvents cam glfwGetKey
            { v with gDeltaTime := t - v.gLastFrame, gLastFrame := t }).bOrthographicProjection
        then
          { ViewManager.ProcessKeyboardEvents cam glfwGetKey
              { v with gDeltaTime := t - v.gLastFrame, gLastFrame := t } with
            g_pCamera :=
              { (ViewManager.ProcessKeyboardEvents cam glfwGetKey
                  { v with gDeltaTime := t - v.gLastFrame, gLastFrame := t }).g_pCamera with
                Position := ⟨0.0, 0.0, 10.0⟩
                Front := ⟨0.0, 0.0, -1.0⟩
                Up := ⟨0.0, 1.0, 0.0⟩ } }
        else
          ViewManager.ProcessKeyboardEvents cam glfwGetKey
            { v with gDeltaTime := t - v.gLastFrame, gLastFrame := t } := by
  unfold ViewManager.PrepareSceneView.compute
  cases h : (ViewManager.ProcessKeyboardEvents cam glfwGetKey
      { v with gDeltaTime := t - v.gLastFrame, gLastFrame := t }).bOrthographicProjection <;>
    simp [h]

theorem compute_overwritten (cam : CameraClass F X) (lib : glm.MathLib F) (tan : F → F)
    (t : F) (glfwGetKey : Key → Bool) (v : ViewManager F X) :
    (ViewManager.PrepareSceneView.compute cam lib tan t glfwGetKey v).poseOverwritten
      = (ViewManager.ProcessKeyboardEvents cam glfwGetKey
          { v with gDeltaTime := t - v.gLastFrame, gLastFrame := t }).bOrthographicProjection := by
  unfold ViewManager.PrepareSceneView.compute
  cases h : (ViewManager.ProcessKeyboardEvents cam glfwGetKey
      { v with gDeltaTime := t - v.gLastFrame, gLastFrame := t }).bOrthographicProjection <;>
    simp [h]

/-- `PrepareSceneView` changes the computed state in the shader member only. -/
theorem PrepareSceneView_state (cam : CameraClass F X) (lib : glm.MathLib F) (tan : F → F)
    (t : F) (glfwGetKey : Key → Bool) (v : ViewManager F X) :
    ∃ sh : Option (ShaderManager F),
      ViewManager.PrepareSceneView cam lib tan t glfwGetKey v
        = { (ViewManager.PrepareSceneView.compute cam lib tan t glfwGetKey v).state with
            m_pShaderManager := sh } := by
  unfold ViewManager.PrepareSceneView
  dsimp only
  generalize ViewManager.PrepareSceneView.compute cam lib tan t glfwGetKey v = fr
  rcases fr with ⟨view, projection, ow, st⟩
  rcases st with ⟨sh, a, b, c, d, e, f, g, h⟩
  cases sh with
  | none => exact ⟨none, rfl⟩
  | some sh => exact ⟨_, rfl⟩

end FrameLemmas

section IdleKeys

variable {F X : Type}

/-- With no movement key pressed, `ProcessKeyboardEvents` only raises the close
flag and selects the mode. -/
theorem PKE_idle_form (cam : CameraClass F X) (glfwGetKey : Key → Bool) (w : ViewManager F X)
    (hW : glfwGetKey Key.GLFW_KEY_W = false) (hS : glfwGetKey Key.GLFW_KEY_S = false)
    (hA : glfwGetKey Key.GLFW_KEY_A = false) (hD : glfwGetKey Key.GLFW_KEY_D = false)
    (hQ : glfwGetKey Key.GLFW_KEY_Q = false) (hE : glfwGetKey Key.GLFW_KEY_E = false) :
    ViewManager.ProcessKeyboardEvents cam glfwGetKey w
      = { w with
          windowShouldClose := if glfwGetKey Key.GLFW_KEY_ESCAPE then true else w.windowShouldClose
          bOrthographicProjection :=
            if glfwGetKey Key.GLFW_KEY_O then true
            else if glfwGetKey Key.GLFW_KEY_P then false
            else w.bOrthographicProjection } := by
  unfold ViewManager.ProcessKeyboardEvents
  simp only [hW, hS, hA, hD, hQ, hE, move_idle]
  cases w
  cases glfwGetKey Key.GLFW_KEY_ESCAPE <;> cases glfwGetKey Key.GLFW_KEY_P <;>
    cases glfwGetKey Key.GLFW_KEY_O <;> rfl

end IdleKeys

section ProjectionMode

variable {F X : Type} [Field F]

theorem compute_active_P (cam : CameraClass F X) (lib : glm.MathLib F) (tan : F → F)
    (t : F) (glfwGetKey : Key → Bool) (v : ViewManager F X)
    (hP : glfwGetKey Key.GLFW_KEY_P = false) (hO : glfwGetKey Key.GLFW_KEY_O = false)
    (hv : v.bOrthographicProjection = false) :
    ViewManager.PrepareSceneView.compute cam lib tan t
        (Function.update glfwGetKey Key.GLFW_KEY_P true) v
      = ViewManager.PrepareSceneView.compute cam lib tan t glfwGetKey v := by
  unfold ViewManager.PrepareSceneView.compute
  dsimp only
  rw [PKE_active_P cam glfwGetKey
    { v with gDeltaTime := t - v.gLastFrame, gLastFrame := t } hP hO hv]

theorem compute_active_O (cam : CameraClass F X) (lib : glm.MathLib F) (tan : F → F)
    (t : F) (glfwGetKey : Key → Bool) (v : ViewManager F X)
    (hP : glfwGetKey Key.GLFW_KEY_P = false) (hO : glfwGetKey Key.GLFW_KEY_O = false)
    (hv : v.bOrthographicProjection = true) :
    ViewManager.PrepareSceneView.compute cam lib tan t
        (Function.update glfwGetKey Key.GLFW_KEY_O true) v
      = ViewManager.PrepareSceneView.compute cam lib tan t glfwGetKey v := by
  unfold ViewManager.PrepareSceneView.compute
  dsimp only
  rw [PKE_active_O cam glfwGetKey
    { v with gDeltaTime := t - v.gLastFrame, gLastFrame := t } hP hO hv]

/-- The mode after a frame: O wins over P, and with neither pressed the mode
is kept. -/
theorem PrepareSceneView_mode (cam : CameraClass F X) (lib : glm.MathLib F) (tan : F → F)
    (t : F) (glfwGetKey : Key → Bool) (v : ViewManager F X) :
    (ViewManager.PrepareSceneView cam lib tan t glfwGetKey v).bOrthographicProjection
      = if glfwGetKey Key.GLFW_KEY_O then true
        else if glfwGetKey Key.GLFW_KEY_P then false
        else v.bOrthographicProjection := by
  obtain ⟨sh, h⟩ := PrepareSceneView_state cam lib tan t glfwGetKey v
  rw [h]
  show (ViewManager.PrepareSceneView.compute cam lib tan t glfwGetKey
    v).state.bOrthographicProjection = _
  rw [compute_state]
  have hm := PKE_mode cam glfwGetKey { v with gDeltaTime := t - v.gLastFrame, gLastFrame := t }
  split
  · exact hm
  · exact hm

/-- The camera after a frame: that left by the keyboard processing, with the
front-view pose assigned when the mode after the frame is Orthographic. -/
theorem PrepareSceneView_camera (cam : CameraClass F X) (lib : glm.MathLib F) (tan : F → F)
    (t : F) (glfwGetKey : Key → Bool) (v : ViewManager F X) :
    (ViewManager.PrepareSceneView cam lib tan t glfwGetKey v).g_pCamera
      = if (ViewManager.PrepareSceneView cam lib tan t glfwGetKey v).bOrthographicProjection
        then
          { (ViewManager.ProcessKeyboardEvents cam glfwGetKey
              { v with gDeltaTime := t - v.gLastFrame, gLastFrame := t }).g_pCamera with
            Position := ⟨0.0, 0.0, 10.0⟩
            Front := ⟨0.0, 0.0, -1.0⟩
            Up := ⟨0.0, 1.0, 0.0⟩ }
        else
          (ViewManager.ProcessKeyboardEvents cam glfwGetKey
            { v with gDeltaTime := t - v.gLastFrame, gLastFrame := t }).g_pCamera := by
  obtain ⟨sh, h⟩ := PrepareSceneView_state cam lib tan t glfwGetKey v
  rw [h]
  show (ViewManager.PrepareSceneView.compute cam lib tan t glfwGetKey v).state.g_pCamera
    = if (ViewManager.PrepareSceneView.compute cam lib tan t glfwGetKey
        v).state.bOrthographicProjection then _ else _
  rw [compute_state]
  cases hm : (ViewManager.ProcessKeyboardEvents cam glfwGetKey
      { v with gDeltaTime := t - v.gLastFrame, gLastFrame := t }).bOrthographicProjection
  · simp [hm]
  · simp [hm]

/-- Two consecutive frames with the same keys, none of them a movement key:
the second frame changes the timing variables and the shader member only. -/
theorem PrepareSceneView_twice (cam : CameraClass F X) (lib : glm.MathLib F) (tan : F → F)
    (t t2 : F) (glfwGetKey : Key → Bool) (v : ViewManager F X)
    (hW : glfwGetKey Key.GLFW_KEY_W = false) (hS : glfwGetKey Key.GLFW_KEY_S = false)
    (hA : glfwGetKey Key.GLFW_KEY_A = false) (hD : glfwGetKey Key.GLFW_KEY_D = false)
    (hQ : glfwGetKey Key.GLFW_KEY_Q = false) (hE : glfwGetKey Key.GLFW_KEY_E = false) :
    ∃ sh : Option (ShaderManager F),
      ViewManager.PrepareSceneView cam lib tan t2 glfwGetKey
          (ViewManager.PrepareSceneView cam lib tan t glfwGetKey v)
        = { ViewManager.PrepareSceneView cam lib tan t glfwGetKey v with
            m_pShaderManager := sh
            gDeltaTime := t2 - t
            gLastFrame := t2 } := by
  obtain ⟨sh1, h1⟩ := PrepareSceneView_state cam lib tan t glfwGetKey v
  obtain ⟨sh2, h2⟩ := PrepareSceneView_state cam lib tan t2 glfwGetKey
    (ViewManager.PrepareSceneView cam lib tan t glfwGetKey v)
  refine ⟨sh2, ?_⟩
  rw [h2, compute_state, PKE_idle_form cam glfwGetKey _ hW hS hA hD hQ hE]
  rw [h1, compute_state, PKE_idle_form cam glfwGetKey _ hW hS hA hD hQ hE]
  clear h1 h2
  rcases v with ⟨a, b, c, d, e, f, g, h, m⟩
  cases m <;> cases glfwGetKey Key.GLFW_KEY_ESCAPE <;> cases glfwGetKey Key.GLFW_KEY_P <;>
    cases glfwGetKey Key.GLFW_KEY_O <;> simp

/-- C13. Selecting the projection mode is idempotent.  In a frame whose other
keys are the same, pressing the key of the mode that is already active (P in
Perspective, O in Orthographic) gives the state of that frame with no mode key
pressed, and the mode is kept.  Selecting a mode twice in a row, with no
movement key down, gives what selecting it once gives: the keyboard processing
repeated returns the same state, and a second frame changes the timing
variables and the shader member only. -/
theorem mode_selection_idempotent (cam : CameraClass F X) (lib : glm.MathLib F) (tan : F → F)
    (t t2 : F) (glfwGetKey : Key → Bool) (v : ViewManager F X)
    (hP : glfwGetKey Key.GLFW_KEY_P = false) (hO : glfwGetKey Key.GLFW_KEY_O = false) :
    (v.bOrthographicProjection = false →
      ViewManager.PrepareSceneView cam lib tan t
          (Function.update glfwGetKey Key.GLFW_KEY_P true) v
        = ViewManager.PrepareSceneView cam lib tan t glfwGetKey v ∧
      (ViewManager.PrepareSceneView cam lib tan t
          (Function.update glfwGetKey Key.GLFW_KEY_P true) v).bOrthographicProjection
        = false) ∧
    (v.bOrthographicProjection = true →
      ViewManager.PrepareSceneView cam lib tan t
          (Function.update glfwGetKey Key.GLFW_KEY_O true) v
        = ViewManager.PrepareSceneView cam lib tan t glfwGetKey v ∧
      (ViewManager.PrepareSceneView cam lib tan t
          (Function.update glfwGetKey Key.GLFW_KEY_O true) v).bOrthographicProjection
        = true) ∧
    (glfwGetKey Key.GLFW_KEY_W = false → glfwGetKey Key.GLFW_KEY_S = false →
      glfwGetKey Key.GLFW_KEY_A = false → glfwGetKey Key.GLFW_KEY_D = false →
      glfwGetKey Key.GLFW_KEY_Q = false → glfwGetKey Key.GLFW_KEY_E = false →
      ∀ k : Key, k = Key.GLFW_KEY_P ∨ k = Key.GLFW_KEY_O →
        ViewManager.ProcessKeyboardEvents cam (Function.update glfwGetKey k true)
            (ViewManager.ProcessKeyboardEvents cam (Function.update glfwGetKey k true) v)
          = ViewManager.ProcessKeyboardEvents cam (Function.update glfwGetKey k true) v ∧
        ∃ sh : Option (ShaderManager F),
          ViewManager.PrepareSceneView cam lib tan t2 (Function.update glfwGetKey k true)
              (ViewManager.PrepareSceneView cam lib tan t (Function.update glfwGetKey k true) v)
            = { ViewManager.PrepareSceneView cam lib tan t
                  (Function.update glfwGetKey k true) v with
                m_pShaderManager := sh
                gDeltaTime := t2 - t
                gLastFrame := t2 }) := by
  refine ⟨?_, ?_, ?_⟩
  · intro hv
    have hc := compute_active_P cam lib tan t glfwGetKey v hP hO hv
    refine ⟨?_, ?_⟩
    · unfold ViewManager.PrepareSceneView
      rw [hc]
    · rw [PrepareSceneView_mode]
      simp [hO, hv]
  · intro hv
    have hc := compute_active_O cam lib tan t glfwGetKey v hP hO hv
    refine ⟨?_, ?_⟩
    · unfold ViewManager.PrepareSceneView
      rw [hc]
    · rw [PrepareSceneView_mode]
      simp
  · intro hW hS hA hD hQ hE k hk
    have hmove : Function.update glfwGetKey k true Key.GLFW_KEY_W = false ∧
        Function.update glfwGetKey k true Key.GLFW_KEY_S = false ∧
        Function.update glfwGetKey k true Key.GLFW_KEY_A = false ∧
        Function.update glfwGetKey k true Key.GLFW_KEY_D = false ∧
        Function.update glfwGetKey k true Key.GLFW_KEY_Q = false ∧
        Function.update glfwGetKey k true Key.GLFW_KEY_E = false := by
      rcases hk with rfl | rfl <;>
        simp [Function.update, hW, hS, hA, hD, hQ, hE]
    obtain ⟨gW, gS, gA, gD, gQ, gE⟩ := hmove
    exact ⟨PKE_twice cam _ v gW gS gA gD gQ gE,
      PrepareSceneView_twice cam lib tan t t2 _ v gW gS gA gD gQ gE⟩

/-- Instance of C13: from the constructed state (Perspective), a frame with P
pressed gives the state of the frame with no key pressed; selecting
Orthographic twice gives, in the keyboard processing, what selecting it once
gives. -/
theorem mode_selection_idempotent_witness :
    ViewManager.PrepareSceneView
        (⟨⟨⟨0, 0, 0⟩, ⟨0, 0, 0⟩, ⟨0, 0, 0⟩, 0, ()⟩, fun c _ _ => c, fun c _ _ => c,
          fun c _ => c, fun _ => 1⟩ : CameraClass ℚ Unit)
        ⟨fun _ => 1, fun _ => 0, fun _ => 1, 3⟩ (fun _ => 1) 1
        (Function.update (fun _ => false) Key.GLFW_KEY_P true)
        (ViewManager.constructor
          (⟨⟨⟨0, 0, 0⟩, ⟨0, 0, 0⟩, ⟨0, 0, 0⟩, 0, ()⟩, fun c _ _ => c, fun c _ _ => c,
            fun c _ => c, fun _ => 1⟩ : CameraClass ℚ Unit) none)
      = ViewManager.PrepareSceneView
        (⟨⟨⟨0, 0, 0⟩, ⟨0, 0, 0⟩, ⟨0, 0, 0⟩, 0, ()⟩, fun c _ _ => c, fun c _ _ => c,
          fun c _ => c, fun _ => 1⟩ : CameraClass ℚ Unit)
        ⟨fun _ => 1, fun _ => 0, fun _ => 1, 3⟩ (fun _ => 1) 1
        (fun _ => false)
        (ViewManager.constructor
          (⟨⟨⟨0, 0, 0⟩, ⟨0, 0, 0⟩, ⟨0, 0, 0⟩, 0, ()⟩, fun c _ _ => c, fun c _ _ => c,
            fun c _ => c, fun _ => 1⟩ : CameraClass ℚ Unit) none) ∧
    ViewManager.ProcessKeyboardEvents
        (⟨⟨⟨0, 0, 0⟩, ⟨0, 0, 0⟩, ⟨0, 0, 0⟩, 0, ()⟩, fun c _ _ => c, fun c _ _ => c,
          fun c _ => c, fun _ => 1⟩ : CameraClass ℚ Unit)
        (Function.update (fun _ => false) Key.GLFW_KEY_O true)
        (ViewManager.ProcessKeyboardEvents
          (⟨⟨⟨0, 0, 0⟩, ⟨0, 0, 0⟩, ⟨0, 0, 0⟩, 0, ()⟩, fun c _ _ => c, fun c _ _ => c,
            fun c _ => c, fun _ => 1⟩ : CameraClass ℚ Unit)
          (Function.update (fun _ => false) Key.GLFW_KEY_O true)
          (ViewManager.constructor
            (⟨⟨⟨0, 0, 0⟩, ⟨0, 0, 0⟩, ⟨0, 0, 0⟩, 0, ()⟩, fun c _ _ => c, fun c _ _ => c,
              fun c _ => c, fun _ => 1⟩ : CameraClass ℚ Unit) none))
      = ViewManager.ProcessKeyboardEvents
        (⟨⟨⟨0, 0, 0⟩, ⟨0, 0, 0⟩, ⟨0, 0, 0⟩, 0, ()⟩, fun c _ _ => c, fun c _ _ => c,
          fun c _ => c, fun _ => 1⟩ : CameraClass ℚ Unit)
        (Function.update (fun _ => false) Key.GLFW_KEY_O true)
        (ViewManager.constructor
          (⟨⟨⟨0, 0, 0⟩, ⟨0, 0, 0⟩, ⟨0, 0, 0⟩, 0, ()⟩, fun c _ _ => c, fun c _ _ => c,
            fun c _ => c, fun _ => 1⟩ : CameraClass ℚ Unit) none) :=
  ⟨((mode_selection_idempotent _ ⟨fun _ => 1, fun _ => 0, fun _ => 1, 3⟩ (fun _ => 1) 1 2
      (fun _ => false) _ rfl rfl).1 rfl).1,
   ((mode_selection_idempotent _ ⟨fun _ => 1, fun _ => 0, fun _ => 1, 3⟩ (fun _ => 1) 1 2
      (fun _ => false) _ rfl rfl).2.2 rfl rfl rfl rfl rfl rfl Key.GLFW_KEY_O (Or.inr rfl)).1⟩

end ProjectionMode

/-! ## Pose overwrite in Orthographic mode -/

section PoseOverwrite

variable {F X : Type} [Field F]

/-- The front-view pose is assigned in a frame exactly when the mode after the
frame is Orthographic. -/
theorem overwritten_eq_mode (cam : CameraClass F X) (lib : glm.MathLib F) (tan : F → F)
    (t : F) (glfwGetKey : Key → Bool) (v : ViewManager F X) :
    (ViewManager.PrepareSceneView.compute cam lib tan t glfwGetKey v).poseOverwritten
      = (ViewManager.PrepareSceneView cam lib tan t glfwGetKey v).bOrthographicProjection := by
  rw [compute_overwritten, PrepareSceneView_mode, PKE_mode]

theorem poseOverwrites_eq_orthoFrames (cam : CameraClass F X) (lib : glm.MathLib F)
    (tan : F → F) (frames : List (F × (Key → Bool))) :
    ∀ v : ViewManager F X,
      ViewManager.poseOverwrites cam lib tan v frames
        = ViewManager.orthoFrames cam lib tan v frames := by
  induction frames with
  | nil => intro v; rfl
  | cons fr frames ih =>
    intro v
    rw [ViewManager.poseOverwrites, ViewManager.orthoFrames, overwritten_eq_mode, ih]

theorem orthoTransitions_le_poseOverwrites (cam : CameraClass F X) (lib : glm.MathLib F)
    (tan : F → F) (frames : List (F × (Key → Bool))) :
    ∀ v : ViewManager F X,
      ViewManager.orthoTransitions cam lib tan v frames
        ≤ ViewManager.poseOverwrites cam lib tan v frames := by
  induction frames with
  | nil => intro v; exact le_refl _
  | cons fr frames ih =>
    intro v
    rw [ViewManager.poseOverwrites, ViewManager.orthoTransitions, overwritten_eq_mode]
    refine Nat.add_le_add ?_ (ih _)
    cases v.bOrthographicProjection <;>
      cases (ViewManager.PrepareSceneView cam lib tan fr.1 fr.2 v).bOrthographicProjection <;>
      simp

theorem ortho_frame_pose (cam : CameraClass F X) (lib : glm.MathLib F) (tan : F → F)
    (t : F) (glfwGetKey : Key → Bool) (v : ViewManager F X)
    (h : (ViewManager.PrepareSceneView cam lib tan t glfwGetKey v).bOrthographicProjection
      = true) :
    (ViewManager.PrepareSceneView cam lib tan t glfwGetKey v).g_pCamera.Position
        = ⟨0.0, 0.0, 10.0⟩ ∧
    (ViewManager.PrepareSceneView cam lib tan t glfwGetKey v).g_pCamera.Front
        = ⟨0.0, 0.0, -1.0⟩ ∧
    (ViewManager.PrepareSceneView cam lib tan t glfwGetKey v).g_pCamera.Up
        = ⟨0.0, 1.0, 0.0⟩ := by
  rw [PrepareSceneView_camera, h]
  exact ⟨rfl, rfl, rfl⟩

theorem perspective_frame_camera (cam : CameraClass F X) (lib : glm.MathLib F) (tan : F → F)
    (t : F) (glfwGetKey : Key → Bool) (v : ViewManager F X)
    (h : (ViewManager.PrepareSceneView cam lib tan t glfwGetKey v).bOrthographicProjection
      = false) :
    (ViewManager.PrepareSceneView cam lib tan t glfwGetKey v).g_pCamera
      = (ViewManager.ProcessKeyboardEvents cam glfwGetKey
          { v with gDeltaTime := t - v.gLastFrame, gLastFrame := t }).g_pCamera := by
  rw [PrepareSceneView_camera, h]
  rfl

/-- Counterexample to C14 as stated.  From the constructed state, frame 1 has
O pressed (the one Perspective-to-Orthographic transition) and frame 2 has only
W pressed, the mode being Orthographic already.  The pose is overwritten in
both frames: two overwrites for one transition.  In frame 2 the camera
collaborator moves the position to (7,7,7) and the frame ends with it back at
(0,0,10). -/
theorem pose_overwrite_once_counterexample :
    ViewManager.orthoTransitions
        (⟨⟨⟨0, 0, 0⟩, ⟨0, 0, 0⟩, ⟨0, 0, 0⟩, 0, ()⟩, fun c _ _ => { c with Position := ⟨7, 7, 7⟩ },
          fun c _ _ => c, fun c _ => c, fun _ => 1⟩ : CameraClass ℚ Unit)
        ⟨fun _ => 1, fun _ => 0, fun _ => 1, 3⟩ (fun _ => 1)
        (ViewManager.constructor
          (⟨⟨⟨0, 0, 0⟩, ⟨0, 0, 0⟩, ⟨0, 0, 0⟩, 0, ()⟩, fun c _ _ => { c with Position := ⟨7, 7, 7⟩ },
          fun c _ _ => c, fun c _ => c, fun _ => 1⟩ : CameraClass ℚ Unit) none)
        [(1, fun k => decide (k = Key.GLFW_KEY_O)), (2, fun k => decide (k = Key.GLFW_KEY_W))] = 1 ∧
    ViewManager.poseOverwrites
        (⟨⟨⟨0, 0, 0⟩, ⟨0, 0, 0⟩, ⟨0, 0, 0⟩, 0, ()⟩, fun c _ _ => { c with Position := ⟨7, 7, 7⟩ },
          fun c _ _ => c, fun c _ => c, fun _ => 1⟩ : CameraClass ℚ Unit)
        ⟨fun _ => 1, fun _ => 0, fun _ => 1, 3⟩ (fun _ => 1)
        (ViewManager.constructor
          (⟨⟨⟨0, 0, 0⟩, ⟨0, 0, 0⟩, ⟨0, 0, 0⟩, 0, ()⟩, fun c _ _ => { c with Position := ⟨7, 7, 7⟩ },
          fun c _ _ => c, fun c _ => c, fun _ => 1⟩ : CameraClass ℚ Unit) none)
        [(1, fun k => decide (k = Key.GLFW_KEY_O)), (2, fun k => decide (k = Key.GLFW_KEY_W))] = 2 ∧
    ¬ (ViewManager.poseOverwrites
        (⟨⟨⟨0, 0, 0⟩, ⟨0, 0, 0⟩, ⟨0, 0, 0⟩, 0, ()⟩, fun c _ _ => { c with Position := ⟨7, 7, 7⟩ },
          fun c _ _ => c, fun c _ => c, fun _ => 1⟩ : CameraClass ℚ Unit)
        ⟨fun _ => 1, fun _ => 0, fun _ => 1, 3⟩ (fun _ => 1)
        (ViewManager.constructor
          (⟨⟨⟨0, 0, 0⟩, ⟨0, 0, 0⟩, ⟨0, 0, 0⟩, 0, ()⟩, fun c _ _ => { c with Position := ⟨7, 7, 7⟩ },
          fun c _ _ => c, fun c _ => c, fun _ => 1⟩ : CameraClass ℚ Unit) none)
        [(1, fun k => decide (k = Key.GLFW_KEY_O)), (2, fun k => decide (k = Key.GLFW_KEY_W))]
      = ViewManager.orthoTransitions
        (⟨⟨⟨0, 0, 0⟩, ⟨0, 0, 0⟩, ⟨0, 0, 0⟩, 0, ()⟩, fun c _ _ => { c with Position := ⟨7, 7, 7⟩ },
          fun c _ _ => c, fun c _ => c, fun _ => 1⟩ : CameraClass ℚ Unit)
        ⟨fun _ => 1, fun _ => 0, fun _ => 1, 3⟩ (fun _ => 1)
        (ViewManager.constructor
          (⟨⟨⟨0, 0, 0⟩, ⟨0, 0, 0⟩, ⟨0, 0, 0⟩, 0, ()⟩, fun c _ _ => { c with Position := ⟨7, 7, 7⟩ },
          fun c _ _ => c, fun c _ => c, fun _ => 1⟩ : CameraClass ℚ Unit) none)
        [(1, fun k => decide (k = Key.GLFW_KEY_O)), (2, fun k => decide (k = Key.GLFW_KEY_W))]) ∧
    (ViewManager.runFrames
        (⟨⟨⟨0, 0, 0⟩, ⟨0, 0, 0⟩, ⟨0, 0, 0⟩, 0, ()⟩, fun c _ _ => { c with Position := ⟨7, 7, 7⟩ },
          fun c _ _ => c, fun c _ => c, fun _ => 1⟩ : CameraClass ℚ Unit)
        ⟨fun _ => 1, fun _ => 0, fun _ => 1, 3⟩ (fun _ => 1)
        (ViewManager.constructor
          (⟨⟨⟨0, 0, 0⟩, ⟨0, 0, 0⟩, ⟨0, 0, 0⟩, 0, ()⟩, fun c _ _ => { c with Position := ⟨7, 7, 7⟩ },
          fun c _ _ => c, fun c _ => c, fun _ => 1⟩ : CameraClass ℚ Unit) none)
        [(1, fun k => decide (k = Key.GLFW_KEY_O)), (2, fun k => decide (k = Key.GLFW_KEY_W))]).g_pCamera.Position = ⟨0.0, 0.0, 10.0⟩ := by
  refine ⟨by decide, by decide, by decide, rfl⟩

/-- C14, amended.  The camera pose is overwritten with the front-view pose in
every frame whose matrices are computed in Orthographic mode, and in no other
frame: the number of overwrites along a sequence of frames is the number of its
Orthographic frames, which is at least the number of Perspective-to-
Orthographic transitions.  After an Orthographic frame the pose is the
front-view pose; after a Perspective frame the camera is the one left by the
keyboard processing. -/
theorem pose_overwrite_every_ortho_frame (cam : CameraClass F X) (lib : glm.MathLib F)
    (tan : F → F) (v : ViewManager F X) (frames : List (F × (Key → Bool)))
    (t : F) (glfwGetKey : Key → Bool) :
    ViewManager.poseOverwrites cam lib tan v frames
      = ViewManager.orthoFrames cam lib tan v frames ∧
    ViewManager.orthoTransitions cam lib tan v frames
      ≤ ViewManager.poseOverwrites cam lib tan v frames ∧
    (ViewManager.PrepareSceneView.compute cam lib tan t glfwGetKey v).poseOverwritten
      = (ViewManager.PrepareSceneView cam lib tan t glfwGetKey v).bOrthographicProjection ∧
    ((ViewManager.PrepareSceneView cam lib tan t glfwGetKey v).bOrthographicProjection = true →
      (ViewManager.PrepareSceneView cam lib tan t glfwGetKey v).g_pCamera.Position
          = ⟨0.0, 0.0, 10.0⟩ ∧
      (ViewManager.PrepareSceneView cam lib tan t glfwGetKey v).g_pCamera.Front
          = ⟨0.0, 0.0, -1.0⟩ ∧
      (ViewManager.PrepareSceneView cam lib tan t glfwGetKey v).g_pCamera.Up
          = ⟨0.0, 1.0, 0.0⟩) ∧
    ((ViewManager.PrepareSceneView cam lib tan t glfwGetKey v).bOrthographicProjection = false →
      (ViewManager.PrepareSceneView cam lib tan t glfwGetKey v).g_pCamera
        = (ViewManager.ProcessKeyboardEvents cam glfwGetKey
            { v with gDeltaTime := t - v.gLastFrame, gLastFrame := t }).g_pCamera) :=
  ⟨poseOverwrites_eq_orthoFrames cam lib tan frames v,
   orthoTransitions_le_poseOverwrites cam lib tan frames v,
   overwritten_eq_mode cam lib tan t glfwGetKey v,
   ortho_frame_pose cam lib tan t glfwGetKey v,
   perspective_frame_camera cam lib tan t glfwGetKey v⟩

/-- Instance of C14 amended: a frame with O pressed from the constructed state
ends with the front-view position, and a frame with no key pressed leaves the
constructed camera as it is. -/
theorem pose_overwrite_every_ortho_frame_witness :
    (ViewManager.PrepareSceneView
        (⟨⟨⟨0, 0, 0⟩, ⟨0, 0, 0⟩, ⟨0, 0, 0⟩, 0, ()⟩, fun c _ _ => { c with Position := ⟨7, 7, 7⟩ },
          fun c _ _ => c, fun c _ => c, fun _ => 1⟩ : CameraClass ℚ Unit)
        ⟨fun _ => 1, fun _ => 0, fun _ => 1, 3⟩ (fun _ => 1) 1
        (fun k => decide (k = Key.GLFW_KEY_O))
        (ViewManager.constructor
          (⟨⟨⟨0, 0, 0⟩, ⟨0, 0, 0⟩, ⟨0, 0, 0⟩, 0, ()⟩, fun c _ _ => { c with Position := ⟨7, 7, 7⟩ },
          fun c _ _ => c, fun c _ => c, fun _ => 1⟩ : CameraClass ℚ Unit) none)).g_pCamera.Position = ⟨0.0, 0.0, 10.0⟩ ∧
    (ViewManager.PrepareSceneView
        (⟨⟨⟨0, 0, 0⟩, ⟨0, 0, 0⟩, ⟨0, 0, 0⟩, 0, ()⟩, fun c _ _ => { c with Position := ⟨7, 7, 7⟩ },
          fun c _ _ => c, fun c _ => c, fun _ => 1⟩ : CameraClass ℚ Unit)
        ⟨fun _ => 1, fun _ => 0, fun _ => 1, 3⟩ (fun _ => 1) 1
        (fun _ => false)
        (ViewManager.constructor
          (⟨⟨⟨0, 0, 0⟩, ⟨0, 0, 0⟩, ⟨0, 0, 0⟩, 0, ()⟩, fun c _ _ => { c with Position := ⟨7, 7, 7⟩ },
          fun c _ _ => c, fun c _ => c, fun _ => 1⟩ : CameraClass ℚ Unit) none)).g_pCamera
      = (ViewManager.ProcessKeyboardEvents
        (⟨⟨⟨0, 0, 0⟩, ⟨0, 0, 0⟩, ⟨0, 0, 0⟩, 0, ()⟩, fun c _ _ => { c with Position := ⟨7, 7, 7⟩ },
          fun c _ _ => c, fun c _ => c, fun _ => 1⟩ : CameraClass ℚ Unit)
        (fun _ => false)
        { (ViewManager.constructor
          (⟨⟨⟨0, 0, 0⟩, ⟨0, 0, 0⟩, ⟨0, 0, 0⟩, 0, ()⟩, fun c _ _ => { c with Position := ⟨7, 7, 7⟩ },
          fun c _ _ => c, fun c _ => c, fun _ => 1⟩ : CameraClass ℚ Unit) none) with
          gDeltaTime := 1 - (ViewManager.constructor
          (⟨⟨⟨0, 0, 0⟩, ⟨0, 0, 0⟩, ⟨0, 0, 0⟩, 0, ()⟩, fun c _ _ => { c with Position := ⟨7, 7, 7⟩ },
          fun c _ _ => c, fun c _ => c, fun _ => 1⟩ : CameraClass ℚ Unit) none).gLastFrame
          gLastFrame := 1 }).g_pCamera :=
  ⟨((pose_overwrite_every_ortho_frame _ ⟨fun _ => 1, fun _ => 0, fun _ => 1, 3⟩ (fun _ => 1) _ [] 1
      (fun k => decide (k = Key.GLFW_KEY_O))).2.2.2.1 (by decide)).1,
   (pose_overwrite_every_ortho_frame _ ⟨fun _ => 1, fun _ => 0, fun _ => 1, 3⟩ (fun _ => 1) _ [] 1
      (fun _ => false)).2.2.2.2 (by decide)⟩

/-- C15. Whatever the prior camera pose and the movement keys, after a frame
computed in Orthographic mode the camera Position, Front and Up are (0,0,10),
(0,0,-1) and (0,1,0).  A following frame that selects Perspective (P pressed,
O not) with no movement key leaves the camera as it is: the three values stay,
and the pose held before Orthographic mode is not restored. -/
theorem ortho_pose_not_restored (cam : CameraClass F X) (lib : glm.MathLib F) (tan : F → F)
    (t t2 : F) (glfwGetKey glfwGetKey2 : Key → Bool) (v : ViewManager F X)
    (h : (ViewManager.PrepareSceneView cam lib tan t glfwGetKey v).bOrthographicProjection
      = true) :
    ((ViewManager.PrepareSceneView cam lib tan t glfwGetKey v).g_pCamera.Position
        = ⟨0.0, 0.0, 10.0⟩ ∧
      (ViewManager.PrepareSceneView cam lib tan t glfwGetKey v).g_pCamera.Front
        = ⟨0.0, 0.0, -1.0⟩ ∧
      (ViewManager.PrepareSceneView cam lib tan t glfwGetKey v).g_pCamera.Up
        = ⟨0.0, 1.0, 0.0⟩) ∧
    (glfwGetKey2 Key.GLFW_KEY_P = true → glfwGetKey2 Key.GLFW_KEY_O = false →
      glfwGetKey2 Key.GLFW_KEY_W = false → glfwGetKey2 Key.GLFW_KEY_S = false →
      glfwGetKey2 Key.GLFW_KEY_A = false → glfwGetKey2 Key.GLFW_KEY_D = false →
      glfwGetKey2 Key.GLFW_KEY_Q = false → glfwGetKey2 Key.GLFW_KEY_E = false →
      (ViewManager.PrepareSceneView cam lib tan t2 glfwGetKey2
        (ViewManager.PrepareSceneView cam lib tan t glfwGetKey v)).bOrthographicProjection
        = false ∧
      (ViewManager.PrepareSceneView cam lib tan t2 glfwGetKey2
        (ViewManager.PrepareSceneView cam lib tan t glfwGetKey v)).g_pCamera
        = (ViewManager.PrepareSceneView cam lib tan t glfwGetKey v).g_pCamera ∧
      (ViewManager.PrepareSceneView cam lib tan t2 glfwGetKey2
        (ViewManager.PrepareSceneView cam lib tan t glfwGetKey v)).g_pCamera.Position
        = ⟨0.0, 0.0, 10.0⟩ ∧
      (ViewManager.PrepareSceneView cam lib tan t2 glfwGetKey2
        (ViewManager.PrepareSceneView cam lib tan t glfwGetKey v)).g_pCamera.Front
        = ⟨0.0, 0.0, -1.0⟩ ∧
      (ViewManager.PrepareSceneView cam lib tan t2 glfwGetKey2
        (ViewManager.PrepareSceneView cam lib tan t glfwGetKey v)).g_pCamera.Up
        = ⟨0.0, 1.0, 0.0⟩) := by
  have hpose := ortho_frame_pose cam lib tan t glfwGetKey v h
  refine ⟨hpose, ?_⟩
  intro hP hO hW hS hA hD hQ hE
  have hmode : (ViewManager.PrepareSceneView cam lib tan t2 glfwGetKey2
      (ViewManager.PrepareSceneView cam lib tan t glfwGetKey v)).bOrthographicProjection
      = false := by
    rw [PrepareSceneView_mode]
    simp [hP, hO]
  have hcam : (ViewManager.PrepareSceneView cam lib tan t2 glfwGetKey2
      (ViewManager.PrepareSceneView cam lib tan t glfwGetKey v)).g_pCamera
      = (ViewManager.PrepareSceneView cam lib tan t glfwGetKey v).g_pCamera := by
    rw [perspective_frame_camera cam lib tan t2 glfwGetKey2 _ hmode,
      PKE_camera_idle cam glfwGetKey2 _ hW hS hA hD hQ hE]
  refine ⟨hmode, hcam, ?_, ?_, ?_⟩
  · rw [hcam]; exact hpose.1
  · rw [hcam]; exact hpose.2.1
  · rw [hcam]; exact hpose.2.2

/-- Instance of C15: from the constructed state with position (0,5,12), a
frame with O and W pressed and then a frame with only P pressed end in
Perspective mode with position (0,0,10). -/
theorem ortho_pose_not_restored_witness :
    (ViewManager.PrepareSceneView
        (⟨⟨⟨0, 0, 0⟩, ⟨0, 0, 0⟩, ⟨0, 0, 0⟩, 0, ()⟩, fun c _ _ => { c with Position := ⟨7, 7, 7⟩ },
          fun c _ _ => c, fun c _ => c, fun _ => 1⟩ : CameraClass ℚ Unit)
        ⟨fun _ => 1, fun _ => 0, fun _ => 1, 3⟩ (fun _ => 1) 1
        (fun k => decide (k = Key.GLFW_KEY_O ∨ k = Key.GLFW_KEY_W))
        (ViewManager.constructor
          (⟨⟨⟨0, 0, 0⟩, ⟨0, 0, 0⟩, ⟨0, 0, 0⟩, 0, ()⟩, fun c _ _ => { c with Position := ⟨7, 7, 7⟩ },
          fun c _ _ => c, fun c _ => c, fun _ => 1⟩ : CameraClass ℚ Unit) none)).bOrthographicProjection = true ∧
    (ViewManager.PrepareSceneView
        (⟨⟨⟨0, 0, 0⟩, ⟨0, 0, 0⟩, ⟨0, 0, 0⟩, 0, ()⟩, fun c _ _ => { c with Position := ⟨7, 7, 7⟩ },
          fun c _ _ => c, fun c _ => c, fun _ => 1⟩ : CameraClass ℚ Unit)
        ⟨fun _ => 1, fun _ => 0, fun _ => 1, 3⟩ (fun _ => 1) 2
        (fun k => decide (k = Key.GLFW_KEY_P))
        (ViewManager.PrepareSceneView
          (⟨⟨⟨0, 0, 0⟩, ⟨0, 0, 0⟩, ⟨0, 0, 0⟩, 0, ()⟩, fun c _ _ => { c with Position := ⟨7, 7, 7⟩ },
          fun c _ _ => c, fun c _ => c, fun _ => 1⟩ : CameraClass ℚ Unit)
          ⟨fun _ => 1, fun _ => 0, fun _ => 1, 3⟩ (fun _ => 1) 1
          (fun k => decide (k = Key.GLFW_KEY_O ∨ k = Key.GLFW_KEY_W))
          (ViewManager.constructor
          (⟨⟨⟨0, 0, 0⟩, ⟨0, 0, 0⟩, ⟨0, 0, 0⟩, 0, ()⟩, fun c _ _ => { c with Position := ⟨7, 7, 7⟩ },
          fun c _ _ => c, fun c _ => c, fun _ => 1⟩ : CameraClass ℚ Unit) none))).g_pCamera.Position = ⟨0.0, 0.0, 10.0⟩ :=
  have h0 : (ViewManager.PrepareSceneView
        (⟨⟨⟨0, 0, 0⟩, ⟨0, 0, 0⟩, ⟨0, 0, 0⟩, 0, ()⟩, fun c _ _ => { c with Position := ⟨7, 7, 7⟩ },
          fun c _ _ => c, fun c _ => c, fun _ => 1⟩ : CameraClass ℚ Unit)
        ⟨fun _ => 1, fun _ => 0, fun _ => 1, 3⟩ (fun _ => 1) 1
        (fun k => decide (k = Key.GLFW_KEY_O ∨ k = Key.GLFW_KEY_W))
        (ViewManager.constructor
          (⟨⟨⟨0, 0, 0⟩, ⟨0, 0, 0⟩, ⟨0, 0, 0⟩, 0, ()⟩, fun c _ _ => { c with Position := ⟨7, 7, 7⟩ },
          fun c _ _ => c, fun c _ => c, fun _ => 1⟩ : CameraClass ℚ Unit) none)).bOrthographicProjection = true := by decide
  ⟨h0, ((ortho_pose_not_restored _ ⟨fun _ => 1, fun _ => 0, fun _ => 1, 3⟩ (fun _ => 1) 1 2
      (fun k => decide (k = Key.GLFW_KEY_O ∨ k = Key.GLFW_KEY_W))
      (fun k => decide (k = Key.GLFW_KEY_P)) _ h0).2
      rfl rfl rfl rfl rfl rfl rfl rfl).2.2.1⟩

end PoseOverwrite

/-! ## Mouse movement -/

section Mouse

variable {F X : Type} [Field F]

/-- C16. The first `Mouse_Position_Callback` after construction (`gFirstMouse`
still true) passes the offsets (0, 0) to the camera, whatever the cursor
position `(x, y)`, and records `(x, y)` as the last position.  Every later
callback (`gFirstMouse` false, as every callback leaves it) passes
`(x - gLastX, gLastY - y)` and then records `(x, y)`. -/
theorem Mouse_Position_Callback_offsets (cam : CameraClass F X) (v : ViewManager F X)
    (sh : Option (ShaderManager F)) (x y x2 y2 : F) :
    (ViewManager.constructor cam sh).gFirstMouse = true ∧
    (v.gFirstMouse = true →
      (ViewManager.Mouse_Position_Callback cam v x y).g_pCamera
        = cam.ProcessMouseMovement v.g_pCamera 0 0 ∧
      (ViewManager.Mouse_Position_Callback cam v x y).gLastX = x ∧
      (ViewManager.Mouse_Position_Callback cam v x y).gLastY = y ∧
      (ViewManager.Mouse_Position_Callback cam v x y).gFirstMouse = false) ∧
    (v.gFirstMouse = false →
      (ViewManager.Mouse_Position_Callback cam v x y).g_pCamera
        = cam.ProcessMouseMovement v.g_pCamera (x - v.gLastX) (v.gLastY - y) ∧
      (ViewManager.Mouse_Position_Callback cam v x y).gLastX = x ∧
      (ViewManager.Mouse_Position_Callback cam v x y).gLastY = y ∧
      (ViewManager.Mouse_Position_Callback cam v x y).gFirstMouse = false) ∧
    (ViewManager.Mouse_Position_Callback cam (ViewManager.constructor cam sh) x y).g_pCamera
      = cam.ProcessMouseMovement (ViewManager.constructor cam sh).g_pCamera 0 0 ∧
    (ViewManager.Mouse_Position_Callback cam
        (ViewManager.Mouse_Position_Callback cam v x y) x2 y2).g_pCamera
      = cam.ProcessMouseMovement (ViewManager.Mouse_Position_Callback cam v x y).g_pCamera
          (x2 - x) (y - y2) := by
  have hfirst : ∀ w : ViewManager F X, w.gFirstMouse = true →
      (ViewManager.Mouse_Position_Callback cam w x y).g_pCamera
        = cam.ProcessMouseMovement w.g_pCamera 0 0 ∧
      (ViewManager.Mouse_Position_Callback cam w x y).gLastX = x ∧
      (ViewManager.Mouse_Position_Callback cam w x y).gLastY = y ∧
      (ViewManager.Mouse_Position_Callback cam w x y).gFirstMouse = false := by
    intro w hw
    unfold ViewManager.Mouse_Position_Callback
    simp [hw]
  have hlater : ∀ (w : ViewManager F X) (a b : F), w.gFirstMouse = false →
      (ViewManager.Mouse_Position_Callback cam w a b).g_pCamera
        = cam.ProcessMouseMovement w.g_pCamera (a - w.gLastX) (w.gLastY - b) ∧
      (ViewManager.Mouse_Position_Callback cam w a b).gLastX = a ∧
      (ViewManager.Mouse_Position_Callback cam w a b).gLastY = b ∧
      (ViewManager.Mouse_Position_Callback cam w a b).gFirstMouse = false := by
    intro w a b hw
    unfold ViewManager.Mouse_Position_Callback
    simp [hw]
  have hflag : (ViewManager.Mouse_Position_Callback cam v x y).gFirstMouse = false
      ∧ (ViewManager.Mouse_Position_Callback cam v x y).gLastX = x
      ∧ (ViewManager.Mouse_Position_Callback cam v x y).gLastY = y := by
    cases hv : v.gFirstMouse
    · exact ⟨(hlater v x y hv).2.2.2, (hlater v x y hv).2.1, (hlater v x y hv).2.2.1⟩
    · exact ⟨(hfirst v hv).2.2.2, (hfirst v hv).2.1, (hfirst v hv).2.2.1⟩
  refine ⟨rfl, hfirst v, hlater v x y, (hfirst _ rfl).1, ?_⟩
  have h2 := (hlater (ViewManager.Mouse_Position_Callback cam v x y) x2 y2 hflag.1).1
  rw [hflag.2.1, hflag.2.2] at h2
  exact h2

/-- Instance of C16: the first callback after construction at cursor position
(640, 360) passes (0, 0); a callback at (650, 350) on a state that last saw
(640, 360) passes (10, 10). -/
theorem Mouse_Position_Callback_offsets_witness :
    (ViewManager.Mouse_Position_Callback
        (⟨⟨⟨0, 0, 0⟩, ⟨0, 0, 0⟩, ⟨0, 0, 0⟩, 0, (0, 0)⟩, fun c _ _ => c,
          fun c dx dy => { c with other := (dx, dy) }, fun c _ => c, fun _ => 1⟩ :
          CameraClass ℚ (ℚ × ℚ))
        (ViewManager.constructor
          (⟨⟨⟨0, 0, 0⟩, ⟨0, 0, 0⟩, ⟨0, 0, 0⟩, 0, (0, 0)⟩, fun c _ _ => c,
            fun c dx dy => { c with other := (dx, dy) }, fun c _ => c, fun _ => 1⟩ :
            CameraClass ℚ (ℚ × ℚ)) none) 640 360).g_pCamera
      = (⟨⟨⟨0, 0, 0⟩, ⟨0, 0, 0⟩, ⟨0, 0, 0⟩, 0, (0, 0)⟩, fun c _ _ => c,
          fun c dx dy => { c with other := (dx, dy) }, fun c _ => c, fun _ => 1⟩ :
          CameraClass ℚ (ℚ × ℚ)).ProcessMouseMovement
        (ViewManager.constructor
          (⟨⟨⟨0, 0, 0⟩, ⟨0, 0, 0⟩, ⟨0, 0, 0⟩, 0, (0, 0)⟩, fun c _ _ => c,
            fun c dx dy => { c with other := (dx, dy) }, fun c _ => c, fun _ => 1⟩ :
            CameraClass ℚ (ℚ × ℚ)) none).g_pCamera 0 0 ∧
    (ViewManager.Mouse_Position_Callback
        (⟨⟨⟨0, 0, 0⟩, ⟨0, 0, 0⟩, ⟨0, 0, 0⟩, 0, (0, 0)⟩, fun c _ _ => c,
          fun c dx dy => { c with other := (dx, dy) }, fun c _ => c, fun _ => 1⟩ :
          CameraClass ℚ (ℚ × ℚ))
        (⟨none, false, ⟨⟨0, 0, 0⟩, ⟨0, 0, 0⟩, ⟨0, 0, 0⟩, 0, (0, 0)⟩, 640, 360, false, 0, 0,
          false⟩ : ViewManager ℚ (ℚ × ℚ)) 650 350).g_pCamera
      = (⟨⟨⟨0, 0, 0⟩, ⟨0, 0, 0⟩, ⟨0, 0, 0⟩, 0, (0, 0)⟩, fun c _ _ => c,
          fun c dx dy => { c with other := (dx, dy) }, fun c _ => c, fun _ => 1⟩ :
          CameraClass ℚ (ℚ × ℚ)).ProcessMouseMovement
        (⟨none, false, ⟨⟨0, 0, 0⟩, ⟨0, 0, 0⟩, ⟨0, 0, 0⟩, 0, (0, 0)⟩, 640, 360, false, 0, 0,
          false⟩ : ViewManager ℚ (ℚ × ℚ)).g_pCamera
        (650 - (⟨none, false, ⟨⟨0, 0, 0⟩, ⟨0, 0, 0⟩, ⟨0, 0, 0⟩, 0, (0, 0)⟩, 640, 360, false,
          0, 0, false⟩ : ViewManager ℚ (ℚ × ℚ)).gLastX)
        ((⟨none, false, ⟨⟨0, 0, 0⟩, ⟨0, 0, 0⟩, ⟨0, 0, 0⟩, 0, (0, 0)⟩, 640, 360, false,
          0, 0, false⟩ : ViewManager ℚ (ℚ × ℚ)).gLastY - 350) :=
  ⟨((Mouse_Position_Callback_offsets _ _ none 640 360 0 0).2.1 rfl).1,
   ((Mouse_Position_Callback_offsets _ _ none 650 350 0 0).2.2.1 rfl).1⟩

end Mouse

/-! ## View and projection matrices -/

section ShaderMember

variable {F X : Type}

theorem close_shader (pressed : Bool) (v : ViewManager F X) :
    (ViewManager.ProcessKeyboardEvents.close pressed v).m_pShaderManager
      = v.m_pShaderManager := by
  unfold ViewManager.ProcessKeyboardEvents.close
  split <;> rfl

theorem move_shader (cam : CameraClass F X) (pressed : Bool) (direction : Camera_Movement)
    (v : ViewManager F X) :
    (ViewManager.ProcessKeyboardEvents.move cam pressed direction v).m_pShaderManager
      = v.m_pShaderManager := by
  unfold ViewManager.ProcessKeyboardEvents.move
  split <;> rfl

theorem select_shader (pressed : Bool) (value : Bool) (v : ViewManager F X) :
    (ViewManager.ProcessKeyboardEvents.select pressed value v).m_pShaderManager
      = v.m_pShaderManager := by
  unfold ViewManager.ProcessKeyboardEvents.select
  split <;> rfl

theorem PKE_shader (cam : CameraClass F X) (glfwGetKey : Key → Bool) (v : ViewManager F X) :
    (ViewManager.ProcessKeyboardEvents cam glfwGetKey v).m_pShaderManager
      = v.m_pShaderManager := by
  unfold ViewManager.ProcessKeyboardEvents
  simp only [select_shader, move_shader, close_shader]

end ShaderMember

section FramePushes

variable {F X : Type} [Field F]

/-- With a shader attached, `PrepareSceneView` pushes `view`, `projection` and
`viewPosition`, in that order. -/
theorem PrepareSceneView_attached (cam : CameraClass F X) (lib : glm.MathLib F) (tan : F → F)
    (t : F) (glfwGetKey : Key → Bool) (v : ViewManager F X) (sh : ShaderManager F)
    (h : v.m_pShaderManager = some sh) :
    ViewManager.PrepareSceneView cam lib tan t glfwGetKey v
      = { (ViewManager.PrepareSceneView.compute cam lib tan t glfwGetKey v).state with
          m_pShaderManager := some ⟨sh.pushes ++
            [("view", UniformValue.ofMat4
                (ViewManager.PrepareSceneView.compute cam lib tan t glfwGetKey v).view),
             ("projection", UniformValue.ofMat4
                (ViewManager.PrepareSceneView.compute cam lib tan t glfwGetKey v).projection),
             ("viewPosition", UniformValue.ofVec3
                (ViewManager.PrepareSceneView.compute cam lib tan t glfwGetKey
                  v).state.g_pCamera.Position)]⟩ } := by
  have hs : (ViewManager.PrepareSceneView.compute cam lib tan t glfwGetKey
      v).state.m_pShaderManager = some sh := by
    rw [compute_state]
    split
    · show (ViewManager.ProcessKeyboardEvents cam glfwGetKey _).m_pShaderManager = _
      rw [PKE_shader]
      exact h
    · rw [PKE_shader]
      exact h
  unfold ViewManager.PrepareSceneView
  dsimp only
  generalize ViewManager.PrepareSceneView.compute cam lib tan t glfwGetKey v = fr at hs ⊢
  rcases fr with ⟨view, projection, ow, st⟩
  rcases st with ⟨s0, a, b, c, d, e, f, g, m⟩
  simp only at hs
  subst hs
  simp [ShaderManager.setMat4Value, ShaderManager.setVec3Value, g_ViewName, g_ProjectionName]

end FramePushes

section Matrices

variable {X : Type}

/-- C17. `PrepareSceneView` selects the matrices by the mode of the frame, here
over the real numbers.  In Perspective the projection is the perspective matrix
with vertical field of view the camera's `Zoom` in degrees, aspect ratio 1.25,
near 0.1 and far 100, and the view is the camera's view matrix.  In
Orthographic the projection is the orthographic matrix with left/right
-12.5/12.5, bottom/top -10/10, near 0.1 and far 100, and the view is the
look-at of eye (0,0,10), target (0,0,9), up (0,1,0), which is the translation
by (0,0,-10).  With a shader attached the two matrices are pushed as `view` and
`projection`, followed by `viewPosition`. -/
theorem PrepareSceneView_matrices (cam : CameraClass ℝ X) (t : ℝ) (glfwGetKey : Key → Bool)
    (v : ViewManager ℝ X) :
    (ViewManager.PrepareSceneView.compute cam
        ⟨Real.cos, Real.sin, fun x => 1 / Real.sqrt x, Real.pi⟩ Real.tan t glfwGetKey
        v).projection
      = (if (ViewManager.PrepareSceneView cam
            ⟨Real.cos, Real.sin, fun x => 1 / Real.sqrt x, Real.pi⟩ Real.tan t glfwGetKey
            v).bOrthographicProjection
        then glm.ortho (-12.5) 12.5 (-10) 10 0.1 100
        else glm.perspective Real.tan
          ((ViewManager.PrepareSceneView cam
            ⟨Real.cos, Real.sin, fun x => 1 / Real.sqrt x, Real.pi⟩ Real.tan t glfwGetKey
            v).g_pCamera.Zoom * (Real.pi / 180)) 1.25 0.1 100) ∧
    (ViewManager.PrepareSceneView.compute cam
        ⟨Real.cos, Real.sin, fun x => 1 / Real.sqrt x, Real.pi⟩ Real.tan t glfwGetKey v).view
      = (if (ViewManager.PrepareSceneView cam
            ⟨Real.cos, Real.sin, fun x => 1 / Real.sqrt x, Real.pi⟩ Real.tan t glfwGetKey
            v).bOrthographicProjection
        then glm.lookAt ⟨Real.cos, Real.sin, fun x => 1 / Real.sqrt x, Real.pi⟩
          ⟨0, 0, 10⟩ ⟨0, 0, 9⟩ ⟨0, 1, 0⟩
        else cam.GetViewMatrix (ViewManager.PrepareSceneView cam
            ⟨Real.cos, Real.sin, fun x => 1 / Real.sqrt x, Real.pi⟩ Real.tan t glfwGetKey
            v).g_pCamera) ∧
    glm.lookAt ⟨Real.cos, Real.sin, fun x => 1 / Real.sqrt x, Real.pi⟩
        ⟨0, 0, 10⟩ ⟨0, 0, 9⟩ ⟨0, 1, 0⟩
      = glm.translate ⟨0, 0, -10⟩ ∧
    (∀ sh : ShaderManager ℝ, v.m_pShaderManager = some sh →
      (ViewManager.PrepareSceneView cam
        ⟨Real.cos, Real.sin, fun x => 1 / Real.sqrt x, Real.pi⟩ Real.tan t glfwGetKey
        v).m_pShaderManager
      = some ⟨sh.pushes ++
          [("view", UniformValue.ofMat4 (ViewManager.PrepareSceneView.compute cam
              ⟨Real.cos, Real.sin, fun x => 1 / Real.sqrt x, Real.pi⟩ Real.tan t glfwGetKey
              v).view),
           ("projection", UniformValue.ofMat4 (ViewManager.PrepareSceneView.compute cam
              ⟨Real.cos, Real.sin, fun x => 1 / Real.sqrt x, Real.pi⟩ Real.tan t glfwGetKey
              v).projection),
           ("viewPosition", UniformValue.ofVec3 (ViewManager.PrepareSceneView cam
              ⟨Real.cos, Real.sin, fun x => 1 / Real.sqrt x, Real.pi⟩ Real.tan t glfwGetKey
              v).g_pCamera.Position)]⟩) := by
  have hmode := overwritten_eq_mode cam
    ⟨Real.cos, Real.sin, fun x => 1 / Real.sqrt x, Real.pi⟩ Real.tan t glfwGetKey v
  rw [compute_overwritten] at hmode
  have hcam := PrepareSceneView_camera cam
    ⟨Real.cos, Real.sin, fun x => 1 / Real.sqrt x, Real.pi⟩ Real.tan t glfwGetKey v
  rw [← hmode] at hcam
  rw [← hmode]
  have hlook : glm.lookAt ⟨Real.cos, Real.sin, fun x => 1 / Real.sqrt x, Real.pi⟩
      ⟨0, 0, 10⟩ ⟨0, 0, 9⟩ ⟨0, 1, 0⟩ = glm.translate ⟨0, 0, -10⟩ := by
    ext i j
    fin_cases i <;> fin_cases j <;>
      norm_num [glm.lookAt, glm.translate, glm.normalize, glm.cross, glm.dot, glm.vec3.sub,
        Matrix.vecHead, Matrix.vecTail]
  refine ⟨?_, ?_, hlook, ?_⟩
  · unfold ViewManager.PrepareSceneView.compute
    cases hm : (ViewManager.ProcessKeyboardEvents cam glfwGetKey
        { v with gDeltaTime := t - v.gLastFrame, gLastFrame := t }).bOrthographicProjection
    · rw [hm] at hcam
      simp only [hm, hcam, Bool.not_false, if_true, Bool.false_eq_true, if_false, glm.radians]
      norm_num [WINDOW_WIDTH, WINDOW_HEIGHT]
    · simp only [hm, Bool.not_true, Bool.false_eq_true, if_false, if_true]
      norm_num [WINDOW_WIDTH, WINDOW_HEIGHT]
  · unfold ViewManager.PrepareSceneView.compute
    cases hm : (ViewManager.ProcessKeyboardEvents cam glfwGetKey
        { v with gDeltaTime := t - v.gLastFrame, gLastFrame := t }).bOrthographicProjection
    · rw [hm] at hcam
      simp only [hm, hcam, Bool.not_false, if_true, Bool.false_eq_true, if_false]
    · simp only [hm, Bool.not_true, Bool.false_eq_true, if_false, if_true]
      norm_num [glm.vec3.add]
  · intro sh hsh
    rw [PrepareSceneView_attached cam _ Real.tan t glfwGetKey v sh hsh]

end Matrices

section MatricesInstance

/-- Instance of C17: a frame with no key pressed on a state with a shader that
has received no push yet. -/
theorem PrepareSceneView_matrices_witness :
    (ViewManager.PrepareSceneView
        (⟨⟨⟨0, 0, 0⟩, ⟨0, 0, 0⟩, ⟨0, 0, 0⟩, 45, ()⟩, fun c _ _ => c, fun c _ _ => c,
          fun c _ => c, fun _ => 1⟩ : CameraClass ℝ Unit)
        ⟨Real.cos, Real.sin, fun x => 1 / Real.sqrt x, Real.pi⟩ Real.tan 1 (fun _ => false)
        (⟨some ⟨[]⟩, false, ⟨⟨0, 5, 12⟩, ⟨0, 0, -1⟩, ⟨0, 1, 0⟩, 80, ()⟩, 500, 400, true, 0, 0,
          false⟩ : ViewManager ℝ Unit)).m_pShaderManager
      = some ⟨[] ++
          [("view", UniformValue.ofMat4 (ViewManager.PrepareSceneView.compute
              (⟨⟨⟨0, 0, 0⟩, ⟨0, 0, 0⟩, ⟨0, 0, 0⟩, 45, ()⟩, fun c _ _ => c, fun c _ _ => c,
          fun c _ => c, fun _ => 1⟩ : CameraClass ℝ Unit)
              ⟨Real.cos, Real.sin, fun x => 1 / Real.sqrt x, Real.pi⟩ Real.tan 1 (fun _ => false)
              (⟨some ⟨[]⟩, false, ⟨⟨0, 5, 12⟩, ⟨0, 0, -1⟩, ⟨0, 1, 0⟩, 80, ()⟩, 500, 400, true, 0, 0,
          false⟩ : ViewManager ℝ Unit)).view),
           ("projection", UniformValue.ofMat4 (ViewManager.PrepareSceneView.compute
              (⟨⟨⟨0, 0, 0⟩, ⟨0, 0, 0⟩, ⟨0, 0, 0⟩, 45, ()⟩, fun c _ _ => c, fun c _ _ => c,
          fun c _ => c, fun _ => 1⟩ : CameraClass ℝ Unit)
              ⟨Real.cos, Real.sin, fun x => 1 / Real.sqrt x, Real.pi⟩ Real.tan 1 (fun _ => false)
              (⟨some ⟨[]⟩, false, ⟨⟨0, 5, 12⟩, ⟨0, 0, -1⟩, ⟨0, 1, 0⟩, 80, ()⟩, 500, 400, true, 0, 0,
          false⟩ : ViewManager ℝ Unit)).projection),
           ("viewPosition", UniformValue.ofVec3 (ViewManager.PrepareSceneView
              (⟨⟨⟨0, 0, 0⟩, ⟨0, 0, 0⟩, ⟨0, 0, 0⟩, 45, ()⟩, fun c _ _ => c, fun c _ _ => c,
          fun c _ => c, fun _ => 1⟩ : CameraClass ℝ Unit)
              ⟨Real.cos, Real.sin, fun x => 1 / Real.sqrt x, Real.pi⟩ Real.tan 1 (fun _ => false)
              (⟨some ⟨[]⟩, false, ⟨⟨0, 5, 12⟩, ⟨0, 0, -1⟩, ⟨0, 1, 0⟩, 80, ()⟩, 500, 400, true, 0, 0,
          false⟩ : ViewManager ℝ Unit)).g_pCamera.Position)]⟩ :=
  (PrepareSceneView_matrices _ 1 (fun _ => false) _).2.2.2 ⟨[]⟩ rfl

end MatricesInstance

/-! ## Texture units -/

section TextureUnits

/-- C18, the code at a failing input.  Seventeen successful registrations on
an empty registry leave 17 loaded textures; the seventeenth tag is found in
slot 16, and `BindGLTextures` binds texture unit 16: nothing caps the slots at
0..15.  The seventeenth entry is written behind the 16-element array, and this
holds for every content `clobbered` that the write leaves in the other
members. -/
theorem texture_slots_exceed_limit (clobbered : SceneManager ℚ) :
    (List.foldl
        (fun (s : SceneManager ℚ) (p : Nat × String) =>
          (s.CreateGLTexture (fun _ => some ⟨64, 64, 3⟩) p.1 clobbered "image.jpg" p.2).2)
        ⟨none, [], []⟩
        [(1, "t0"), (2, "t1"), (3, "t2"), (4, "t3"), (5, "t4"), (6, "t5"), (7, "t6"),
         (8, "t7"), (9, "t8"), (10, "t9"), (11, "t10"), (12, "t11"), (13, "t12"),
         (14, "t13"), (15, "t14"), (16, "t15"), (17, "t16")]).m_loadedTextures = 17 ∧
    (List.foldl
        (fun (s : SceneManager ℚ) (p : Nat × String) =>
          (s.CreateGLTexture (fun _ => some ⟨64, 64, 3⟩) p.1 clobbered "image.jpg" p.2).2)
        ⟨none, [], []⟩
        [(1, "t0"), (2, "t1"), (3, "t2"), (4, "t3"), (5, "t4"), (6, "t5"), (7, "t6"),
         (8, "t7"), (9, "t8"), (10, "t9"), (11, "t10"), (12, "t11"), (13, "t12"),
         (14, "t13"), (15, "t14"), (16, "t15"), (17, "t16")]).FindTextureSlot "t16" = 16 ∧
    (16, 17) ∈ (List.foldl
        (fun (s : SceneManager ℚ) (p : Nat × String) =>
          (s.CreateGLTexture (fun _ => some ⟨64, 64, 3⟩) p.1 clobbered "image.jpg" p.2).2)
        ⟨none, [], []⟩
        [(1, "t0"), (2, "t1"), (3, "t2"), (4, "t3"), (5, "t4"), (6, "t5"), (7, "t6"),
         (8, "t7"), (9, "t8"), (10, "t9"), (11, "t10"), (12, "t11"), (13, "t12"),
         (14, "t13"), (15, "t14"), (16, "t15"), (17, "t16")]).BindGLTextures ∧
    ¬ ((List.foldl
        (fun (s : SceneManager ℚ) (p : Nat × String) =>
          (s.CreateGLTexture (fun _ => some ⟨64, 64, 3⟩) p.1 clobbered "image.jpg" p.2).2)
        ⟨none, [], []⟩
        [(1, "t0"), (2, "t1"), (3, "t2"), (4, "t3"), (5, "t4"), (6, "t5"), (7, "t6"),
         (8, "t7"), (9, "t8"), (10, "t9"), (11, "t10"), (12, "t11"), (13, "t12"),
         (14, "t13"), (15, "t14"), (16, "t15"), (17, "t16")]).FindTextureSlot "t16" ≤ 15) := by
  have hlist : (List.foldl
        (fun (s : SceneManager ℚ) (p : Nat × String) =>
          (s.CreateGLTexture (fun _ => some ⟨64, 64, 3⟩) p.1 clobbered "image.jpg" p.2).2)
        ⟨none, [], []⟩
        [(1, "t0"), (2, "t1"), (3, "t2"), (4, "t3"), (5, "t4"), (6, "t5"), (7, "t6"),
         (8, "t7"), (9, "t8"), (10, "t9"), (11, "t10"), (12, "t11"), (13, "t12"),
         (14, "t13"), (15, "t14"), (16, "t15"), (17, "t16")]).m_textureIDs
      = [⟨1, "t0"⟩, ⟨2, "t1"⟩, ⟨3, "t2"⟩, ⟨4, "t3"⟩, ⟨5, "t4"⟩, ⟨6, "t5"⟩, ⟨7, "t6"⟩,
         ⟨8, "t7"⟩, ⟨9, "t8"⟩, ⟨10, "t9"⟩, ⟨11, "t10"⟩, ⟨12, "t11"⟩, ⟨13, "t12"⟩,
         ⟨14, "t13"⟩, ⟨15, "t14"⟩, ⟨16, "t15"⟩, ⟨17, "t16"⟩] := by
    simp [SceneManager.CreateGLTexture, SceneManager.CreateGLTexture.register,
      SceneManager.textureCapacity]
  unfold SceneManager.m_loadedTextures SceneManager.FindTextureSlot SceneManager.BindGLTextures
  rw [hlist]
  refine ⟨by decide, by decide, by decide, by decide⟩

end TextureUnits

/-! ## Scene materials and lights -/

section MaterialsLights

/-- C19, the code at a failing input.  `DefineObjectMaterials` registers the
seven materials in the order book, desk, cup, notebook, metal, mechpencil,
eraser.  The material `metal` keeps the ambient colour and ambient strength
that its uninitialised local started with: when that strength is 2, the
registered material has ambient strength 2, outside [0,1].  The other six
materials have ambient strength in [0,1], and all seven have shininess at
least 0. -/
theorem DefineObjectMaterials_metal (indeterminate : OBJECT_MATERIAL ℚ) :
    ((SceneManager.DefineObjectMaterials ⟨none, [], []⟩ indeterminate).m_objectMaterials.map
      OBJECT_MATERIAL.tag)
      = ["book", "desk", "cup", "notebook", "metal", "mechpencil", "eraser"] ∧
    (∃ m : OBJECT_MATERIAL ℚ,
      (SceneManager.DefineObjectMaterials ⟨none, [], []⟩ indeterminate).m_objectMaterials[4]?
        = some m ∧ m.tag = "metal" ∧
      m.ambientColor = indeterminate.ambientColor ∧
      m.ambientStrength = indeterminate.ambientStrength) ∧
    (∃ m : OBJECT_MATERIAL ℚ,
      (SceneManager.DefineObjectMaterials (⟨none, [], []⟩ : SceneManager ℚ)
        ⟨⟨0, 0, 0⟩, 2, ⟨0, 0, 0⟩, ⟨0, 0, 0⟩, 0, ""⟩).m_objectMaterials[4]? = some m ∧
      m.tag = "metal" ∧ m.ambientStrength = 2 ∧
      ¬ (0 ≤ m.ambientStrength ∧ m.ambientStrength ≤ 1)) ∧
    (∀ m ∈ (SceneManager.DefineObjectMaterials ⟨none, [], []⟩ indeterminate).m_objectMaterials,
      m.tag ≠ "metal" →
        0 ≤ m.ambientStrength ∧ m.ambientStrength ≤ 1 ∧ 0 ≤ m.shininess) ∧
    (∀ m ∈ (SceneManager.DefineObjectMaterials ⟨none, [], []⟩ indeterminate).m_objectMaterials,
      0 ≤ m.shininess) := by
  refine ⟨rfl, ⟨_, rfl, rfl, rfl, rfl⟩, ⟨_, rfl, rfl, rfl, ?_⟩, ?_, ?_⟩
  · intro h
    have h2 : (2 : ℚ) ≤ 1 := h.2
    norm_num at h2
  · intro m hm hne
    simp only [SceneManager.DefineObjectMaterials, List.nil_append, List.cons_append,
      List.mem_cons, List.mem_singleton, List.not_mem_nil, or_false] at hm
    rcases hm with rfl | rfl | rfl | rfl | rfl | rfl | rfl
    all_goals first
      | exact absurd rfl hne
      | (refine ⟨?_, ?_, ?_⟩ <;> norm_num)
  · intro m hm
    simp only [SceneManager.DefineObjectMaterials, List.nil_append, List.cons_append,
      List.mem_cons, List.mem_singleton, List.not_mem_nil, or_false] at hm
    rcases hm with rfl | rfl | rfl | rfl | rfl | rfl | rfl
    all_goals norm_num

end MaterialsLights

/-! ## Light slots -/

section LaterPushes

variable {F : Type}

/-- The value a uniform holds after further pushes, when it is among them. -/
theorem current_append_found (p q : List (String × UniformValue F)) (name : String)
    (x : UniformValue F) (h : (⟨q⟩ : ShaderManager F).current name = some x) :
    (⟨p ++ q⟩ : ShaderManager F).current name = some x := by
  unfold ShaderManager.current at h ⊢
  simp only [List.reverse_append, List.find?_append]
  cases hq : List.find? (fun p => p.1 == name) q.reverse with
  | none => simp [hq] at h
  | some y =>
    rw [hq] at h
    simpa using h

end LaterPushes

section Lights

variable {F : Type} [Field F]

/-- C20. With a shader attached, `SetupSceneLights` pushes the active flag of
the directional light and of each point-light slot 0 to 3: true for
`directionalLight`, `pointLights[0]` and `pointLights[1]`, false for
`pointLights[2]` and `pointLights[3]`.  These are the values the five flags
hold afterwards, whatever was pushed before, and the registries are
unchanged. -/
theorem SetupSceneLights_flags (s : SceneManager F) (sh : ShaderManager F)
    (h : s.m_pShaderManager = some sh) :
    s.SetupSceneLights = some { s with
      m_pShaderManager := some ⟨sh.pushes ++ SceneManager.SetupSceneLights.pushes⟩ } ∧
    (("directionalLight.bActive", UniformValue.ofBool true)
        ∈ (SceneManager.SetupSceneLights.pushes : List (String × UniformValue F)) ∧
      ("pointLights[0].bActive", UniformValue.ofBool true)
        ∈ (SceneManager.SetupSceneLights.pushes : List (String × UniformValue F)) ∧
      ("pointLights[1].bActive", UniformValue.ofBool true)
        ∈ (SceneManager.SetupSceneLights.pushes : List (String × UniformValue F)) ∧
      ("pointLights[2].bActive", UniformValue.ofBool false)
        ∈ (SceneManager.SetupSceneLights.pushes : List (String × UniformValue F)) ∧
      ("pointLights[3].bActive", UniformValue.ofBool false)
        ∈ (SceneManager.SetupSceneLights.pushes : List (String × UniformValue F))) ∧
    (∃ (s2 : SceneManager F) (sh2 : ShaderManager F),
      s.SetupSceneLights = some s2 ∧ s2.m_pShaderManager = some sh2 ∧
      sh2.current "directionalLight.bActive" = some (UniformValue.ofBool true) ∧
      sh2.current "pointLights[0].bActive" = some (UniformValue.ofBool true) ∧
      sh2.current "pointLights[1].bActive" = some (UniformValue.ofBool true) ∧
      sh2.current "pointLights[2].bActive" = some (UniformValue.ofBool false) ∧
      sh2.current "pointLights[3].bActive" = some (UniformValue.ofBool false) ∧
      s2.m_textureIDs = s.m_textureIDs ∧ s2.m_objectMaterials = s.m_objectMaterials) := by
  have hrun : s.SetupSceneLights = some { s with
      m_pShaderManager := some ⟨sh.pushes ++ SceneManager.SetupSceneLights.pushes⟩ } := by
    unfold SceneManager.SetupSceneLights
    rw [h]
  refine ⟨hrun, ?_, ?_⟩
  · refine ⟨?_, ?_, ?_, ?_, ?_⟩ <;> simp [SceneManager.SetupSceneLights.pushes]
  · refine ⟨_, _, hrun, rfl, ?_, ?_, ?_, ?_, ?_, rfl, rfl⟩ <;>
      exact current_append_found _ _ _ _ rfl

/-- Instance of C20: a shader whose log already has `pointLights[2].bActive`
pushed as true holds it as false after `SetupSceneLights`. -/
theorem SetupSceneLights_flags_witness :
    ∃ (s2 : SceneManager ℚ) (sh2 : ShaderManager ℚ),
      (⟨some ⟨[("pointLights[2].bActive", UniformValue.ofBool true)]⟩, [], []⟩ :
        SceneManager ℚ).SetupSceneLights = some s2 ∧
      s2.m_pShaderManager = some sh2 ∧
      sh2.current "pointLights[2].bActive" = some (UniformValue.ofBool false) := by
  obtain ⟨s2, sh2, h1, h2, -, -, -, h3, -⟩ := (SetupSceneLights_flags
    (⟨some ⟨[("pointLights[2].bActive", UniformValue.ofBool true)]⟩, [], []⟩ : SceneManager ℚ)
    ⟨[("pointLights[2].bActive", UniformValue.ofBool true)]⟩ rfl).2.2
  exact ⟨s2, sh2, h1, h2, h3⟩

end Lights

section SceneTraversalInstance

/-- Instance of C12: with a shader attached and no texture or material
registered, every call of `RenderScene` is carried out. -/
theorem RenderScene_groups_witness :
    ∃ s2 : SceneManager ℚ,
      SceneCall.runAll ⟨fun _ => 1, fun _ => 0, fun _ => 1, 3⟩
        ⟨⟨1, 2, 3⟩, 4, ⟨5, 6, 7⟩, ⟨8, 9, 10⟩, 11, "local"⟩
        (⟨some ⟨[]⟩, [], []⟩ : SceneManager ℚ) SceneManager.RenderScene = some s2 :=
  (RenderScene_groups ⟨fun _ => 1, fun _ => 0, fun _ => 1, 3⟩
    ⟨⟨1, 2, 3⟩, 4, ⟨5, 6, 7⟩, ⟨8, 9, 10⟩, 11, "local"⟩
    (⟨some ⟨[]⟩, [], []⟩ : SceneManager ℚ)).2.2.2.2.2.2.2.2.2 ⟨[]⟩ rfl

end SceneTraversalInstance

/-! ## Textures used by the scene -/

section TagLemmas

variable {F : Type}

theorem FindTextureSlot_congr (s t : SceneManager F) (tag : String)
    (h : t.m_textureIDs = s.m_textureIDs) : t.FindTextureSlot tag = s.FindTextureSlot tag := by
  unfold SceneManager.FindTextureSlot
  rw [h]

theorem textureTag_eq_some (c : SceneCall F) (tag : String)
    (h : SceneCall.textureTag c = some tag) :
    c = SceneCall.dispatch (DispatcherCall.SetShaderTexture tag) := by
  cases c with
  | dispatch d =>
    cases d <;> simp [SceneCall.textureTag] at h
    subst h
    rfl
  | SetShaderMaterial materialTag => simp [SceneCall.textureTag] at h
  | draw m => simp [SceneCall.textureTag] at h

end TagLemmas

section SceneTextures

variable {F : Type} [Field F]

/-- One call of the traversal with a shader attached: it is carried out, the
shader stays attached, both registries are unchanged, and the log of pushes is
extended; a `SetShaderTexture` call appends the push of the slot it finds. -/
theorem SceneCall_run_log (lib : glm.MathLib F) (indeterminate : OBJECT_MATERIAL F)
    (s : SceneManager F) (sh : ShaderManager F) (c : SceneCall F)
    (h : s.m_pShaderManager = some sh) :
    ∃ (s1 : SceneManager F) (extra : List (String × UniformValue F)),
      SceneCall.run lib indeterminate s c = some s1 ∧
      s1.m_pShaderManager = some ⟨sh.pushes ++ extra⟩ ∧
      s1.m_textureIDs = s.m_textureIDs ∧ s1.m_objectMaterials = s.m_objectMaterials ∧
      ∀ tag : String, c = SceneCall.dispatch (DispatcherCall.SetShaderTexture tag) →
        ("objectTexture", UniformValue.ofSampler2D (s.FindTextureSlot tag)) ∈ extra := by
  cases c with
  | dispatch d =>
    cases d with
    | SetTransformations scaleXYZ rx ry rz positionXYZ =>
      refine ⟨_, [("model", UniformValue.ofMat4
        (SceneManager.SetTransformations.modelView lib scaleXYZ rx ry rz positionXYZ))],
        rfl, ?_, ?_, ?_, ?_⟩
      · simp only [SceneCall.run, DispatcherCall.run, SceneManager.SetTransformations]
        rw [h]
        rfl
      · simp only [SceneCall.run, DispatcherCall.run, SceneManager.SetTransformations]
        rw [h]
      · simp only [SceneCall.run, DispatcherCall.run, SceneManager.SetTransformations]
        rw [h]
      · intro tag hc
        simp at hc
    | SetShaderColor r g b a =>
      refine ⟨_, [("bUseTexture", UniformValue.ofInt 0),
        ("objectColor", UniformValue.ofVec4 ⟨r, g, b, a⟩)], rfl, ?_, ?_, ?_, ?_⟩
      · simp only [SceneCall.run, DispatcherCall.run]
        rw [SetShaderColor_eq s sh r g b a h]
        simp
      · simp only [SceneCall.run, DispatcherCall.run]
        rw [SetShaderColor_eq s sh r g b a h]
      · simp only [SceneCall.run, DispatcherCall.run]
        rw [SetShaderColor_eq s sh r g b a h]
      · intro tag hc
        simp at hc
    | SetShaderTexture textureTag =>
      refine ⟨_, [("bUseTexture", UniformValue.ofInt 1),
        ("objectTexture", UniformValue.ofSampler2D (s.FindTextureSlot textureTag))],
        rfl, ?_, ?_, ?_, ?_⟩
      · simp only [SceneCall.run, DispatcherCall.run]
        rw [SetShaderTexture_eq s sh textureTag h]
        simp
      · simp only [SceneCall.run, DispatcherCall.run]
        rw [SetShaderTexture_eq s sh textureTag h]
      · simp only [SceneCall.run, DispatcherCall.run]
        rw [SetShaderTexture_eq s sh textureTag h]
      · intro tag hc
        have : textureTag = tag := by
          simpa using hc
        subst this
        simp
    | SetTextureUVScale u v =>
      refine ⟨_, [("UVscale", UniformValue.ofVec2 ⟨u, v⟩)], rfl, ?_, ?_, ?_, ?_⟩
      · simp only [SceneCall.run, DispatcherCall.run, SceneManager.SetTextureUVScale]
        rw [h]
        rfl
      · simp only [SceneCall.run, DispatcherCall.run, SceneManager.SetTextureUVScale]
        rw [h]
      · simp only [SceneCall.run, DispatcherCall.run, SceneManager.SetTextureUVScale]
        rw [h]
      · intro tag hc
        simp at hc
  | SetShaderMaterial materialTag =>
    by_cases hne : s.m_objectMaterials = []
    · refine ⟨s, [], SetShaderMaterial_empty s materialTag indeterminate hne, ?_, rfl, rfl, ?_⟩
      · rw [h]; simp
      · intro tag hc
        simp at hc
    · refine ⟨_, _, SetShaderMaterial_attached s sh materialTag indeterminate hne h,
        rfl, rfl, rfl, ?_⟩
      intro tag hc
      simp at hc
  | draw m =>
    refine ⟨s, [], rfl, ?_, rfl, rfl, ?_⟩
    · rw [h]; simp
    · intro tag hc
      simp at hc

/-- A run of calls with a shader attached: every call is carried out, the
registries are unchanged, and the log holds, for each `SetShaderTexture(tag)`
of the run, the push of the slot found for `tag`. -/
theorem SceneCall_runAll_log (lib : glm.MathLib F) (indeterminate : OBJECT_MATERIAL F)
    (cs : List (SceneCall F)) :
    ∀ (s : SceneManager F) (sh : ShaderManager F), s.m_pShaderManager = some sh →
      ∃ (s2 : SceneManager F) (extra : List (String × UniformValue F)),
        SceneCall.runAll lib indeterminate s cs = some s2 ∧
        s2.m_pShaderManager = some ⟨sh.pushes ++ extra⟩ ∧
        s2.m_textureIDs = s.m_textureIDs ∧ s2.m_objectMaterials = s.m_objectMaterials ∧
        ∀ tag : String, SceneCall.dispatch (DispatcherCall.SetShaderTexture tag) ∈ cs →
          ("objectTexture", UniformValue.ofSampler2D (s.FindTextureSlot tag)) ∈ extra := by
  induction cs with
  | nil =>
    intro s sh h
    refine ⟨s, [], rfl, ?_, rfl, rfl, ?_⟩
    · rw [h]; simp
    · intro tag hc
      simp at hc
  | cons c cs ih =>
    intro s sh h
    obtain ⟨s1, e1, hrun, hsh1, htex1, hmat1, hpush1⟩ :=
      SceneCall_run_log lib indeterminate s sh c h
    obtain ⟨s2, e2, hrun2, hsh2, htex2, hmat2, hpush2⟩ := ih s1 ⟨sh.pushes ++ e1⟩ hsh1
    refine ⟨s2, e1 ++ e2, ?_, ?_, htex2.trans htex1, hmat2.trans hmat1, ?_⟩
    · rw [SceneCall.runAll, hrun]
      exact hrun2
    · rw [hsh2, List.append_assoc]
    · intro tag hc
      rcases List.mem_cons.mp hc with hc | hc
      · exact List.mem_append_left _ (hpush1 tag hc.symm)
      · have hp := hpush2 tag hc
        rw [FindTextureSlot_congr s s1 tag htex1] at hp
        exact List.mem_append_right _ hp

end SceneTextures

section SceneTexturesInstance

/-- C21, the code at a failing input.  All eleven `CreateGLTexture` calls of
`LoadSceneTextures` succeed, from an empty registry.  The tags passed to
`SetShaderTexture` during `RenderScene` include `notebook` (right cover of the
notebook), which is none of the eleven registered tags: it resolves to -1, and
the run of `RenderScene` pushes `objectTexture` as -1.  Every other tag of the
scene resolves to a slot in 0..10. -/
theorem RenderScene_notebook_texture :
    ((SceneManager.LoadSceneTextures (fun _ => some ⟨64, 64, 3⟩) (fun k => k + 1)
        (fun _ => ⟨none, [], []⟩)
        (SceneManager.DefineObjectMaterials (⟨some ⟨[]⟩, [], []⟩ : SceneManager ℚ)
          ⟨⟨0, 0, 0⟩, 0, ⟨0, 0, 0⟩, ⟨0, 0, 0⟩, 0, ""⟩)).1.m_textureIDs.map TEXTURE_INFO.tag
      = ["desk", "cup", "cup_rim", "french", "paper", "metal", "body", "point", "eraser",
         "clip", "pink_eraser"]) ∧
    (SceneManager.RenderScene : List (SceneCall ℚ)).filterMap SceneCall.textureTag
      = ["desk", "cup", "cup", "cup_rim", "french", "paper", "notebook", "metal", "metal",
         "metal", "metal", "metal", "metal", "metal", "metal", "body", "point", "body",
         "eraser", "clip", "pink_eraser", "pink_eraser", "pink_eraser"] ∧
    (SceneManager.LoadSceneTextures (fun _ => some ⟨64, 64, 3⟩) (fun k => k + 1)
        (fun _ => ⟨none, [], []⟩)
        (SceneManager.DefineObjectMaterials (⟨some ⟨[]⟩, [], []⟩ : SceneManager ℚ)
          ⟨⟨0, 0, 0⟩, 0, ⟨0, 0, 0⟩, ⟨0, 0, 0⟩, 0, ""⟩)).1.FindTextureSlot "notebook" = -1 ∧
    (∀ t ∈ (SceneManager.RenderScene : List (SceneCall ℚ)).filterMap SceneCall.textureTag,
      t ≠ "notebook" →
        0 ≤ (SceneManager.LoadSceneTextures (fun _ => some ⟨64, 64, 3⟩) (fun k => k + 1)
        (fun _ => ⟨none, [], []⟩)
        (SceneManager.DefineObjectMaterials (⟨some ⟨[]⟩, [], []⟩ : SceneManager ℚ)
          ⟨⟨0, 0, 0⟩, 0, ⟨0, 0, 0⟩, ⟨0, 0, 0⟩, 0, ""⟩)).1.FindTextureSlot t ∧
        (SceneManager.LoadSceneTextures (fun _ => some ⟨64, 64, 3⟩) (fun k => k + 1)
        (fun _ => ⟨none, [], []⟩)
        (SceneManager.DefineObjectMaterials (⟨some ⟨[]⟩, [], []⟩ : SceneManager ℚ)
          ⟨⟨0, 0, 0⟩, 0, ⟨0, 0, 0⟩, ⟨0, 0, 0⟩, 0, ""⟩)).1.FindTextureSlot t ≤ 10) ∧
    (∃ (s2 : SceneManager ℚ) (sh2 : ShaderManager ℚ),
      SceneCall.runAll ⟨fun _ => 1, fun _ => 0, fun _ => 1, 3⟩
        ⟨⟨1, 2, 3⟩, 4, ⟨5, 6, 7⟩, ⟨8, 9, 10⟩, 11, "local"⟩
        (SceneManager.LoadSceneTextures (fun _ => some ⟨64, 64, 3⟩) (fun k => k + 1)
        (fun _ => ⟨none, [], []⟩)
        (SceneManager.DefineObjectMaterials (⟨some ⟨[]⟩, [], []⟩ : SceneManager ℚ)
          ⟨⟨0, 0, 0⟩, 0, ⟨0, 0, 0⟩, ⟨0, 0, 0⟩, 0, ""⟩)).1 SceneManager.RenderScene = some s2 ∧
      s2.m_pShaderManager = some sh2 ∧
      ("objectTexture", UniformValue.ofSampler2D (-1)) ∈ sh2.pushes) := by
  have htags : (SceneManager.RenderScene : List (SceneCall ℚ)).filterMap SceneCall.textureTag
      = ["desk", "cup", "cup", "cup_rim", "french", "paper", "notebook", "metal", "metal",
         "metal", "metal", "metal", "metal", "metal", "metal", "body", "point", "body",
         "eraser", "clip", "pink_eraser", "pink_eraser", "pink_eraser"] := rfl
  have hslot : (SceneManager.LoadSceneTextures (fun _ => some ⟨64, 64, 3⟩) (fun k => k + 1)
        (fun _ => ⟨none, [], []⟩)
        (SceneManager.DefineObjectMaterials (⟨some ⟨[]⟩, [], []⟩ : SceneManager ℚ)
          ⟨⟨0, 0, 0⟩, 0, ⟨0, 0, 0⟩, ⟨0, 0, 0⟩, 0, ""⟩)).1.FindTextureSlot "notebook" = -1 := by decide
  refine ⟨rfl, htags, hslot, ?_, ?_⟩
  · rw [htags]
    decide
  · have hmem : "notebook" ∈ (SceneManager.RenderScene : List (SceneCall ℚ)).filterMap
        SceneCall.textureTag := by
      rw [htags]
      decide
    obtain ⟨c, hc, htag⟩ := List.mem_filterMap.mp hmem
    rw [textureTag_eq_some c "notebook" htag] at hc
    obtain ⟨s2, extra, hrun, hsh, -, -, hpush⟩ := SceneCall_runAll_log
      ⟨fun _ => 1, fun _ => 0, fun _ => 1, 3⟩
      ⟨⟨1, 2, 3⟩, 4, ⟨5, 6, 7⟩, ⟨8, 9, 10⟩, 11, "local"⟩
      (SceneManager.RenderScene : List (SceneCall ℚ))
      (SceneManager.LoadSceneTextures (fun _ => some ⟨64, 64, 3⟩) (fun k => k + 1)
        (fun _ => ⟨none, [], []⟩)
        (SceneManager.DefineObjectMaterials (⟨some ⟨[]⟩, [], []⟩ : SceneManager ℚ)
          ⟨⟨0, 0, 0⟩, 0, ⟨0, 0, 0⟩, ⟨0, 0, 0⟩, 0, ""⟩)).1 ⟨[]⟩
      (by simp [SceneManager.LoadSceneTextures, SceneManager.CreateGLTexture,
        SceneManager.CreateGLTexture.register, SceneManager.textureCapacity,
        SceneManager.DefineObjectMaterials])
    refine ⟨s2, _, hrun, hsh, ?_⟩
    have hp := hpush "notebook" hc
    rw [hslot] at hp
    exact List.mem_append_right _ hp

end SceneTexturesInstance

/-! ## Materials used by the scene -/

section SceneMaterials

variable {F : Type}

/-- The material push at the first registered material carrying the tag. -/
theorem SetShaderMaterial_first (s : SceneManager F) (sh : ShaderManager F) (tag : String)
    (indeterminate : OBJECT_MATERIAL F) (pre : List (OBJECT_MATERIAL F))
    (m : OBJECT_MATERIAL F) (post : List (OBJECT_MATERIAL F))
    (hl : s.m_objectMaterials = pre ++ m :: post) (hpre : ∀ x ∈ pre, x.tag ≠ tag)
    (hm : m.tag = tag) (hsh : s.m_pShaderManager = some sh) :
    s.SetShaderMaterial tag indeterminate
      = some { s with m_pShaderManager := some ⟨sh.pushes ++
          [("material.ambientColor", UniformValue.ofVec3 m.ambientColor),
           ("material.ambientStrength", UniformValue.ofFloat m.ambientStrength),
           ("material.diffuseColor", UniformValue.ofVec3 m.diffuseColor),
           ("material.specularColor", UniformValue.ofVec3 m.specularColor),
           ("material.shininess", UniformValue.ofFloat m.shininess)]⟩ } := by
  have hne : s.m_objectMaterials ≠ [] := by
    rw [hl]; simp
  have hloop := FindMaterial_loop_hit tag pre m post 0 indeterminate hpre hm
  rw [← hl] at hloop
  rw [SetShaderMaterial_attached s sh tag indeterminate hne hsh, hloop]

end SceneMaterials

section SceneMaterialsUsed

variable {F : Type} [Field F]

/-- C22. After `DefineObjectMaterials` on an empty material list, the seven
registered tags are book, desk, cup, notebook, metal, mechpencil, eraser,
pairwise distinct, and every tag passed to `SetShaderMaterial` during
`RenderScene` is one of them.  Hence, with a shader attached, each such call
pushes the five fields of the one registered material carrying its tag,
whatever the local material started with. -/
theorem RenderScene_materials_registered (s : SceneManager F)
    (indeterminate : OBJECT_MATERIAL F) (h0 : s.m_objectMaterials = []) :
    (s.DefineObjectMaterials indeterminate).m_objectMaterials.map OBJECT_MATERIAL.tag
      = ["book", "desk", "cup", "notebook", "metal", "mechpencil", "eraser"] ∧
    ((s.DefineObjectMaterials indeterminate).m_objectMaterials.map OBJECT_MATERIAL.tag).Nodup ∧
    (SceneManager.RenderScene : List (SceneCall F)).filterMap SceneCall.materialTag
      = ["desk", "cup", "cup", "cup", "book", "notebook", "notebook", "metal", "metal",
         "metal", "metal", "metal", "metal", "metal", "metal", "mechpencil", "mechpencil",
         "mechpencil", "eraser", "mechpencil", "eraser", "eraser", "eraser"] ∧
    (∀ t ∈ (SceneManager.RenderScene : List (SceneCall F)).filterMap SceneCall.materialTag,
      ∃ (i : Nat) (m : OBJECT_MATERIAL F),
        (s.DefineObjectMaterials indeterminate).m_objectMaterials[i]? = some m ∧ m.tag = t ∧
        (∀ (j : Nat) (x : OBJECT_MATERIAL F),
          (s.DefineObjectMaterials indeterminate).m_objectMaterials[j]? = some x →
          x.tag = t → j = i) ∧
        ∀ (s1 : SceneManager F) (sh : ShaderManager F) (local0 : OBJECT_MATERIAL F),
          s1.m_objectMaterials = (s.DefineObjectMaterials indeterminate).m_objectMaterials →
          s1.m_pShaderManager = some sh →
          s1.SetShaderMaterial t local0
            = some { s1 with m_pShaderManager := some ⟨sh.pushes ++
                [("material.ambientColor", UniformValue.ofVec3 m.ambientColor),
                 ("material.ambientStrength", UniformValue.ofFloat m.ambientStrength),
                 ("material.diffuseColor", UniformValue.ofVec3 m.diffuseColor),
                 ("material.specularColor", UniformValue.ofVec3 m.specularColor),
                 ("material.shininess", UniformValue.ofFloat m.shininess)]⟩ }) := by
  have htags : (s.DefineObjectMaterials indeterminate).m_objectMaterials.map
      OBJECT_MATERIAL.tag
      = ["book", "desk", "cup", "notebook", "metal", "mechpencil", "eraser"] := by
    unfold SceneManager.DefineObjectMaterials
    rw [h0]
    rfl
  have hnd : ((s.DefineObjectMaterials indeterminate).m_objectMaterials.map
      OBJECT_MATERIAL.tag).Nodup := by
    rw [htags]
    decide
  have hused : (SceneManager.RenderScene : List (SceneCall F)).filterMap SceneCall.materialTag
      = ["desk", "cup", "cup", "cup", "book", "notebook", "notebook", "metal", "metal",
         "metal", "metal", "metal", "metal", "metal", "metal", "mechpencil", "mechpencil",
         "mechpencil", "eraser", "mechpencil", "eraser", "eraser", "eraser"] := rfl
  refine ⟨htags, hnd, hused, ?_⟩
  intro t ht
  rw [hused] at ht
  have hreg : t ∈ (s.DefineObjectMaterials indeterminate).m_objectMaterials.map
      OBJECT_MATERIAL.tag := by
    rw [htags]
    revert t
    decide
  obtain ⟨m0, hm0, hm0t⟩ := List.mem_map.mp hreg
  obtain ⟨pre, m, post, hl, hm, hpre⟩ :=
    exists_first_split (fun x : OBJECT_MATERIAL F => x.tag = t)
      (s.DefineObjectMaterials indeterminate).m_objectMaterials ⟨m0, hm0, hm0t⟩
  have hi : (s.DefineObjectMaterials indeterminate).m_objectMaterials[pre.length]? = some m := by
    rw [hl, List.getElem?_append_right (le_refl _)]; simp
  refine ⟨pre.length, m, hi, hm, ?_, ?_⟩
  · intro j x hj hx
    obtain ⟨hjlt, hjx⟩ := List.getElem?_eq_some.mp hj
    obtain ⟨hilt, hie⟩ := List.getElem?_eq_some.mp hi
    have hj2 : j < ((s.DefineObjectMaterials indeterminate).m_objectMaterials.map
        OBJECT_MATERIAL.tag).length := by simpa using hjlt
    have hi2 : pre.length < ((s.DefineObjectMaterials indeterminate).m_objectMaterials.map
        OBJECT_MATERIAL.tag).length := by simpa using hilt
    refine (@List.Nodup.getElem_inj_iff _ _ hnd j hj2 pre.length hi2).mp ?_
    simp only [List.getElem_map]
    rw [hjx, hie, hx, hm]
  · intro s1 sh local0 hmats hsh
    exact SetShaderMaterial_first s1 sh t local0 pre m post (hmats.trans hl) hpre hm hsh

end SceneMaterialsUsed

section SceneMaterialsInstance

/-- Instance of C22: `DefineObjectMaterials` on the empty list of a fresh scene
manager registers the seven tags. -/
theorem RenderScene_materials_registered_witness :
    (⟨some ⟨[]⟩, [], []⟩ : SceneManager ℚ).m_objectMaterials = [] ∧
    ((⟨some ⟨[]⟩, [], []⟩ : SceneManager ℚ).DefineObjectMaterials
        ⟨⟨1, 2, 3⟩, 4, ⟨5, 6, 7⟩, ⟨8, 9, 10⟩, 11, "local"⟩).m_objectMaterials.map
        OBJECT_MATERIAL.tag
      = ["book", "desk", "cup", "notebook", "metal", "mechpencil", "eraser"] :=
  ⟨rfl, (RenderScene_materials_registered (⟨some ⟨[]⟩, [], []⟩ : SceneManager ℚ)
    ⟨⟨1, 2, 3⟩, 4, ⟨5, 6, 7⟩, ⟨8, 9, 10⟩, 11, "local"⟩ rfl).1⟩

end SceneMaterialsInstance

/-! ## Null shader pointer -/

section NullShader

variable {F : Type} [Field F]

/-- C23, the code at a failing input.  With a null shader pointer,
`SetTransformations`, `SetShaderColor`, `SetShaderTexture` and
`SetTextureUVScale` return with the state unchanged, and so does
`SetShaderMaterial` when no material is registered.  With at least one material
registered, `SetShaderMaterial` calls a setter through the null pointer: the
call does not complete.  This is the case after `DefineObjectMaterials`. -/
theorem SetShaderMaterial_null_shader (lib : glm.MathLib F) (textures : List TEXTURE_INFO)
    (materials : List (OBJECT_MATERIAL F)) (m indeterminate : OBJECT_MATERIAL F)
    (scaleXYZ positionXYZ : glm.vec3 F) (rx ry rz r g b a u v : F) (tag : String) :
    SceneManager.SetTransformations lib ⟨none, textures, materials⟩ scaleXYZ rx ry rz
        positionXYZ = ⟨none, textures, materials⟩ ∧
    SceneManager.SetShaderColor ⟨none, textures, materials⟩ r g b a
      = ⟨none, textures, materials⟩ ∧
    SceneManager.SetShaderTexture (⟨none, textures, materials⟩ : SceneManager F) tag
      = ⟨none, textures, materials⟩ ∧
    SceneManager.SetTextureUVScale ⟨none, textures, materials⟩ u v
      = ⟨none, textures, materials⟩ ∧
    SceneManager.SetShaderMaterial ⟨none, textures, []⟩ tag indeterminate
      = some ⟨none, textures, []⟩ ∧
    SceneManager.SetShaderMaterial ⟨none, textures, m :: materials⟩ tag indeterminate
      = none ∧
    SceneManager.SetShaderMaterial
        (SceneManager.DefineObjectMaterials ⟨none, textures, []⟩ indeterminate) tag
        indeterminate
      = none :=
  ⟨rfl, rfl, rfl, rfl, rfl,
   SetShaderMaterial_null _ tag indeterminate (List.cons_ne_nil m materials) rfl,
   SetShaderMaterial_null _ tag indeterminate
    (by unfold SceneManager.DefineObjectMaterials; simp) rfl⟩

end NullShader
